import Mathlib

/-!
# HamClock rendering core

A shallow embedding of `src/src/main.cpp` (ESP32 HamClock): the differential
digit renderer `displayTime`, the static-frame redraw
`drawOrredrawStaticElements`, the weather fetch that replaces the scroll text,
the control loop `loop` with its screensaver state machine, and the splash
image display `displayPNGfromSPIFFS` with its callbacks.

Conventions of the embedding
* An Arduino `String` is a `List Char`. `String::operator[]` returns the NUL
  character for an index past the end, and `String(char)` of NUL is the empty
  string (it is built from the C string holding that one character).
* `unsigned long` is 32 bits wide on the ESP32: values are `Nat`, and the
  subtraction of two of them is taken modulo `2 ^ 32`.
* `int` values that stay far from the 32-bit limits are `Int`.
* Calls on the display, the banner sprite, `Serial` and the settings store are
  recorded, in order, as a list of `Effect`.
* Reading `positions[i]` with `i` past the eight entries of the array, and
  filling `lineBuffer` with a row of more than its 480 entries, are undefined
  behaviour in the source: the embedding returns `none` there.
-/

namespace HamClock

/-! ## Arduino strings -/

/-- The NUL character, which `String::operator[]` returns past the end. -/
def NUL : Char := Char.ofNat 0

/-- The C++ `String::operator[]`: the character at `i`, NUL when `i` is out of range. -/
def charAt (s : List Char) (i : Nat) : Char := s.getD i NUL

/-- The C++ `String(char c)`: the one-character string, empty when `c` is NUL. -/
def stringOfChar (c : Char) : List Char := if c = NUL then [] else [c]

/-! ## Observable effects -/

def TFT_BLACK : Nat := 0x0000
def TFT_WHITE : Nat := 0xFFFF
def TFT_DARKGREY : Nat := 0x7BEF

/-- Fonts selected with `setFreeFont` in the modelled functions. -/
inductive Font where
  | digital7Mono42
  | digital7MonoItalic42
  | orbitronMedium8
  | orbitronLight32
  deriving DecidableEq, Repr

/-- One observable call: on the display `tft`, on the banner sprite `stext2`,
on `Serial` (the two mode-change messages of `loop` and the messages of
`displayPNGfromSPIFFS`, without their emoji), on the settings store, or on the
SPIFFS file behind the PNG callbacks. -/
inductive Effect where
  | setTextColor (c : Nat)
  | setTextColorBg (c bg : Nat)
  | setFreeFont (f : Font)
  | drawString (s : List Char) (x y : Int) (font : Nat)
  | drawCentreString (s : List Char) (x y : Int) (font : Nat)
  | fillScreen (c : Nat)
  | fillRect (x y w h : Int) (c : Nat)
  | drawRoundRect (x y w h r : Int) (c : Nat)
  | drawPixel (x y : Int) (c : Nat)
  | spriteFill (c : Nat)
  | spriteSetTextColor (c : Nat)
  | spriteDrawString (s : List Char) (x y : Int)
  | spritePush (x y : Int)
  | serialPrintln (msg : String)
  | saveSettings
  | pushImage (x y w h : Int) (data : List Nat)
  | startWrite
  | endWrite
  | delay (ms : Int)
  | spiffsOpen (path : List Char)
  | fileClose
  deriving DecidableEq, Repr

/-! ## displayTime (main.cpp 1107-1142) -/

/-- The array `positions[]` of `displayTime`: the x coordinate of each of the 8 slots. -/
def positions (x : Int) : List Int :=
  [x, x + 48, x + 78, x + 108, x + 156, x + 186, x + 216, x + 264]

/-- Body of the `for` loop of `displayTime` at index `i`: nothing when the
character is unchanged, otherwise the old glyph drawn in black and the new one
in `fontColor`; `none` when `positions[i]` is read out of bounds. -/
def displayTimeSlot (x y : Int) (time previousTime : List Char) (yOffset : Int)
    (fontColor : Nat) (i : Nat) : Option (List Effect) :=
  if charAt time i ≠ charAt previousTime i then
    match (positions x)[i]? with
    | none => none
    | some px =>
      some [Effect.setTextColor TFT_BLACK,
            Effect.drawString (stringOfChar (charAt previousTime i)) px (y + yOffset) 1,
            Effect.setTextColor fontColor,
            Effect.drawString (stringOfChar (charAt time i)) px (y + yOffset) 1]
  else some []

/-- The `for (int i = 0; i < time.length(); i++)` loop of `displayTime`, run
from index `i` for `n` more iterations. -/
def displayTimeLoop (x y : Int) (time previousTime : List Char) (yOffset : Int)
    (fontColor : Nat) : Nat → Nat → Option (List Effect)
  | 0, _ => some []
  | n + 1, i =>
    match displayTimeSlot x y time previousTime yOffset fontColor i with
    | none => none
    | some ops =>
      match displayTimeLoop x y time previousTime yOffset fontColor n (i + 1) with
      | none => none
      | some rest => some (ops ++ rest)

/-- What a call of `displayTime` leaves behind: the two globals it updates,
the string referenced by `previousTime`, and the draw calls it made. -/
structure DisplayTimeResult where
  refreshDigits : Bool
  refreshDigitsCounter : Int
  previousTime : List Char
  ops : List Effect
  deriving DecidableEq, Repr

/-- The forced-repaint latch at the head of `displayTime` (lines 1109-1124):
returns the new `refreshDigits`, `refreshDigitsCounter` and `previousTime`. -/
def displayTimeLatch (refreshDigits : Bool) (refreshDigitsCounter : Int)
    (previousTime : List Char) : Bool × Int × List Char :=
  if refreshDigits then
    let c := refreshDigitsCounter + 1
    if c = 1 then (true, c, [])
    else if c ≥ 2 then (false, 0, [])
    else (true, c, previousTime)
  else (refreshDigits, refreshDigitsCounter, previousTime)

/-- The function `displayTime(x, y, time, previousTime, yOffset, fontColor)`,
with the globals `refreshDigits` and `refreshDigitsCounter` passed explicitly. -/
def displayTime (x y : Int) (time previousTime : List Char) (yOffset : Int)
    (fontColor : Nat) (refreshDigits : Bool) (refreshDigitsCounter : Int) :
    Option DisplayTimeResult :=
  let l := displayTimeLatch refreshDigits refreshDigitsCounter previousTime
  match displayTimeLoop x y time l.2.2 yOffset fontColor time.length 0 with
  | none => none
  | some ops =>
    some { refreshDigits := l.1, refreshDigitsCounter := l.2.1,
           previousTime := time, ops := ops }

/-- Whether `op` is a `drawString` at x coordinate `px`. -/
def Effect.drawsAt (px : Int) : Effect → Bool
  | Effect.drawString _ x _ _ => x == px
  | _ => false

/-- Whether the draw log `ops` holds a `drawString` at slot `i` of the field anchored at `x`. -/
def drawsAtSlot (x : Int) (i : Nat) (ops : List Effect) : Bool :=
  match (positions x)[i]? with
  | none => false
  | some px => ops.any (Effect.drawsAt px)

/-- Whether the draw log `ops` paints the glyph `c` in colour `fontColor` at
slot `i` of the field anchored at `(x, y)`: the colour is selected and the
one-character string is drawn right after. -/
def paintsGlyph (x y : Int) (fontColor : Nat) (i : Nat) (c : Char) : List Effect → Bool
  | a :: b :: rest =>
    (match (positions x)[i]? with
     | none => false
     | some px => a == Effect.setTextColor fontColor && b == Effect.drawString [c] px y 1)
    || paintsGlyph x y fontColor i c (b :: rest)
  | _ => false

/-- The number of indices in `[i, i + n)` at which `time` and `prev` differ. -/
def changedCount (time prev : List Char) (i n : Nat) : Nat :=
  ((List.range' i n).filter (fun j => charAt time j != charAt prev j)).length

/-! ## Global state -/

def TFT_GREEN : Nat := 0x07E0
def TFT_GOLD : Nat := 0xFEA0
def TFT_DARKGREEN : Nat := 0x03E0
def TFT_CYAN : Nat := 0x07FF
def TFT_LIGHTGREY : Nat := 0xD69A

/-- The global variables of main.cpp that the rendering core reads or writes,
followed by the `static` locals of `loop`. The two `float` coordinates
`latitude` and `longitude` only feed the weather URL and are left out. -/
structure Globals where
  localTimeColour : Nat
  utcTimeColour : Nat
  doubleFrame : Bool
  localFrameColour : Nat
  utcFrameColour : Nat
  bannerColour : Nat
  bannerSpeed : Int
  localTimeLabel : List Char
  utcTimeLabel : List Char
  startupLogo : List Char
  italicClockFonts : Bool
  screenSaverTimeout : Nat
  refreshDigits : Bool
  previousLocalTime : List Char
  previousUTCtime : List Char
  refreshDigitsCounter : Int
  refreshFrames : Bool
  refreshFramesCounter : Int
  textX : Int
  scrollText : List Char
  lastActivity : Nat
  previousMillis : Nat
  previousMillisForScroller : Nat
  lastDotUpdate : Nat
  screenSaver : Bool
  deriving DecidableEq, Repr

/-- The `int tOffset = 2` global, which nothing assigns. -/
def tOffset : Int := 2

/-- Width of the banner sprite once `stext2.createSprite(310, 30)` has run:
the value `stext2.width()` returns in `loop` and in the request handlers. -/
def stext2Width : Int := 310

/-- The message `fetchWeatherData` shows when the HTTP request fails; also the
initial value of `scrollText`. -/
def noWeatherText : List Char :=
  "Sorry, No Weather Info At This Moment!!!            Have you enterred your API key?".toList

/-! ## drawOrredrawStaticElements (main.cpp 1361-1411) -/

/-- Draw calls for one clock frame whose top edge is at `top`. -/
def frameOps (top : Int) (colour : Nat) (doubleFrame : Bool) : List Effect :=
  [Effect.fillRect 0 top 320 87 TFT_BLACK,
   Effect.drawRoundRect 1 (top + 1) 318 85 4 TFT_BLACK,
   Effect.drawRoundRect 0 top 320 87 5 colour] ++
  (if doubleFrame then
    [Effect.drawRoundRect 1 (top + 1) 318 85 4 colour,
     Effect.drawRoundRect 2 (top + 2) 316 83 4 colour,
     Effect.drawRoundRect 3 (top + 3) 314 81 4 colour]
   else [])

/-- The function `drawOrredrawStaticElements()`: with `refreshFrames` set it
counts the call and returns early until the count reaches 2; otherwise it
clears both previous-time strings and redraws frames and labels. -/
def drawOrredrawStaticElements (g : Globals) : Globals × List Effect :=
  let c := g.refreshFramesCounter + 1
  if g.refreshFrames && decide (c < 2) then
    ({ g with refreshFramesCounter := c }, [])
  else
    let g1 := if g.refreshFrames then
        { g with refreshFrames := false, refreshFramesCounter := 0 }
      else g
    ({ g1 with previousLocalTime := [], previousUTCtime := [] },
     [Effect.setFreeFont Font.orbitronMedium8,
      Effect.fillRect 25 (0 + 85 - 10) 270 20 TFT_BLACK,
      Effect.fillRect 25 (106 + 85 - 10) 270 20 TFT_BLACK] ++
     frameOps 0 g1.localFrameColour g1.doubleFrame ++
     [Effect.setTextColorBg TFT_DARKGREY TFT_BLACK,
      Effect.drawCentreString g1.localTimeLabel 160 76 1] ++
     frameOps 105 g1.utcFrameColour g1.doubleFrame ++
     [Effect.drawCentreString g1.utcTimeLabel 160 (76 + 105) 1])

/-! ## fetchWeatherData (main.cpp 894-1084) -/

/-- The function `fetchWeatherData()`. `weather` is the outcome of the HTTP
request: `some text` is the message assembled from the JSON reply on HTTP 200,
`none` is any other HTTP code. `width` is what `stext2.width()` returns. In
both branches the scroll offset is set to `width`. -/
def fetchWeatherData (width : Int) (weather : Option (List Char)) (g : Globals) :
    Globals × List Effect :=
  match weather with
  | some text =>
    ({ g with scrollText := text, textX := width },
     [Effect.spriteDrawString text g.textX 0])
  | none =>
    ({ g with scrollText := noWeatherText, textX := width }, [])

/-! ## formatLocalTime (main.cpp 1087-1094) -/

/-- Two decimal digits, as `strftime` prints hours, minutes and seconds. -/
def twoDigits (n : Nat) : List Char :=
  [Char.ofNat (48 + n / 10 % 10), Char.ofNat (48 + n % 10)]

/-- The function `formatLocalTime(epochTime)`: `localtime` (no time zone is
configured, so UTC) followed by `strftime` with the format `%H:%M:%S`. -/
def formatLocalTime (epochTime : Int) : List Char :=
  let secs := (epochTime % 86400).toNat
  twoDigits (secs / 3600) ++ [':'] ++ twoDigits (secs % 3600 / 60) ++ [':'] ++
    twoDigits (secs % 60)

/-! ## Machine arithmetic -/

/-- Subtraction of two `unsigned long` values (32 bits). -/
def sub32 (a b : Nat) : Nat := (a % 2 ^ 32 + 2 ^ 32 - b % 2 ^ 32) % 2 ^ 32

/-- Conversion of an `int` to `unsigned long`, as in a mixed comparison. -/
def toUnsigned (i : Int) : Nat := (i % 2 ^ 32).toNat

/-- Conversion of an `unsigned long` to `long` (32 bits, two's complement). -/
def toLong (n : Nat) : Int :=
  if n % 2 ^ 32 < 2 ^ 31 then (n % 2 ^ 32 : Nat) else (n % 2 ^ 32 : Nat) - 2 ^ 32

/-- Arduino `random(howsmall, howbig)` on the raw value `raw` of the random source. -/
def random (raw howsmall howbig : Nat) : Nat :=
  if howsmall ≥ howbig then howsmall else howsmall + raw % (howbig - howsmall)

/-- The TFT_eSPI `color565(r, g, b)`. -/
def color565 (r g b : Nat) : Nat :=
  (((r &&& 0xF8) <<< 8) ||| ((g &&& 0xFC) <<< 3) ||| (b >>> 3)) % 2 ^ 16

/-! ## Request handlers registered in setup (main.cpp 400-738) -/

/-- The body of a POST request as a handler sees it: absent (no `plain`
argument), rejected by `deserializeJson`, or parsed into the values the
handler reads from the document. -/
inductive Body (α : Type) where
  | missing
  | invalid
  | doc (d : α)

/-- Values the `/setcolor` handler reads: `doc["target"]`, `doc["value"]` as
`bool` and `doc["color"]` as `uint16_t`. -/
structure SetColorDoc where
  target : List Char
  value : Bool
  color : Nat

/-- Values the `/setlabel` handler reads. -/
structure SetLabelDoc where
  target : List Char
  value : List Char

/-- Values the `/saveall` handler reads; `none` is a key that is absent or of
the wrong type, for which `doc[key] | old` keeps the old value. -/
structure SaveAllDoc where
  localTimeLabel : Option (List Char)
  utcTimeLabel : Option (List Char)
  italicClockFonts : Option Bool
  doubleFrame : Option Bool
  bannerSpeed : Option Int
  screenSaverTimeout : Option Nat

/-- A request that `server.handleClient()` dispatches during one `loop` call. -/
inductive Request where
  | setcolor (b : Body SetColorDoc)
  | setspeed (b : Body Int)
  | setlabel (b : Body SetLabelDoc)
  | setposition (b : Body Bool) (weather : Option (List Char))
  | setitalic (b : Body (Option Bool))
  | saveall (b : Body SaveAllDoc)
  | setbootimage (b : Body (Option (List Char)))
  | uploadpng (splash : List Effect)
  | readOnly

/-- Outcome of a handler: new globals, effects, HTTP status, and whether the
handler ended in `esp_restart()`. -/
structure HandlerResult where
  globals : Globals
  ops : List Effect
  status : Nat
  restart : Bool

/-- The Arduino `constrain(amt, low, high)`. -/
def constrain (amt low high : Int) : Int :=
  if amt < low then low else if amt > high then high else amt

/-- The `/setcolor` handler (main.cpp 437-492). -/
def handleSetColor (b : Body SetColorDoc) (g : Globals) : HandlerResult :=
  match b with
  | Body.missing => { globals := g, ops := [], status := 400, restart := false }
  | Body.invalid => { globals := g, ops := [], status := 400, restart := false }
  | Body.doc d =>
    if d.target = "doubleFrame".toList then
      let g1 := { g with doubleFrame := !d.value }
      let r := drawOrredrawStaticElements g1
      { globals := r.1, ops := Effect.saveSettings :: r.2, status := 200, restart := false }
    else
      let updated : Option Globals :=
        if d.target = "localTimeDigits".toList then some { g with localTimeColour := d.color }
        else if d.target = "localTimeFrame".toList then some { g with localFrameColour := d.color }
        else if d.target = "utcTimeDigits".toList then some { g with utcTimeColour := d.color }
        else if d.target = "utcTimeFrame".toList then some { g with utcFrameColour := d.color }
        else if d.target = "weatherBannerText".toList then some { g with bannerColour := d.color }
        else none
      match updated with
      | none => { globals := g, ops := [], status := 400, restart := false }
      | some g1 =>
        let r := drawOrredrawStaticElements g1
        { globals := { r.1 with refreshDigits := true },
          ops := Effect.saveSettings :: r.2, status := 200, restart := false }

/-- The `/setspeed` handler (main.cpp 500-519). -/
def handleSetSpeed (b : Body Int) (g : Globals) : HandlerResult :=
  match b with
  | Body.missing => { globals := g, ops := [], status := 400, restart := false }
  | Body.invalid => { globals := g, ops := [], status := 400, restart := false }
  | Body.doc speed =>
    { globals := { g with bannerSpeed := constrain speed 0 45 },
      ops := [], status := 200, restart := false }

/-- The `/setlabel` handler (main.cpp 522-554). -/
def handleSetLabel (b : Body SetLabelDoc) (g : Globals) : HandlerResult :=
  match b with
  | Body.missing => { globals := g, ops := [], status := 400, restart := false }
  | Body.invalid => { globals := g, ops := [], status := 400, restart := false }
  | Body.doc d =>
    let updated : Option Globals :=
      if d.target = "localTimeLabel".toList then
        some { g with localTimeLabel := "  ".toList ++ d.value ++ "  ".toList }
      else if d.target = "utcTimeLabel".toList then
        some { g with utcTimeLabel := "  ".toList ++ d.value ++ "  ".toList }
      else none
    match updated with
    | none => { globals := g, ops := [], status := 400, restart := false }
    | some g1 =>
      let r := drawOrredrawStaticElements { g1 with refreshFrames := true }
      { globals := r.1, ops := r.2, status := 200, restart := false }

/-- The `/setposition` handler (main.cpp 556-590); the document value says
whether both `latitude` and `longitude` are present. -/
def handleSetPosition (b : Body Bool) (weather : Option (List Char)) (g : Globals) :
    HandlerResult :=
  match b with
  | Body.missing => { globals := g, ops := [], status := 400, restart := false }
  | Body.invalid => { globals := g, ops := [], status := 400, restart := false }
  | Body.doc hasBoth =>
    if hasBoth then
      let r := fetchWeatherData stext2Width weather g
      { globals := r.1, ops := r.2, status := 200, restart := false }
    else { globals := g, ops := [], status := 400, restart := false }

/-- The `/setitalic` handler (main.cpp 592-614). -/
def handleSetItalic (b : Body (Option Bool)) (g : Globals) : HandlerResult :=
  match b with
  | Body.missing => { globals := g, ops := [], status := 400, restart := false }
  | Body.invalid => { globals := g, ops := [], status := 400, restart := false }
  | Body.doc v =>
    let r := drawOrredrawStaticElements
      { g with italicClockFonts := v.getD g.italicClockFonts }
    { globals := r.1, ops := r.2, status := 200, restart := false }

/-- The `/saveall` handler (main.cpp 620-672), which ends in `esp_restart()`. -/
def handleSaveAll (b : Body SaveAllDoc) (g : Globals) : HandlerResult :=
  match b with
  | Body.missing => { globals := g, ops := [], status := 400, restart := false }
  | Body.invalid => { globals := g, ops := [], status := 400, restart := false }
  | Body.doc d =>
    { globals :=
        { g with localTimeLabel := d.localTimeLabel.getD g.localTimeLabel,
                 utcTimeLabel := d.utcTimeLabel.getD g.utcTimeLabel,
                 italicClockFonts := d.italicClockFonts.getD g.italicClockFonts,
                 doubleFrame := d.doubleFrame.getD g.doubleFrame,
                 bannerSpeed := d.bannerSpeed.getD g.bannerSpeed,
                 screenSaverTimeout := d.screenSaverTimeout.getD g.screenSaverTimeout },
      ops := [Effect.saveSettings], status := 200, restart := true }

/-- The JSON document the `/config` handler sends (main.cpp 410-432), without
the two floating-point coordinates. -/
structure ConfigDoc where
  localTimeColour : Nat
  utcTimeColour : Nat
  doubleFrame : Bool
  localFrameColour : Nat
  utcFrameColour : Nat
  bannerColour : Nat
  bannerSpeed : Int
  localTimeLabel : List Char
  utcTimeLabel : List Char
  startupLogo : List Char
  italicClockFonts : Bool
  screenSaverTimeout : Nat
  deriving DecidableEq, Repr

/-- The `/config` handler (main.cpp 410-432): every setting as stored, except
`screenSaverTimeout`, which is divided by 60000 (`unsigned long` division). -/
def handleConfig (g : Globals) : ConfigDoc :=
  { localTimeColour := g.localTimeColour, utcTimeColour := g.utcTimeColour,
    doubleFrame := g.doubleFrame, localFrameColour := g.localFrameColour,
    utcFrameColour := g.utcFrameColour, bannerColour := g.bannerColour,
    bannerSpeed := g.bannerSpeed, localTimeLabel := g.localTimeLabel,
    utcTimeLabel := g.utcTimeLabel, startupLogo := g.startupLogo,
    italicClockFonts := g.italicClockFonts,
    screenSaverTimeout := g.screenSaverTimeout / 60000 }

/-- The first `/setbootimage` handler (main.cpp 674-701), the one the server
dispatches to; the document value is `doc["bootImageId"]` when present. -/
def handleSetBootImage (b : Body (Option (List Char))) (g : Globals) : HandlerResult :=
  match b with
  | Body.missing => { globals := g, ops := [], status := 400, restart := false }
  | Body.invalid => { globals := g, ops := [], status := 400, restart := false }
  | Body.doc none => { globals := g, ops := [], status := 400, restart := false }
  | Body.doc (some name) =>
    { globals := { g with startupLogo := name },
      ops := [Effect.saveSettings], status := 200, restart := true }

/-- The upload callback `handlePNGUpload()` over one whole upload (main.cpp
1471-1520): the start banner, then at the end the new splash image (its draw
calls are `splash`), a cleared screen and the static elements. -/
def handlePNGUpload (splash : List Effect) (g : Globals) : HandlerResult :=
  let g1 := { g with startupLogo := "logo4.png".toList }
  let r := drawOrredrawStaticElements g1
  { globals := r.1,
    ops := [Effect.fillScreen TFT_BLACK,
            Effect.setTextColorBg TFT_WHITE TFT_BLACK,
            Effect.setFreeFont Font.orbitronLight32,
            Effect.drawCentreString "Receiving".toList 160 10 1,
            Effect.setTextColorBg TFT_CYAN TFT_BLACK,
            Effect.drawCentreString "New".toList 160 60 1,
            Effect.drawCentreString "Splash Screen".toList 160 110 1,
            Effect.setTextColorBg TFT_LIGHTGREY TFT_BLACK,
            Effect.setFreeFont Font.orbitronMedium8,
            Effect.drawCentreString "Please wait...".toList 160 170 1] ++
           splash ++ [Effect.saveSettings, Effect.fillScreen TFT_BLACK] ++ r.2,
    status := 200, restart := false }

/-- The call `server.handleClient()` at the head of `loop`: dispatch of the
pending request, if any. Requests that only read the state (`/`, `/config`,
`/ping`, `/scrolltext`, static files) are `Request.readOnly`. -/
def handleClient (req : Option Request) (g : Globals) : HandlerResult :=
  match req with
  | none => { globals := g, ops := [], status := 0, restart := false }
  | some (Request.setcolor b) => handleSetColor b g
  | some (Request.setspeed b) => handleSetSpeed b g
  | some (Request.setlabel b) => handleSetLabel b g
  | some (Request.setposition b w) => handleSetPosition b w g
  | some (Request.setitalic b) => handleSetItalic b g
  | some (Request.saveall b) => handleSaveAll b g
  | some (Request.setbootimage b) => handleSetBootImage b g
  | some (Request.uploadpng splash) => handlePNGUpload splash g
  | some Request.readOnly => { globals := g, ops := [], status := 200, restart := false }

/-! ## loop (main.cpp 768-856) -/

/-- What one call of `loop` reads from its environment. -/
structure LoopInput where
  /-- the request pending for `server.handleClient()`, if any -/
  request : Option Request
  /-- the value of `millis()`, below `2 ^ 32` -/
  currentMillis : Nat
  /-- the result of `touchscreen.tirqTouched()` -/
  tirqTouched : Bool
  /-- the result of `touchscreen.touched()` -/
  touched : Bool
  /-- the pressure `p.z` of `touchscreen.getPoint()` -/
  z : Int
  /-- the value of `timeClient.getEpochTime()` -/
  epochTime : Nat
  /-- the value of `timeClient.getFormattedTime()` -/
  utcTime : List Char
  /-- the outcome of the HTTP request, should `fetchWeatherData` run -/
  weather : Option (List Char)
  /-- the measure `stext2.textWidth` of the banner font -/
  textWidth : List Char → Int
  /-- the raw values the random source yields, in call order -/
  rnd : Nat → Nat

/-- Outcome of one call of `loop`. -/
structure LoopResult where
  globals : Globals
  ops : List Effect
  restart : Bool

/-- The scroll offset after one banner tick (lines 848-850): one pixel to the
left, and back to the band width `W` once it is below `-w`, where `w` is the
rendered width of the message. -/
def nextTextX (W w textX : Int) : Int :=
  if textX - 1 < -w then W else textX - 1

/-- The offset at which banner tick number `n` draws the message, for a band
of width `W` and a message of rendered width `w` that stay fixed, counted from
a first tick at offset `t0`. -/
def tickOffset (W w t0 : Int) (n : Nat) : Int := (nextTextX W w)^[n] t0

/-- The banner tick of `loop` (lines 844-851). -/
def loopScroll (inp : LoopInput) (g : Globals) : Globals × List Effect :=
  ({ g with previousMillisForScroller := inp.currentMillis,
            textX := nextTextX stext2Width (inp.textWidth g.scrollText) g.textX },
   [Effect.spriteFill TFT_BLACK,
    Effect.spriteSetTextColor g.bannerColour,
    Effect.spriteDrawString g.scrollText g.textX 0,
    Effect.spritePush 5 205])

/-- The `for` loop of the screensaver animation (lines 795-801): `n` more
pixels, the next being number `i`; every pixel takes five random values. -/
def dotOps (rnd : Nat → Nat) : Nat → Nat → List Effect
  | 0, _ => []
  | n + 1, i =>
    Effect.drawPixel (random (rnd (5 * i)) 0 320) (random (rnd (5 * i + 1)) 0 240)
      (color565 (random (rnd (5 * i + 2)) 0 256) (random (rnd (5 * i + 3)) 0 256)
        (random (rnd (5 * i + 4)) 0 256)) :: dotOps rnd n (i + 1)

/-- The screensaver branch of `loop` (lines 790-818). -/
def loopScreenSaver (inp : LoopInput) (g : Globals) : Globals × List Effect :=
  let a : Globals × List Effect :=
    if sub32 inp.currentMillis g.lastDotUpdate ≥ 1000 then
      ({ g with lastDotUpdate := inp.currentMillis },
       Effect.fillScreen TFT_BLACK :: dotOps inp.rnd 200 0)
    else (g, [])
  if inp.tirqTouched && inp.touched && decide (inp.z > 200) then
    let r := drawOrredrawStaticElements { a.1 with screenSaver := false }
    ({ r.1 with lastActivity := inp.currentMillis },
     a.2 ++ [Effect.serialPrintln "Touch detected - exiting screensaver.",
             Effect.fillScreen TFT_BLACK] ++ r.2)
  else a

/-- The normal-mode branch of `loop` (lines 823-852). -/
def loopActive (inp : LoopInput) (g : Globals) : Option (Globals × List Effect) :=
  let localEpoch := toLong (inp.epochTime + toUnsigned (tOffset * 3600))
  let localTime := formatLocalTime localEpoch
  match displayTime 8 5 localTime g.previousLocalTime 0 g.localTimeColour
      g.refreshDigits g.refreshDigitsCounter with
  | none => none
  | some d1 =>
    match displayTime 10 107 inp.utcTime g.previousUTCtime 0 g.utcTimeColour
        d1.refreshDigits d1.refreshDigitsCounter with
    | none => none
    | some d2 =>
      let g2 := { g with previousLocalTime := d1.previousTime,
                         previousUTCtime := d2.previousTime,
                         refreshDigits := d2.refreshDigits,
                         refreshDigitsCounter := d2.refreshDigitsCounter }
      let w : Globals × List Effect :=
        if sub32 inp.currentMillis g2.previousMillis ≥ 1000 * 60 * 5 then
          fetchWeatherData stext2Width inp.weather
            { g2 with previousMillis := inp.currentMillis }
        else (g2, [])
      let s : Globals × List Effect :=
        if sub32 inp.currentMillis w.1.previousMillisForScroller ≥ toUnsigned w.1.bannerSpeed then
          loopScroll inp w.1
        else (w.1, [])
      some (s.1,
        [Effect.setTextColor TFT_WHITE,
         Effect.setFreeFont (if g.italicClockFonts then Font.digital7MonoItalic42
                             else Font.digital7Mono42)] ++
        d1.ops ++ d2.ops ++ w.2 ++ s.2)

/-- The inactivity check of `loop` (lines 781-785). -/
def loopInactivity (inp : LoopInput) (g : Globals) : Globals × List Effect :=
  if !g.screenSaver && decide (sub32 inp.currentMillis g.lastActivity > g.screenSaverTimeout) then
    ({ g with screenSaver := true },
     [Effect.serialPrintln "Inactivity detected - entering screensaver."])
  else (g, [])

/-- The function `loop()`: request handling, the inactivity check, then the
screensaver branch or the normal-mode branch. A handler that restarts the
device ends the call. -/
def loop (inp : LoopInput) (g : Globals) : Option LoopResult :=
  let h := handleClient inp.request g
  if h.restart then some { globals := h.globals, ops := h.ops, restart := true }
  else
    let c := loopInactivity inp h.globals
    if c.1.screenSaver then
      let r := loopScreenSaver inp c.1
      some { globals := r.1, ops := h.ops ++ c.2 ++ r.2, restart := false }
    else
      match loopActive inp c.1 with
      | none => none
      | some r => some { globals := r.1, ops := h.ops ++ c.2 ++ r.2, restart := false }

/-! ## setup (main.cpp 146-766) and the reachable states -/

/-- The settings file as `loadSettings` reads it; `none` is a key that is
absent or of the wrong type. A file that fails to parse is the empty document. -/
structure SettingsDoc where
  localTimeColour : Option Nat
  utcTimeColour : Option Nat
  doubleFrame : Option Bool
  localFrameColour : Option Nat
  utcFrameColour : Option Nat
  bannerColour : Option Nat
  bannerSpeed : Option Int
  localTimeLabel : Option (List Char)
  utcTimeLabel : Option (List Char)
  startupLogo : Option (List Char)
  italicClockFonts : Option Bool
  screenSaverTimeout : Option Nat

/-- The initialisers of the global variables and of the statics of `loop`. -/
def initialGlobals : Globals :=
  { localTimeColour := TFT_GREEN, utcTimeColour := TFT_GOLD, doubleFrame := false,
    localFrameColour := TFT_DARKGREY, utcFrameColour := TFT_DARKGREY,
    bannerColour := TFT_DARKGREEN, bannerSpeed := 5,
    localTimeLabel := "  QTH Time  ".toList, utcTimeLabel := "  UTC Time  ".toList,
    startupLogo := "logo1.png".toList, italicClockFonts := false,
    screenSaverTimeout := 1000 * 60 * 60,
    refreshDigits := false, previousLocalTime := [], previousUTCtime := [],
    refreshDigitsCounter := 0, refreshFrames := false, refreshFramesCounter := 0,
    textX := 0, scrollText := noWeatherText, lastActivity := 0,
    previousMillis := 0, previousMillisForScroller := 0, lastDotUpdate := 0,
    screenSaver := false }

/-- The function `loadSettings()` on a settings file that could be opened. -/
def loadSettings (d : SettingsDoc) (g : Globals) : Globals :=
  { g with localTimeColour := d.localTimeColour.getD g.localTimeColour,
           utcTimeColour := d.utcTimeColour.getD g.utcTimeColour,
           doubleFrame := d.doubleFrame.getD g.doubleFrame,
           localFrameColour := d.localFrameColour.getD g.localFrameColour,
           utcFrameColour := d.utcFrameColour.getD g.utcFrameColour,
           bannerColour := d.bannerColour.getD g.bannerColour,
           bannerSpeed := d.bannerSpeed.getD g.bannerSpeed,
           localTimeLabel := d.localTimeLabel.getD g.localTimeLabel,
           utcTimeLabel := d.utcTimeLabel.getD g.utcTimeLabel,
           startupLogo := d.startupLogo.getD g.startupLogo,
           italicClockFonts := d.italicClockFonts.getD g.italicClockFonts,
           screenSaverTimeout := d.screenSaverTimeout.getD g.screenSaverTimeout }

/-- The globals when `setup()` returns: settings loaded, a first weather fetch
(the banner sprite does not exist yet, so its width reads 0), the static
elements drawn, and the scroll offset at the width of the new sprite. -/
def setup (d : SettingsDoc) (weather : Option (List Char)) : Globals :=
  let g0 := loadSettings d initialGlobals
  let g1 := (fetchWeatherData 0 weather g0).1
  let g2 := (drawOrredrawStaticElements g1).1
  { g2 with textX := stext2Width }

/-- The states of the globals at the head of a `loop` call: the state `setup`
leaves, and every state a `loop` call that did not restart the device leaves.
A restart runs `setup` again. -/
inductive Reachable : Globals → Prop where
  | boot (d : SettingsDoc) (weather : Option (List Char)) : Reachable (setup d weather)
  | step (g : Globals) (inp : LoopInput) (r : LoopResult) :
      Reachable g → loop inp g = some r → r.restart = false → Reachable r.globals

/-! ## PNG display (main.cpp 1145-1199)

The callbacks `fileOpen`, `fileClose` and the row callback, and the function
`displayPNGfromSPIFFS`, are in the source. The decoder they are handed to, the
class `PNG` of the PNGdec library, is not: its `open` and `decode` are
modelled from the specification of the Scanline Image Decoder. The byte-level
callbacks `fileRead` and `fileSeek` only feed the decoder and leave no trace
in the model. -/

/-- A file of the SPIFFS store as the decoder sees it: its size in bytes, the
image header (width and height) when the file starts with a well-formed one,
and the pixel rows its data yields, in order, already as the RGB565 values
that `getLineAsRGB565` delivers. -/
structure PngFile where
  size : Nat
  header : Option (Nat × Nat)
  rows : List (List Nat)
  deriving DecidableEq, Repr

/-- The failure modes of the decoder named by the specification. -/
inductive DecodeError where
  | OpenFailed
  | Truncated
  | BadFormat
  deriving DecidableEq, Repr

/-- The state of the global `png` after a successful `png.open`: the handle
the `open` callback returned and the dimensions read from the header. -/
structure PngImage where
  handle : PngFile
  width : Nat
  height : Nat
  deriving DecidableEq, Repr

/-- The result code of `png.open`: success with the opened image, or a failure. -/
inductive OpenResult where
  | ok (img : PngImage)
  | failed (e : DecodeError)
  deriving DecidableEq, Repr

/-- The callback `fileOpen(filename, size)` (lines 1145-1153) on the store
`fs`: it opens "/" followed by the name; when that fails it returns the null
handle (`none`) without writing `*size`, otherwise it stores the file size in
`*size` and returns the handle. The result is the handle, the value of
`*size` after the call, and the call made on the store. -/
def fileOpen (fs : List Char → Option PngFile) (filename : List Char) (size : Int) :
    Option PngFile × Int × List Effect :=
  let fullPath := '/' :: filename
  match fs fullPath with
  | none => (none, size, [Effect.spiffsOpen fullPath])
  | some f => (some f, (f.size : Int), [Effect.spiffsOpen fullPath])

/-- The callback `fileClose(handle)` (lines 1155-1158): it closes the file. -/
def fileClose (_handle : PngFile) : List Effect := [Effect.fileClose]

/-- The row callback handed to `png.open` (lines 1180-1184): the row is
converted into the 480-entry `lineBuffer` and pushed to the display as a
block of height 1 at `(0, y)`. A row wider than the buffer overruns it: `none`. -/
def pngDraw (y iWidth : Nat) (line : List Nat) : Option (List Effect) :=
  if iWidth ≤ 480 then some [Effect.pushImage 0 y iWidth 1 line] else none

/-- Modelled from the spec: `PNG::open` of the PNGdec library, which is not
under src/. The decoder "opens the stream, reads a compressed-image header,
and rejects non-conforming data with `DecodeError::BadFormat`"; a resource
the `open` callback cannot open is `DecodeError::OpenFailed`. The callback is
the `fileOpen` of the source, called with `*size` holding 0. -/
def pngOpen (fs : List Char → Option PngFile) (filename : List Char) :
    OpenResult × List Effect :=
  let o := fileOpen fs filename 0
  match o.1 with
  | none => (OpenResult.failed DecodeError.OpenFailed, o.2.2)
  | some f =>
    match f.header with
    | none => (OpenResult.failed DecodeError.BadFormat, o.2.2)
    | some (w, h) => (OpenResult.ok { handle := f, width := w, height := h }, o.2.2)

/-- Modelled from the spec: the row loop of `PNG::decode` of the PNGdec
library, which is not under src/, with `n` rows still expected and row `y`
next. "Per output row, the decoder ... immediately invokes set pixel block for
that row at the correct vertical offset before decoding the next row"; a
stream that "ends before expected row count" is `DecodeError::Truncated`, and
"all failures abort remaining rows". `draw` is the row callback of the host;
the result is the failure, if any, and the calls the callback made. -/
def pngDecodeRows (draw : Nat → Nat → List Nat → Option (List Effect)) (img : PngImage) :
    Nat → Nat → Option (Option DecodeError × List Effect)
  | 0, _ => some (none, [])
  | n + 1, y =>
    match img.handle.rows[y]? with
    | none => some (some DecodeError.Truncated, [])
    | some line =>
      match draw y img.width line with
      | none => none
      | some ops =>
        match pngDecodeRows draw img n (y + 1) with
        | none => none
        | some r => some (r.1, ops ++ r.2)

/-- Modelled from the spec: `PNG::decode` of the PNGdec library, which is not
under src/: the row loop over the height read from the header. -/
def pngDecode (draw : Nat → Nat → List Nat → Option (List Effect)) (img : PngImage) :
    Option (Option DecodeError × List Effect) :=
  pngDecodeRows draw img img.height 0

/-- The function `displayPNGfromSPIFFS(filename, duration_ms)` (lines
1172-1199); `mounted` is the result of `SPIFFS.begin(true)`. It returns
nothing: the outcome is the list of calls it made. The result code of
`png.decode` is not looked at, and `png.close()` is not called. -/
def displayPNGfromSPIFFS (mounted : Bool) (fs : List Char → Option PngFile)
    (filename : List Char) (duration_ms : Int) : Option (List Effect) :=
  if !mounted then some [Effect.serialPrintln "Failed to mount SPIFFS!"]
  else
    let o := pngOpen fs filename
    match o.1 with
    | OpenResult.ok img =>
      match pngDecode pngDraw img with
      | none => none
      | some d =>
        some (o.2 ++
          [Effect.serialPrintln ("Displaying PNG: " ++ String.mk filename),
           Effect.startWrite] ++ d.2 ++ [Effect.endWrite, Effect.delay duration_ms])
    | OpenResult.failed _ =>
      some (o.2 ++ [Effect.serialPrintln "PNG decode failed.", Effect.delay duration_ms])

/-- The set-pixel-blocks for the rows `rows`, the first of them being row
`y`, of an image of width `w`: one block of height 1 per row, top to bottom. -/
def rowBlocks (w : Nat) : List (List Nat) → Nat → List Effect
  | [], _ => []
  | line :: rest, y => Effect.pushImage 0 y w 1 line :: rowBlocks w rest (y + 1)

/-- Whether `op` is a set-pixel-block. -/
def Effect.isPushImage : Effect → Bool
  | Effect.pushImage _ _ _ _ _ => true
  | _ => false

/-! ## Example states and inputs -/

/-- A settings file that holds no usable key. -/
def emptySettings : SettingsDoc :=
  { localTimeColour := none, utcTimeColour := none, doubleFrame := none,
    localFrameColour := none, utcFrameColour := none, bannerColour := none,
    bannerSpeed := none, localTimeLabel := none, utcTimeLabel := none,
    startupLogo := none, italicClockFonts := none, screenSaverTimeout := none }

/-- A quiet `loop` input at time `ms`: no request, the given touch reading,
UTC time 12:30:00, no weather reply, ten pixels per banner character. -/
def exampleInput (ms : Nat) (touch : Bool) (z : Int) : LoopInput :=
  { request := none, currentMillis := ms, tirqTouched := touch, touched := touch, z := z,
    epochTime := 45000, utcTime := "12:30:00".toList, weather := none,
    textWidth := fun s => 10 * s.length, rnd := fun n => 7919 * n + 13 }

/-- The state `setup` leaves with default settings and no weather reply. -/
def bootExample : Globals := setup emptySettings none

/-- The result of a first `loop` call at 5 ms from `bootExample` with a
threshold of 0 ms configured: the inactivity check fires. -/
def idleExampleResult : LoopResult :=
  (loop (exampleInput 5 false 0) (setup { emptySettings with screenSaverTimeout := some 0 } none)).getD
    { globals := initialGlobals, ops := [], restart := true }

/-- The screensaver state of `idleExampleResult`. -/
def idleExample : Globals := idleExampleResult.globals

/-- A complete image of 2 by 2 pixels. -/
def logoFile : PngFile :=
  { size := 91, header := some (2, 2), rows := [[0xF800, 0x07E0], [0x001F, 0xFFFF]] }

/-- The state of `png` once `logoFile` is open. -/
def logoImage : PngImage := { handle := logoFile, width := 2, height := 2 }

/-- A store whose only file is `/logo1.png`, holding `logoFile`. -/
def logoStore (path : List Char) : Option PngFile :=
  if path = "/logo1.png".toList then some logoFile else none

/-- A file that announces 40 rows of 2 pixels and holds data for 30 of them. -/
def truncatedFile : PngFile :=
  { size := 160, header := some (2, 40), rows := List.replicate 30 [0xF800, 0x001F] }

/-- A store whose file `/logo4.png` is `truncatedFile`. -/
def truncatedStore (path : List Char) : Option PngFile :=
  if path = "/logo4.png".toList then some truncatedFile else none

/-- A store whose file `/logo4.png` is the complete image of the 30 rows that
`truncatedFile` holds. -/
def completeStore (path : List Char) : Option PngFile :=
  if path = "/logo4.png".toList then
    some { size := 160, header := some (2, 30), rows := List.replicate 30 [0xF800, 0x001F] }
  else none

/-- The result of a `loop` call from `bootExample` at 3600000 ms, the default
threshold exactly, with a touch of pressure 300. -/
def activeExampleResult : LoopResult :=
  (loop (exampleInput 3600000 true 300) bootExample).getD
    { globals := initialGlobals, ops := [], restart := true }

/-- The result of a `loop` call from `bootExample` at 3600001 ms, one
millisecond past the default threshold, with no touch. -/
def timedOutExampleResult : LoopResult :=
  (loop (exampleInput 3600001 false 0) bootExample).getD
    { globals := initialGlobals, ops := [], restart := true }

/-- Whether the touch reading of `inp` passes the test of lines 807-810. -/
def qualifyingTouch (inp : LoopInput) : Bool :=
  inp.tirqTouched && inp.touched && decide (inp.z > 200)

/-! ## Vocabulary of the later claims -/

/-- The four calls that repaint one slot, in the words of the claim: the old
glyph drawn in black, then the new glyph drawn in `fontColor`, both at `(px, y)`. -/
def slotRepaint (px y : Int) (fontColor : Nat) (old new : Char) : List Effect :=
  [Effect.setTextColor TFT_BLACK, Effect.drawString (stringOfChar old) px y 1,
   Effect.setTextColor fontColor, Effect.drawString (stringOfChar new) px y 1]

/-- The calls `displayTime` makes for slot `j`, in the words of the claim:
none when the character is unchanged, the four calls of `slotRepaint` at
`(positions[j], y + yOffset)` when it changed. -/
def repaintOps (x y yOffset : Int) (fontColor : Nat) (time prev : List Char) (j : Nat) :
    List Effect :=
  if charAt time j ≠ charAt prev j then
    slotRepaint ((positions x).getD j 0) (y + yOffset) fontColor (charAt prev j) (charAt time j)
  else []

/-- The scroll offset after `n` banner ticks from offset `t0`, when tick
number `k` measures the message at width `ws k` (the message may change
between ticks). -/
def textXAfter (W : Int) (ws : Nat → Int) (t0 : Int) : Nat → Int
  | 0 => t0
  | n + 1 => nextTextX W (ws n) (textXAfter W ws t0 n)

/-- Whether `op` is one of the two calls of the screensaver animation. -/
def Effect.isAnimation : Effect → Bool
  | Effect.fillScreen _ => true
  | Effect.drawPixel _ _ _ => true
  | _ => false

/-- Whether `op` writes one pixel inside the 320 by 240 screen. -/
def Effect.isPixelOnScreen : Effect → Bool
  | Effect.drawPixel x y _ => decide (0 ≤ x) && decide (x < 320) && decide (0 ≤ y) && decide (y < 240)
  | _ => false

/-- The five colour settings and `doubleFrame`, in the order local digits,
local frame, UTC digits, UTC frame, banner text, double frame. -/
def Globals.colourSettings (g : Globals) : Nat × Nat × Nat × Nat × Nat × Bool :=
  (g.localTimeColour, g.localFrameColour, g.utcTimeColour, g.utcFrameColour,
   g.bannerColour, g.doubleFrame)

/-- The state a first `loop` call at 5 ms leaves from `bootExample`: both
clocks are rendered and the banner has moved by one tick. -/
def renderedExample : Globals :=
  ((loop (exampleInput 5 false 0) bootExample).getD
    { globals := initialGlobals, ops := [], restart := true }).globals

/-- The screensaver state a `loop` call at 3600006 ms, past the default
threshold, leaves from `renderedExample`. -/
def renderedIdleExample : Globals :=
  ((loop (exampleInput 3600006 false 0) renderedExample).getD
    { globals := initialGlobals, ops := [], restart := true }).globals

/-- A message as `fetchWeatherData` assembles it from a weather reply (lines
1063-1069): name, country, date, temperature, humidity, description, sunrise
and sunset. -/
def weatherExampleText : List Char :=
  ("Vevey     CH    30:10:26     Temp: 12.5°C     RH: 80%       clear sky       " ++
   "Sunrise: 07:12:05     Sunset: 17:20:31").toList

/-- A banner font measure under which the fallback message is 10 pixels wide
and every other message 90 pixels. -/
def exampleMeasure (s : List Char) : Int := if s = noWeatherText then 10 else 90

/-- A file whose header announces one row of 481 pixels and whose data holds
that row. -/
def wideFile : PngFile :=
  { size := 1043, header := some (481, 1), rows := [List.replicate 481 0xFFFF] }

/-- A store whose file `/logo4.png`, the upload target, is `wideFile`. -/
def wideStore (path : List Char) : Option PngFile :=
  if path = "/logo4.png".toList then some wideFile else none

/-- The two states of the frame latch between calls: idle, or one
`/setlabel` call counted. -/
def FramesOk (g : Globals) : Prop :=
  (g.refreshFrames = false ∧ g.refreshFramesCounter = 0) ∨
  (g.refreshFrames = true ∧ g.refreshFramesCounter = 1)

/-! ## Lemmas on displayTime -/

theorem positions_length (x : Int) : (positions x).length = 8 := rfl

theorem positions_injective (x : Int) (i j : Nat) (p : Int)
    (hi : (positions x)[i]? = some p) (hj : (positions x)[j]? = some p) : i = j := by
  have hi8 : i < 8 := by
    have := (List.getElem?_eq_some_iff.mp hi).1
    simpa [positions] using this
  have hj8 : j < 8 := by
    have := (List.getElem?_eq_some_iff.mp hj).1
    simpa [positions] using this
  interval_cases i <;> interval_cases j <;> simp [positions] at hi hj <;> omega

theorem drawsAtSlot_append (x : Int) (j : Nat) (a b : List Effect) :
    drawsAtSlot x j (a ++ b) = (drawsAtSlot x j a || drawsAtSlot x j b) := by
  unfold drawsAtSlot
  cases (positions x)[j]? <;> simp

theorem drawsAtSlot_nil (x : Int) (j : Nat) : drawsAtSlot x j [] = false := by
  unfold drawsAtSlot
  cases (positions x)[j]? <;> simp

/-- Within the eight slots one loop iteration succeeds; it draws at slot `j`
exactly when `j` is the current index and the character there changed, and it
makes four calls when the character changed and none otherwise. -/
theorem displayTimeSlot_spec (x y : Int) (time prev : List Char) (yOffset : Int)
    (fontColor : Nat) (i : Nat) (hi : i < 8) :
    ∃ ops, displayTimeSlot x y time prev yOffset fontColor i = some ops ∧
      (∀ j, drawsAtSlot x j ops = true ↔ (j = i ∧ charAt time i ≠ charAt prev i)) ∧
      ops.length = if charAt time i ≠ charAt prev i then 4 else 0 := by
  obtain ⟨px, hpx⟩ : ∃ px, (positions x)[i]? = some px := by
    refine ⟨(positions x)[i], ?_⟩
    exact List.getElem?_eq_getElem (by simpa [positions] using hi)
  unfold displayTimeSlot
  by_cases hne : charAt time i ≠ charAt prev i
  · rw [if_pos hne, if_pos hne]
    simp only [hpx]
    refine ⟨_, rfl, ?_, by simp⟩
    intro j
    unfold drawsAtSlot
    cases hj : (positions x)[j]? with
    | none =>
      simp
      intro h
      rw [h, hpx] at hj
      exact absurd hj (by simp)
    | some pj =>
      simp [Effect.drawsAt]
      constructor
      · intro h
        refine ⟨?_, hne⟩
        exact positions_injective x j i pj hj (h ▸ hpx)
      · rintro ⟨h, -⟩
        subst h
        rw [hpx] at hj
        exact (Option.some.inj hj)
  · rw [if_neg hne, if_neg hne]
    refine ⟨_, rfl, ?_, by simp⟩
    intro j
    simp only [drawsAtSlot_nil]
    constructor
    · intro h
      exact absurd h (by simp)
    · rintro ⟨-, h⟩
      exact absurd h hne

/-- While the indices stay within the eight slots the loop succeeds; it draws
at exactly the slots of its index range whose character changed, with four
calls for each of them. -/
theorem displayTimeLoop_spec (x y : Int) (time prev : List Char) (yOffset : Int)
    (fontColor : Nat) (n i : Nat) (h : i + n ≤ 8) :
    ∃ ops, displayTimeLoop x y time prev yOffset fontColor n i = some ops ∧
      (∀ j, drawsAtSlot x j ops = true ↔
        (i ≤ j ∧ j < i + n ∧ charAt time j ≠ charAt prev j)) ∧
      ops.length = 4 * changedCount time prev i n := by
  induction n generalizing i with
  | zero =>
    refine ⟨[], rfl, ?_, by simp [changedCount]⟩
    intro j
    simp only [drawsAtSlot_nil]
    constructor
    · intro hf
      exact absurd hf (by simp)
    · rintro ⟨h1, h2, -⟩
      omega
  | succ n ih =>
    obtain ⟨ops, hops, hdraw, hlen⟩ :=
      displayTimeSlot_spec x y time prev yOffset fontColor i (by omega)
    obtain ⟨rest, hrest, hdrawR, hlenR⟩ := ih (i + 1) (by omega)
    refine ⟨ops ++ rest, ?_, ?_, ?_⟩
    · simp only [displayTimeLoop, hops, hrest]
    · intro j
      rw [drawsAtSlot_append, Bool.or_eq_true, hdraw j, hdrawR j]
      constructor
      · rintro (⟨rfl, hne⟩ | ⟨h1, h2, hne⟩)
        · exact ⟨le_refl _, by omega, hne⟩
        · exact ⟨by omega, by omega, hne⟩
      · rintro ⟨h1, h2, hne⟩
        by_cases hji : j = i
        · subst hji
          exact Or.inl ⟨rfl, hne⟩
        · exact Or.inr ⟨by omega, by omega, hne⟩
    · rw [List.length_append, hlen, hlenR]
      unfold changedCount
      rw [List.range'_succ, List.filter_cons]
      by_cases hne : charAt time i ≠ charAt prev i
      · simp [hne]
        omega
      · have : charAt time i = charAt prev i := not_not.mp hne
        simp [this]

theorem charAt_of_length_le (s : List Char) (i : Nat) (h : s.length ≤ i) : charAt s i = NUL := by
  unfold charAt
  simp [List.getD_eq_getElem?_getD, List.getElem?_eq_none h]

theorem charAt_nil (i : Nat) : charAt [] i = NUL := charAt_of_length_le [] i (Nat.zero_le i)

theorem charAt_mem (s : List Char) (i : Nat) (h : i < s.length) : charAt s i ∈ s := by
  unfold charAt
  rw [List.getD_eq_getElem?_getD, List.getElem?_eq_getElem h]
  exact List.getElem_mem h

theorem displayTimeLatch_clear (c : Int) (p : List Char) :
    displayTimeLatch false c p = (false, c, p) := by
  simp [displayTimeLatch]

/-- C1: two strings of equal length, at most 8 characters, are rendered one
after the other into the same field with `refreshDigits` clear. Both calls
return, and the second call draws at slot `i` exactly when the two strings
differ at `i`; it makes four calls for every such slot and no other call. -/
theorem displayTime_repaints_exactly_changed_slots (x y yOffset : Int) (fontColor : Nat)
    (a b p : List Char) (c0 : Int) (hlen : a.length = b.length) (h8 : b.length ≤ 8) :
    ∃ r1 r2,
      displayTime x y a p yOffset fontColor false c0 = some r1 ∧
      displayTime x y b r1.previousTime yOffset fontColor r1.refreshDigits
        r1.refreshDigitsCounter = some r2 ∧
      (∀ i, drawsAtSlot x i r2.ops = true ↔ charAt a i ≠ charAt b i) ∧
      r2.ops.length = 4 * changedCount b a 0 b.length := by
  obtain ⟨ops1, h1, -, -⟩ :=
    displayTimeLoop_spec x y a p yOffset fontColor a.length 0 (by omega)
  obtain ⟨ops2, h2, hdraw, hcount⟩ :=
    displayTimeLoop_spec x y b a yOffset fontColor b.length 0 (by omega)
  refine ⟨⟨false, c0, a, ops1⟩, ⟨false, c0, b, ops2⟩, ?_, ?_, ?_, hcount⟩
  · simp [displayTime, displayTimeLatch_clear, h1]
  · simp [displayTime, displayTimeLatch_clear, h2]
  · intro i
    rw [hdraw i]
    constructor
    · rintro ⟨-, -, hne⟩
      exact fun h => hne h.symm
    · intro hne
      refine ⟨Nat.zero_le i, ?_, fun h => hne h.symm⟩
      by_contra hge
      have hb : charAt b i = NUL := charAt_of_length_le b i (by omega)
      have ha : charAt a i = NUL := charAt_of_length_le a i (by omega)
      exact hne (ha.trans hb.symm)

/-- The scenario of C1: with "12:29" on screen, rendering "12:30" draws at
slots 3 and 4 only. -/
theorem displayTime_repaints_exactly_changed_slots_witness :
    ("12:29".toList).length = ("12:30".toList).length ∧ ("12:30".toList).length ≤ 8 ∧
    ∃ r1 r2,
      displayTime 8 5 "12:29".toList [] 0 TFT_GREEN false 0 = some r1 ∧
      displayTime 8 5 "12:30".toList r1.previousTime 0 TFT_GREEN r1.refreshDigits
        r1.refreshDigitsCounter = some r2 ∧
      (∀ i, drawsAtSlot 8 i r2.ops = true ↔
        charAt "12:29".toList i ≠ charAt "12:30".toList i) ∧
      r2.ops.length = 4 * changedCount "12:30".toList "12:29".toList 0 ("12:30".toList).length :=
  ⟨by decide, by decide,
   displayTime_repaints_exactly_changed_slots 8 5 0 TFT_GREEN "12:29".toList "12:30".toList []
     0 (by decide) (by decide)⟩

/-- Evaluation of the scenario of C1: of the eight slots only 3 and 4 are drawn. -/
theorem displayTime_scenario_12_30 :
    (displayTime 8 5 "12:30".toList "12:29".toList 0 TFT_GREEN false 0).map
      (fun r => (List.range 8).filter (fun i => drawsAtSlot 8 i r.ops)) = some [3, 4] := by
  decide

theorem paintsGlyph_cons (x y : Int) (col : Nat) (i : Nat) (c : Char) (a : Effect)
    (l : List Effect) (h : paintsGlyph x y col i c l = true) :
    paintsGlyph x y col i c (a :: l) = true := by
  cases l with
  | nil => simp [paintsGlyph] at h
  | cons b rest => simp [paintsGlyph, h]

theorem paintsGlyph_append_right (x y : Int) (col : Nat) (i : Nat) (c : Char)
    (l₁ l₂ : List Effect) (h : paintsGlyph x y col i c l₂ = true) :
    paintsGlyph x y col i c (l₁ ++ l₂) = true := by
  induction l₁ with
  | nil => simpa using h
  | cons a l ih => exact paintsGlyph_cons x y col i c a (l ++ l₂) ih

theorem paintsGlyph_append_left (x y : Int) (col : Nat) (i : Nat) (c : Char)
    (l₁ l₂ : List Effect) (h : paintsGlyph x y col i c l₁ = true) :
    paintsGlyph x y col i c (l₁ ++ l₂) = true := by
  induction l₁ with
  | nil => simp [paintsGlyph] at h
  | cons a l ih =>
    cases l with
    | nil => simp [paintsGlyph] at h
    | cons b rest =>
      simp only [paintsGlyph, Bool.or_eq_true] at h
      rcases h with h | h
      · simp [paintsGlyph, h]
      · have := ih h
        exact paintsGlyph_cons x y col i c a _ this

/-- One loop iteration within the eight slots paints the new glyph at its slot
when the character changed and is not NUL. -/
theorem displayTimeSlot_paints (x y : Int) (time prev : List Char) (yOffset : Int)
    (fontColor : Nat) (i : Nat) (hi : i < 8) (hne : charAt time i ≠ charAt prev i)
    (hnul : charAt time i ≠ NUL) :
    ∃ ops, displayTimeSlot x y time prev yOffset fontColor i = some ops ∧
      paintsGlyph x (y + yOffset) fontColor i (charAt time i) ops = true := by
  obtain ⟨px, hpx⟩ : ∃ px, (positions x)[i]? = some px := by
    refine ⟨(positions x)[i], ?_⟩
    exact List.getElem?_eq_getElem (by simpa [positions] using hi)
  unfold displayTimeSlot
  rw [if_pos hne]
  simp only [hpx]
  refine ⟨_, rfl, ?_⟩
  simp [paintsGlyph, hpx, stringOfChar, hnul]

/-- The loop within the eight slots paints the new glyph at every slot of its
index range whose character changed and is not NUL. -/
theorem displayTimeLoop_paints (x y : Int) (time prev : List Char) (yOffset : Int)
    (fontColor : Nat) (n i : Nat) (h : i + n ≤ 8) (ops : List Effect)
    (hops : displayTimeLoop x y time prev yOffset fontColor n i = some ops)
    (j : Nat) (hij : i ≤ j) (hjn : j < i + n) (hne : charAt time j ≠ charAt prev j)
    (hnul : charAt time j ≠ NUL) :
    paintsGlyph x (y + yOffset) fontColor j (charAt time j) ops = true := by
  induction n generalizing i ops with
  | zero => omega
  | succ n ih =>
    obtain ⟨o1, ho1, -, -⟩ :=
      displayTimeSlot_spec x y time prev yOffset fontColor i (by omega)
    obtain ⟨rest, hrest, -, -⟩ :=
      displayTimeLoop_spec x y time prev yOffset fontColor n (i + 1) (by omega)
    have hopsEq : ops = o1 ++ rest := by
      simp only [displayTimeLoop, ho1, hrest] at hops
      exact (Option.some.inj hops).symm
    subst hopsEq
    by_cases hji : j = i
    · subst hji
      obtain ⟨o1', ho1', hp⟩ :=
        displayTimeSlot_paints x y time prev yOffset fontColor j (by omega) hne hnul
      rw [ho1] at ho1'
      cases ho1'
      exact paintsGlyph_append_left _ _ _ _ _ _ _ hp
    · exact paintsGlyph_append_right _ _ _ _ _ _ _
        (ih (i + 1) (by omega) rest hrest (by omega) (by omega))

/-- With an empty previous string, `displayTime` of a string of at most 8
non-NUL characters returns and paints every slot of the string. -/
theorem displayTimeLoop_from_empty (x y : Int) (time : List Char) (yOffset : Int)
    (fontColor : Nat) (h8 : time.length ≤ 8) (hnul : ∀ c ∈ time, c ≠ NUL) :
    ∃ ops, displayTimeLoop x y time [] yOffset fontColor time.length 0 = some ops ∧
      ∀ i, i < time.length →
        paintsGlyph x (y + yOffset) fontColor i (charAt time i) ops = true := by
  obtain ⟨ops, hops, -, -⟩ :=
    displayTimeLoop_spec x y time [] yOffset fontColor time.length 0 (by omega)
  refine ⟨ops, hops, ?_⟩
  intro i hi
  have hc : charAt time i ≠ NUL := hnul _ (charAt_mem time i hi)
  refine displayTimeLoop_paints x y time [] yOffset fontColor time.length 0 (by omega) ops hops
    i (Nat.zero_le i) (by omega) ?_ hc
  rw [charAt_nil]
  exact hc

/-- C2: with `refreshDigits` set and `refreshDigitsCounter` at 0, the next
`displayTime` call on each of the two clock fields returns and paints every
slot of its value (strings of at most 8 non-NUL characters), whatever string
was recorded as previously rendered, that same string included; after the two
calls `refreshDigits` is false and `refreshDigitsCounter` is 0. -/
theorem displayTime_forced_repaint (x1 y1 x2 y2 : Int) (col1 col2 : Nat)
    (localTime utcTime prevLocal prevUTC : List Char)
    (hl : localTime.length ≤ 8) (hu : utcTime.length ≤ 8)
    (hnl : ∀ c ∈ localTime, c ≠ NUL) (hnu : ∀ c ∈ utcTime, c ≠ NUL) :
    ∃ d1 d2,
      displayTime x1 y1 localTime prevLocal 0 col1 true 0 = some d1 ∧
      displayTime x2 y2 utcTime prevUTC 0 col2 d1.refreshDigits d1.refreshDigitsCounter
        = some d2 ∧
      (∀ i, i < localTime.length →
        paintsGlyph x1 (y1 + 0) col1 i (charAt localTime i) d1.ops = true) ∧
      (∀ i, i < utcTime.length →
        paintsGlyph x2 (y2 + 0) col2 i (charAt utcTime i) d2.ops = true) ∧
      d2.refreshDigits = false ∧ d2.refreshDigitsCounter = 0 := by
  obtain ⟨ops1, h1, hp1⟩ := displayTimeLoop_from_empty x1 y1 localTime 0 col1 hl hnl
  obtain ⟨ops2, h2, hp2⟩ := displayTimeLoop_from_empty x2 y2 utcTime 0 col2 hu hnu
  refine ⟨⟨true, 1, localTime, ops1⟩, ⟨false, 0, utcTime, ops2⟩, ?_, ?_, hp1, hp2, rfl, rfl⟩
  · simp [displayTime, displayTimeLatch, h1]
  · simp [displayTime, displayTimeLatch, h2]

/-- An instance of C2: both clock fields already show "12:30:00" and are asked
to render it again with the flag set. -/
theorem displayTime_forced_repaint_witness :
    ∃ d1 d2,
      displayTime 8 5 "12:30:00".toList "12:30:00".toList 0 TFT_GREEN true 0 = some d1 ∧
      displayTime 10 107 "12:30:00".toList "12:30:00".toList 0 TFT_GOLD d1.refreshDigits
        d1.refreshDigitsCounter = some d2 ∧
      (∀ i, i < ("12:30:00".toList).length →
        paintsGlyph 8 (5 + 0) TFT_GREEN i (charAt "12:30:00".toList i) d1.ops = true) ∧
      (∀ i, i < ("12:30:00".toList).length →
        paintsGlyph 10 (107 + 0) TFT_GOLD i (charAt "12:30:00".toList i) d2.ops = true) ∧
      d2.refreshDigits = false ∧ d2.refreshDigitsCounter = 0 :=
  displayTime_forced_repaint 8 5 10 107 TFT_GREEN TFT_GOLD "12:30:00".toList "12:30:00".toList
    "12:30:00".toList "12:30:00".toList (by decide) (by decide) (by decide) (by decide)

theorem drawOrredraw_framesOk (g : Globals) (h : FramesOk g) :
    FramesOk (drawOrredrawStaticElements g).1 ∧
    (drawOrredrawStaticElements g).1.previousLocalTime = [] ∧
    (drawOrredrawStaticElements g).1.previousUTCtime = [] := by
  rcases h with ⟨h1, h2⟩ | ⟨h1, h2⟩ <;>
    simp [drawOrredrawStaticElements, FramesOk, h1, h2]

/-- The static redraw leaves the mode, the inactivity timer and its threshold alone. -/
theorem drawOrredraw_mode (g : Globals) :
    (drawOrredrawStaticElements g).1.screenSaver = g.screenSaver ∧
    (drawOrredrawStaticElements g).1.lastActivity = g.lastActivity ∧
    (drawOrredrawStaticElements g).1.screenSaverTimeout = g.screenSaverTimeout := by
  cases hf : g.refreshFrames <;> by_cases hc : g.refreshFramesCounter + 1 < 2 <;>
    simp [drawOrredrawStaticElements, hf, hc]

/-- Counting one more `/setlabel` call keeps the frame latch in one of its two states. -/
theorem drawOrredraw_setlabel_framesOk (g : Globals) (h : FramesOk g) :
    FramesOk (drawOrredrawStaticElements { g with refreshFrames := true }).1 := by
  rcases h with ⟨h1, h2⟩ | ⟨h1, h2⟩ <;>
    simp [drawOrredrawStaticElements, FramesOk, h1, h2]

theorem fetchWeatherData_frames (w : Int) (weather : Option (List Char)) (g : Globals) :
    (fetchWeatherData w weather g).1.refreshFrames = g.refreshFrames ∧
    (fetchWeatherData w weather g).1.refreshFramesCounter = g.refreshFramesCounter ∧
    (fetchWeatherData w weather g).1.screenSaver = g.screenSaver ∧
    (fetchWeatherData w weather g).1.lastActivity = g.lastActivity ∧
    (fetchWeatherData w weather g).1.screenSaverTimeout = g.screenSaverTimeout := by
  cases weather <;> simp [fetchWeatherData]

theorem FramesOk.congr {g g' : Globals} (h : FramesOk g)
    (h1 : g'.refreshFrames = g.refreshFrames)
    (h2 : g'.refreshFramesCounter = g.refreshFramesCounter) : FramesOk g' := by
  unfold FramesOk at h ⊢
  rw [h1, h2]
  exact h

theorem handleClient_framesOk (req : Option Request) (g : Globals) (h : FramesOk g) :
    FramesOk (handleClient req g).globals := by
  have key : ∀ g' : Globals, g'.refreshFrames = g.refreshFrames →
      g'.refreshFramesCounter = g.refreshFramesCounter → FramesOk g' :=
    fun g' h1 h2 => h.congr h1 h2
  rcases req with _ | req
  · exact h
  · cases req with
    | setcolor b =>
      cases b with
      | missing => exact h
      | invalid => exact h
      | doc d =>
        simp only [handleClient, handleSetColor]
        split
        · refine (drawOrredraw_framesOk _ ?_).1
          exact key _ rfl rfl
        · split
          · exact h
          · rename_i g1 hg1
            have hg : FramesOk g1 := by
              split at hg1
              · cases hg1; exact key _ rfl rfl
              · split at hg1
                · cases hg1; exact key _ rfl rfl
                · split at hg1
                  · cases hg1; exact key _ rfl rfl
                  · split at hg1
                    · cases hg1; exact key _ rfl rfl
                    · split at hg1
                      · cases hg1; exact key _ rfl rfl
                      · cases hg1
            exact (drawOrredraw_framesOk g1 hg).1.congr rfl rfl
    | setspeed b =>
      cases b with
      | missing => exact h
      | invalid => exact h
      | doc d => exact key _ rfl rfl
    | setlabel b =>
      cases b with
      | missing => exact h
      | invalid => exact h
      | doc d =>
        simp only [handleClient, handleSetLabel]
        split
        · exact h
        · rename_i g1 hg1
          have hg : FramesOk g1 := by
            split at hg1
            · cases hg1; exact key _ rfl rfl
            · split at hg1
              · cases hg1; exact key _ rfl rfl
              · cases hg1
          exact drawOrredraw_setlabel_framesOk g1 hg
    | setposition b w =>
      cases b with
      | missing => exact h
      | invalid => exact h
      | doc d =>
        simp only [handleClient, handleSetPosition]
        split
        · exact key _ (fetchWeatherData_frames _ _ _).1 (fetchWeatherData_frames _ _ _).2.1
        · exact h
    | setitalic b =>
      cases b with
      | missing => exact h
      | invalid => exact h
      | doc d =>
        refine (drawOrredraw_framesOk _ ?_).1
        exact key _ rfl rfl
    | saveall b =>
      cases b with
      | missing => exact h
      | invalid => exact h
      | doc d => exact key _ rfl rfl
    | setbootimage b =>
      cases b with
      | missing => exact h
      | invalid => exact h
      | doc d =>
        cases d with
        | none => exact h
        | some n => exact key _ rfl rfl
    | uploadpng s =>
      refine (drawOrredraw_framesOk _ ?_).1
      exact key _ rfl rfl
    | readOnly => exact h

theorem loopInactivity_frames (inp : LoopInput) (g : Globals) :
    (loopInactivity inp g).1.refreshFrames = g.refreshFrames ∧
    (loopInactivity inp g).1.refreshFramesCounter = g.refreshFramesCounter := by
  unfold loopInactivity
  split <;> simp

theorem loopScroll_frames (inp : LoopInput) (g : Globals) :
    (loopScroll inp g).1.refreshFrames = g.refreshFrames ∧
    (loopScroll inp g).1.refreshFramesCounter = g.refreshFramesCounter := by
  simp [loopScroll]

theorem loopActive_frames (inp : LoopInput) (g : Globals) (r : Globals × List Effect)
    (h : loopActive inp g = some r) :
    r.1.refreshFrames = g.refreshFrames ∧
    r.1.refreshFramesCounter = g.refreshFramesCounter := by
  unfold loopActive at h
  dsimp only at h
  generalize displayTime 8 5 _ _ _ _ _ _ = o1 at h
  cases o1 with
  | none => simp at h
  | some d1 =>
    dsimp only at h
    generalize displayTime 10 107 _ _ _ _ _ _ = o2 at h
    cases o2 with
    | none => simp at h
    | some d2 =>
      simp only [Option.some.injEq] at h
      subst h
      dsimp only
      split <;> split <;>
        simp [loopScroll_frames, fetchWeatherData_frames]

theorem loopScreenSaver_framesOk (inp : LoopInput) (g : Globals) (h : FramesOk g) :
    FramesOk (loopScreenSaver inp g).1 := by
  unfold loopScreenSaver
  dsimp only
  split
  · refine FramesOk.congr (drawOrredraw_framesOk _ ?_).1 rfl rfl
    split
    · exact h.congr rfl rfl
    · exact h.congr rfl rfl
  · split
    · exact h.congr rfl rfl
    · exact h

theorem loop_framesOk (inp : LoopInput) (g : Globals) (r : LoopResult)
    (h : loop inp g = some r) (hok : FramesOk g) : FramesOk r.globals := by
  have hh := handleClient_framesOk inp.request g hok
  unfold loop at h
  dsimp only at h
  split at h
  · cases h
    exact hh
  · have hc : FramesOk (loopInactivity inp (handleClient inp.request g).globals).1 :=
      hh.congr (loopInactivity_frames _ _).1 (loopInactivity_frames _ _).2
    split at h
    · cases h
      exact loopScreenSaver_framesOk _ _ hc
    · split at h
      · cases h
      · rename_i ra hra
        cases h
        exact hc.congr (loopActive_frames _ _ _ hra).1 (loopActive_frames _ _ _ hra).2

theorem setup_framesOk (d : SettingsDoc) (weather : Option (List Char)) :
    FramesOk (setup d weather) := by
  unfold setup
  dsimp only
  refine FramesOk.congr (drawOrredraw_framesOk _ ?_).1 rfl rfl
  refine FramesOk.congr (g := initialGlobals) (Or.inl ⟨rfl, rfl⟩) ?_ ?_
  · rw [(fetchWeatherData_frames _ _ _).1]; rfl
  · rw [(fetchWeatherData_frames _ _ _).2.1]; rfl

/-- In every reachable state the frame latch is idle or has counted one `/setlabel` call. -/
theorem reachable_framesOk (g : Globals) (h : Reachable g) : FramesOk g := by
  induction h with
  | boot d w => exact setup_framesOk d w
  | step g inp r _ hl _ ih => exact loop_framesOk inp g r hl ih

/-- No handler changes the mode flag or the inactivity timer, and only a
handler that restarts the device changes the inactivity threshold. -/
theorem handleClient_mode (req : Option Request) (g : Globals) :
    (handleClient req g).globals.screenSaver = g.screenSaver ∧
    (handleClient req g).globals.lastActivity = g.lastActivity ∧
    ((handleClient req g).restart = false →
      (handleClient req g).globals.screenSaverTimeout = g.screenSaverTimeout) := by
  rcases req with _ | req
  · simp [handleClient]
  · cases req with
    | setcolor b =>
      cases b with
      | missing => simp [handleClient, handleSetColor]
      | invalid => simp [handleClient, handleSetColor]
      | doc d =>
        simp only [handleClient, handleSetColor]
        split
        · simp [drawOrredraw_mode]
        · split
          · simp
          · rename_i g1 hg1
            have hg : g1.screenSaver = g.screenSaver ∧ g1.lastActivity = g.lastActivity ∧
                g1.screenSaverTimeout = g.screenSaverTimeout := by
              split at hg1
              · cases hg1; simp
              · split at hg1
                · cases hg1; simp
                · split at hg1
                  · cases hg1; simp
                  · split at hg1
                    · cases hg1; simp
                    · split at hg1
                      · cases hg1; simp
                      · cases hg1
            simp [drawOrredraw_mode, hg]
    | setspeed b => cases b <;> simp [handleClient, handleSetSpeed]
    | setlabel b =>
      cases b with
      | missing => simp [handleClient, handleSetLabel]
      | invalid => simp [handleClient, handleSetLabel]
      | doc d =>
        simp only [handleClient, handleSetLabel]
        split
        · simp
        · rename_i g1 hg1
          have hg : g1.screenSaver = g.screenSaver ∧ g1.lastActivity = g.lastActivity ∧
              g1.screenSaverTimeout = g.screenSaverTimeout := by
            split at hg1
            · cases hg1; simp
            · split at hg1
              · cases hg1; simp
              · cases hg1
          simp [drawOrredraw_mode, hg]
    | setposition b w =>
      cases b with
      | missing => simp [handleClient, handleSetPosition]
      | invalid => simp [handleClient, handleSetPosition]
      | doc d =>
        simp only [handleClient, handleSetPosition]
        split <;> simp [fetchWeatherData_frames]
    | setitalic b => cases b <;> simp [handleClient, handleSetItalic, drawOrredraw_mode]
    | saveall b => cases b <;> simp [handleClient, handleSaveAll]
    | setbootimage b =>
      cases b with
      | missing => simp [handleClient, handleSetBootImage]
      | invalid => simp [handleClient, handleSetBootImage]
      | doc d => cases d <;> simp [handleClient, handleSetBootImage]
    | uploadpng s => simp [handleClient, handlePNGUpload, drawOrredraw_mode]
    | readOnly => simp [handleClient]

theorem loopInactivity_idle (inp : LoopInput) (g : Globals)
    (h : g.screenSaver = true ∨ sub32 inp.currentMillis g.lastActivity > g.screenSaverTimeout) :
    (loopInactivity inp g).1.screenSaver = true := by
  unfold loopInactivity
  split
  · rfl
  · rename_i hn
    rcases h with h | h
    · exact h
    · simp [h] at hn
      exact hn

/-- A qualifying touch in the screensaver branch switches to normal mode,
clears both previous-time strings and restarts the inactivity timer. -/
theorem loopScreenSaver_touch (inp : LoopInput) (g : Globals) (hok : FramesOk g)
    (h1 : inp.tirqTouched = true) (h2 : inp.touched = true) (hz : inp.z > 200) :
    (loopScreenSaver inp g).1.screenSaver = false ∧
    (loopScreenSaver inp g).1.previousLocalTime = [] ∧
    (loopScreenSaver inp g).1.previousUTCtime = [] ∧
    (loopScreenSaver inp g).1.lastActivity = inp.currentMillis := by
  have ht : (inp.tirqTouched && inp.touched && decide (inp.z > 200)) = true := by
    simp [h1, h2, hz]
  unfold loopScreenSaver
  dsimp only
  rw [if_pos ht]
  have hok' : ∀ g' : Globals, g'.refreshFrames = g.refreshFrames →
      g'.refreshFramesCounter = g.refreshFramesCounter → FramesOk g' :=
    fun g' a b => hok.congr a b
  split
  · have hk := drawOrredraw_framesOk
      { ({ g with lastDotUpdate := inp.currentMillis } : Globals) with screenSaver := false }
      (hok' _ rfl rfl)
    have hm := drawOrredraw_mode
      { ({ g with lastDotUpdate := inp.currentMillis } : Globals) with screenSaver := false }
    exact ⟨hm.1, hk.2.1, hk.2.2, rfl⟩
  · have hk := drawOrredraw_framesOk { g with screenSaver := false } (hok' _ rfl rfl)
    have hm := drawOrredraw_mode { g with screenSaver := false }
    exact ⟨hm.1, hk.2.1, hk.2.2, rfl⟩

theorem displayTimeLatch_empty (rd : Bool) (rc : Int) :
    (displayTimeLatch rd rc []).2.2 = [] := by
  unfold displayTimeLatch
  split
  · dsimp only
    split
    · rfl
    · split <;> rfl
  · rfl

/-- From an empty previous string, whatever the state of the digit latch,
`displayTime` of at most 8 non-NUL characters returns and paints every slot. -/
theorem displayTime_from_empty (x y yOffset : Int) (col : Nat) (rd : Bool) (rc : Int)
    (time : List Char) (h8 : time.length ≤ 8) (hnul : ∀ c ∈ time, c ≠ NUL) :
    ∃ d, displayTime x y time [] yOffset col rd rc = some d ∧
      ∀ i, i < time.length → paintsGlyph x (y + yOffset) col i (charAt time i) d.ops = true := by
  obtain ⟨ops, hops, hp⟩ := displayTimeLoop_from_empty x y time yOffset col h8 hnul
  refine ⟨⟨(displayTimeLatch rd rc []).1, (displayTimeLatch rd rc []).2.1, time, ops⟩, ?_, hp⟩
  simp only [displayTime, displayTimeLatch_empty, hops]

theorem idleExample_reachable : Reachable idleExample :=
  Reachable.step (setup { emptySettings with screenSaverTimeout := some 0 } none)
    (exampleInput 5 false 0) idleExampleResult (Reachable.boot _ _) (by rfl) (by rfl)

theorem idleExample_idle : idleExample.screenSaver = true := by rfl

/-- The static redraw keeps both previous-time strings empty when they are. -/
theorem drawOrredraw_keeps_empty (g : Globals) (h1 : g.previousLocalTime = [])
    (h2 : g.previousUTCtime = []) :
    (drawOrredrawStaticElements g).1.previousLocalTime = [] ∧
    (drawOrredrawStaticElements g).1.previousUTCtime = [] := by
  cases hf : g.refreshFrames <;> by_cases hc : g.refreshFramesCounter + 1 < 2 <;>
    simp [drawOrredrawStaticElements, hf, hc, h1, h2]

/-- No request handler puts a string back into an empty previous-time string. -/
theorem handleClient_keeps_empty (req : Option Request) (g : Globals)
    (h1 : g.previousLocalTime = []) (h2 : g.previousUTCtime = []) :
    (handleClient req g).globals.previousLocalTime = [] ∧
    (handleClient req g).globals.previousUTCtime = [] := by
  rcases req with _ | req
  · exact ⟨h1, h2⟩
  · cases req with
    | setcolor b =>
      cases b with
      | missing => exact ⟨h1, h2⟩
      | invalid => exact ⟨h1, h2⟩
      | doc d =>
        simp only [handleClient, handleSetColor]
        split
        · exact drawOrredraw_keeps_empty _ h1 h2
        · split
          · exact ⟨h1, h2⟩
          · rename_i g1 hg1
            have hg : g1.previousLocalTime = [] ∧ g1.previousUTCtime = [] := by
              split at hg1
              · cases hg1; exact ⟨h1, h2⟩
              · split at hg1
                · cases hg1; exact ⟨h1, h2⟩
                · split at hg1
                  · cases hg1; exact ⟨h1, h2⟩
                  · split at hg1
                    · cases hg1; exact ⟨h1, h2⟩
                    · split at hg1
                      · cases hg1; exact ⟨h1, h2⟩
                      · cases hg1
            exact drawOrredraw_keeps_empty g1 hg.1 hg.2
    | setspeed b =>
      cases b with
      | missing => exact ⟨h1, h2⟩
      | invalid => exact ⟨h1, h2⟩
      | doc d => exact ⟨h1, h2⟩
    | setlabel b =>
      cases b with
      | missing => exact ⟨h1, h2⟩
      | invalid => exact ⟨h1, h2⟩
      | doc d =>
        simp only [handleClient, handleSetLabel]
        split
        · exact ⟨h1, h2⟩
        · rename_i g1 hg1
          have hg : g1.previousLocalTime = [] ∧ g1.previousUTCtime = [] := by
            split at hg1
            · cases hg1; exact ⟨h1, h2⟩
            · split at hg1
              · cases hg1; exact ⟨h1, h2⟩
              · cases hg1
          exact drawOrredraw_keeps_empty _ hg.1 hg.2
    | setposition b w =>
      cases b with
      | missing => exact ⟨h1, h2⟩
      | invalid => exact ⟨h1, h2⟩
      | doc d =>
        simp only [handleClient, handleSetPosition]
        split
        · cases w <;> exact ⟨h1, h2⟩
        · exact ⟨h1, h2⟩
    | setitalic b =>
      cases b with
      | missing => exact ⟨h1, h2⟩
      | invalid => exact ⟨h1, h2⟩
      | doc d => exact drawOrredraw_keeps_empty _ h1 h2
    | saveall b =>
      cases b with
      | missing => exact ⟨h1, h2⟩
      | invalid => exact ⟨h1, h2⟩
      | doc d => exact ⟨h1, h2⟩
    | setbootimage b =>
      cases b with
      | missing => exact ⟨h1, h2⟩
      | invalid => exact ⟨h1, h2⟩
      | doc d =>
        cases d with
        | none => exact ⟨h1, h2⟩
        | some n => exact ⟨h1, h2⟩
    | uploadpng s => exact drawOrredraw_keeps_empty _ h1 h2
    | readOnly => exact ⟨h1, h2⟩

theorem nextTextX_step (W w t : Int) (h : -w ≤ t - 1) : nextTextX W w t = t - 1 := by
  unfold nextTextX
  rw [if_neg (by omega)]

theorem nextTextX_wrap (W w : Int) : nextTextX W w (-w) = W := by
  unfold nextTextX
  rw [if_pos (by omega)]

/-- During the first `W + w + 1` ticks the offset falls by one pixel per tick. -/
theorem tickOffset_first_cycle (W w : Int) (k : Nat) (hk : (k : Int) ≤ W + w) :
    tickOffset W w W k = W - k := by
  induction k with
  | zero => simp [tickOffset]
  | succ k ih =>
    have ih' := ih (by push_cast at hk; omega)
    unfold tickOffset at ih' ⊢
    rw [Function.iterate_succ_apply', ih', nextTextX_step _ _ _ (by push_cast at hk; omega)]
    push_cast
    ring

/-- C4: for a message of rendered width `w` and a band of width `W`, the
banner tick of `loop` draws the message at the current offset and moves the
offset by `nextTextX`; starting from `W` the offsets of the successive ticks
run `W, W - 1, ..., -w`, the next one is `W` again, and the offset at tick
`n + (W + w + 1)` equals the offset at tick `n` for every `n`. -/
theorem scroll_offsets_periodic (W w : Int) (hW : 0 ≤ W) (hw : 0 ≤ w) :
    (∀ (inp : LoopInput) (g : Globals),
      Effect.spriteDrawString g.scrollText g.textX 0 ∈ (loopScroll inp g).2 ∧
      (loopScroll inp g).1.textX =
        nextTextX stext2Width (inp.textWidth g.scrollText) g.textX) ∧
    (∀ k : Nat, (k : Int) ≤ W + w → tickOffset W w W k = W - k) ∧
    tickOffset W w W (W + w + 1).toNat = W ∧
    (∀ n : Nat, tickOffset W w W (n + (W + w + 1).toNat) = tickOffset W w W n) := by
  have hP : ((W + w).toNat : Int) = W + w := Int.toNat_of_nonneg (by omega)
  have hS : (W + w + 1).toNat = (W + w).toNat + 1 := by omega
  have hwrap : tickOffset W w W (W + w + 1).toNat = W := by
    rw [hS]
    have h := tickOffset_first_cycle W w (W + w).toNat (by omega)
    unfold tickOffset at h ⊢
    rw [Function.iterate_succ_apply', h, hP]
    have : W - (W + w) = -w := by ring
    rw [this, nextTextX_wrap]
  refine ⟨?_, fun k hk => tickOffset_first_cycle W w k hk, hwrap, ?_⟩
  · intro inp g
    simp [loopScroll]
  · intro n
    unfold tickOffset at hwrap ⊢
    rw [Function.iterate_add_apply, hwrap]

/-- An instance of C4: the 310-pixel band of the program and a message 90 pixels wide. -/
theorem scroll_offsets_periodic_witness :
    (∀ (inp : LoopInput) (g : Globals),
      Effect.spriteDrawString g.scrollText g.textX 0 ∈ (loopScroll inp g).2 ∧
      (loopScroll inp g).1.textX =
        nextTextX stext2Width (inp.textWidth g.scrollText) g.textX) ∧
    (∀ k : Nat, (k : Int) ≤ stext2Width + 90 → tickOffset stext2Width 90 stext2Width k
      = stext2Width - k) ∧
    tickOffset stext2Width 90 stext2Width (stext2Width + 90 + 1).toNat = stext2Width ∧
    (∀ n : Nat, tickOffset stext2Width 90 stext2Width (n + (stext2Width + 90 + 1).toNat)
      = tickOffset stext2Width 90 stext2Width n) :=
  scroll_offsets_periodic stext2Width 90 (by decide) (by decide)

/-- The 32-bit subtraction is the difference of the two values modulo `2 ^ 32`. -/
theorem sub32_eq (a b : Nat) : (sub32 a b : Int) = ((a : Int) - (b : Int)) % 2 ^ 32 := by
  unfold sub32
  norm_num
  omega

theorem loopScroll_mode (inp : LoopInput) (g : Globals) :
    (loopScroll inp g).1.screenSaver = g.screenSaver ∧
    (loopScroll inp g).1.lastActivity = g.lastActivity := by
  simp [loopScroll]

/-- The normal-mode branch leaves the mode flag and the inactivity timer
alone, whatever the touch reading. -/
theorem loopActive_mode (inp : LoopInput) (g : Globals) (r : Globals × List Effect)
    (h : loopActive inp g = some r) :
    r.1.screenSaver = g.screenSaver ∧ r.1.lastActivity = g.lastActivity := by
  unfold loopActive at h
  dsimp only at h
  generalize displayTime 8 5 _ _ _ _ _ _ = o1 at h
  cases o1 with
  | none => simp at h
  | some d1 =>
    dsimp only at h
    generalize displayTime 10 107 _ _ _ _ _ _ = o2 at h
    cases o2 with
    | none => simp at h
    | some d2 =>
      simp only [Option.some.injEq] at h
      subst h
      dsimp only
      split <;> split <;>
        simp [loopScroll_mode, fetchWeatherData_frames]

theorem loopInactivity_fires_iff (inp : LoopInput) (g : Globals) (hA : g.screenSaver = false) :
    (loopInactivity inp g).1.screenSaver = true ↔
      sub32 inp.currentMillis g.lastActivity > g.screenSaverTimeout := by
  unfold loopInactivity
  by_cases hc : sub32 inp.currentMillis g.lastActivity > g.screenSaverTimeout
  · simp [hA, hc]
  · simp [hA, hc]

theorem loopInactivity_lastActivity (inp : LoopInput) (g : Globals) :
    (loopInactivity inp g).1.lastActivity = g.lastActivity := by
  unfold loopInactivity
  split <;> rfl

/-- Without a qualifying touch the screensaver branch keeps the mode, the
inactivity timer, both previous-time strings and the digit latch. -/
theorem loopScreenSaver_no_touch (inp : LoopInput) (g : Globals)
    (hq : ¬ (inp.tirqTouched = true ∧ inp.touched = true ∧ inp.z > 200)) :
    (loopScreenSaver inp g).1.screenSaver = g.screenSaver ∧
    (loopScreenSaver inp g).1.lastActivity = g.lastActivity ∧
    (loopScreenSaver inp g).1.previousLocalTime = g.previousLocalTime ∧
    (loopScreenSaver inp g).1.previousUTCtime = g.previousUTCtime ∧
    (loopScreenSaver inp g).1.refreshDigits = g.refreshDigits ∧
    (loopScreenSaver inp g).1.refreshDigitsCounter = g.refreshDigitsCounter := by
  have ht : ¬ (inp.tirqTouched && inp.touched && decide (inp.z > 200)) = true := by
    simpa [and_assoc] using hq
  unfold loopScreenSaver
  dsimp only
  rw [if_neg ht]
  split <;> simp

/-- The state after a `loop` call that did not restart the device and whose
inactivity check left the mode in screensaver. -/
theorem loop_idle_eq (inp : LoopInput) (g : Globals)
    (hr : (handleClient inp.request g).restart = false)
    (hi : (loopInactivity inp (handleClient inp.request g).globals).1.screenSaver = true) :
    loop inp g = some
      { globals :=
          (loopScreenSaver inp (loopInactivity inp (handleClient inp.request g).globals).1).1,
        ops := (handleClient inp.request g).ops ++
          (loopInactivity inp (handleClient inp.request g).globals).2 ++
          (loopScreenSaver inp (loopInactivity inp (handleClient inp.request g).globals).1).2,
        restart := false } := by
  simp only [loop, hr, hi, if_true, Bool.false_eq_true, if_false]

/-- The result of a `loop` call that did not restart the device and whose
inactivity check left the mode normal comes from the normal-mode branch. -/
theorem loop_active_eq (inp : LoopInput) (g : Globals) (r : LoopResult)
    (hr : (handleClient inp.request g).restart = false)
    (hi : (loopInactivity inp (handleClient inp.request g).globals).1.screenSaver = false)
    (hl : loop inp g = some r) :
    ∃ a, loopActive inp (loopInactivity inp (handleClient inp.request g).globals).1 = some a ∧
      r.globals = a.1 := by
  simp only [loop, hr, hi, Bool.false_eq_true, if_false] at hl
  cases ha : loopActive inp (loopInactivity inp (handleClient inp.request g).globals).1 with
  | none => simp [ha] at hl
  | some a =>
    simp only [ha, Option.some.injEq] at hl
    exact ⟨a, rfl, by rw [← hl]⟩

theorem loop_restart_eq (inp : LoopInput) (g : Globals) (r : LoopResult)
    (hl : loop inp g = some r) : r.restart = (handleClient inp.request g).restart := by
  unfold loop at hl
  dsimp only at hl
  split at hl
  · rename_i h
    cases hl
    exact h.symm
  · rename_i h
    have h' : (handleClient inp.request g).restart = false := by simpa using h
    rw [h']
    split at hl
    · cases hl
      rfl
    · generalize loopActive inp _ = o at hl
      cases o with
      | none => simp at hl
      | some a =>
        simp only [Option.some.injEq] at hl
        rw [← hl]

theorem qualifyingTouch_iff (inp : LoopInput) :
    qualifyingTouch inp = true ↔
      (inp.tirqTouched = true ∧ inp.touched = true ∧ inp.z > 200) := by
  simp [qualifyingTouch, and_assoc]

/-- A qualifying touch in the screensaver branch switches to normal mode and
sets the inactivity timer to the current time. -/
theorem loopScreenSaver_touch_mode (inp : LoopInput) (g : Globals)
    (hq : qualifyingTouch inp = true) :
    (loopScreenSaver inp g).1.screenSaver = false ∧
    (loopScreenSaver inp g).1.lastActivity = inp.currentMillis := by
  unfold qualifyingTouch at hq
  unfold loopScreenSaver
  dsimp only
  rw [if_pos hq]
  split
  · exact ⟨(drawOrredraw_mode _).1, rfl⟩
  · exact ⟨(drawOrredraw_mode _).1, rfl⟩

theorem activeExample_loop :
    loop (exampleInput 3600000 true 300) bootExample = some activeExampleResult := by rfl

/-- C6 as stated fails: from the boot state (normal mode, `lastActivity` 0,
threshold 3600000 ms) a call at 3600000 ms reads a touch of pressure 300; the
mode stays normal and `lastActivity` is still 0, and the call one millisecond
later enters screensaver mode. -/
theorem active_touch_does_not_reset_timer :
    qualifyingTouch (exampleInput 3600000 true 300) = true ∧
    bootExample.screenSaver = false ∧ bootExample.lastActivity = 0 ∧
    bootExample.screenSaverTimeout = 3600000 ∧
    (loop (exampleInput 3600000 true 300) bootExample).map
      (fun r => (r.globals.screenSaver, r.globals.lastActivity)) = some (false, 0) ∧
    ((loop (exampleInput 3600000 true 300) bootExample).bind
      (fun r => loop (exampleInput 3600001 false 0) r.globals)).map
      (fun r => r.globals.screenSaver) = some true := by
  refine ⟨by decide, by rfl, by rfl, by rfl, by rfl, by rfl⟩

/-- C6 amended: a `loop` call that starts in normal mode and whose elapsed
time since `lastActivity` is at most the threshold returns with `lastActivity`
unchanged and, unless it restarted the device, still in normal mode; its
whole result is the same for every touch reading, so a touch in normal mode
does not postpone the switch to screensaver. -/
theorem active_mode_ignores_touch (g : Globals) (inp : LoopInput) (r : LoopResult)
    (hA : g.screenSaver = false)
    (hle : sub32 inp.currentMillis g.lastActivity ≤ g.screenSaverTimeout)
    (hl : loop inp g = some r) :
    r.globals.lastActivity = g.lastActivity ∧
    (r.restart = false → r.globals.screenSaver = false) ∧
    ∀ (t1 t2 : Bool) (z : Int),
      loop { inp with tirqTouched := t1, touched := t2, z := z } g = some r := by
  have hmode := handleClient_mode inp.request g
  cases hrs : (handleClient inp.request g).restart with
  | true =>
    have hl' := hl
    simp only [loop, hrs, if_true, Option.some.injEq] at hl'
    subst hl'
    refine ⟨hmode.2.1, ?_, ?_⟩
    · intro h
      simp at h
    · intro t1 t2 z
      simp only [loop, hrs, if_true]
  | false =>
    have hi : (loopInactivity inp (handleClient inp.request g).globals).1.screenSaver
        = false := by
      cases hc : (loopInactivity inp (handleClient inp.request g).globals).1.screenSaver with
      | false => rfl
      | true =>
        have h1 := (loopInactivity_fires_iff inp (handleClient inp.request g).globals
          (by rw [hmode.1]; exact hA)).mp hc
        rw [hmode.2.1, hmode.2.2 hrs] at h1
        omega
    obtain ⟨a, ha, hra⟩ := loop_active_eq inp g r hrs hi hl
    have hm := loopActive_mode inp _ a ha
    refine ⟨?_, ?_, ?_⟩
    · rw [hra, hm.2, loopInactivity_lastActivity, hmode.2.1]
    · intro _
      rw [hra, hm.1, hi]
    · intro t1 t2 z
      have e1 : ∀ x : Globals,
          loopInactivity { inp with tirqTouched := t1, touched := t2, z := z } x
            = loopInactivity inp x := fun _ => rfl
      have e2 : ∀ x : Globals,
          loopActive { inp with tirqTouched := t1, touched := t2, z := z } x
            = loopActive inp x := fun _ => rfl
      rw [← hl]
      simp only [loop, hrs, e1, e2, hi, Bool.false_eq_true, if_false]

/-- An instance of the amended C6: the boot state, touched with pressure 300
at 3600000 ms, the threshold exactly. -/
theorem active_mode_ignores_touch_witness :
    activeExampleResult.globals.lastActivity = bootExample.lastActivity ∧
    (activeExampleResult.restart = false → activeExampleResult.globals.screenSaver = false) ∧
    ∀ (t1 t2 : Bool) (z : Int),
      loop { exampleInput 3600000 true 300 with tirqTouched := t1, touched := t2, z := z }
        bootExample = some activeExampleResult :=
  active_mode_ignores_touch bootExample (exampleInput 3600000 true 300) activeExampleResult
    (by rfl) (by decide) activeExample_loop

/-- C9 as stated fails: a first call at 5 ms from the boot state renders both
clocks; the call at 3600001 ms then enters screensaver mode, and afterwards
both previous-time strings still hold the rendered strings and `refreshDigits`
is still false. -/
theorem active_to_idle_does_not_invalidate :
    ((loop (exampleInput 5 false 0) bootExample).bind
      (fun r => loop (exampleInput 3600001 false 0) r.globals)).map
      (fun r => (r.globals.screenSaver, r.globals.previousLocalTime,
        r.globals.previousUTCtime, r.globals.refreshDigits))
      = some (true, "14:30:00".toList, "12:30:00".toList, false) := by
  rfl

/-- C9 amended: a `loop` call that starts in normal mode, exceeds the
inactivity threshold and reads no qualifying touch ends in screensaver mode
with both previous-time strings and the digit latch exactly as request
handling left them (as they were before the call when no request was
pending): entry to screensaver mode invalidates no field. -/
theorem active_to_idle_keeps_fields (g : Globals) (inp : LoopInput) (r : LoopResult)
    (hA : g.screenSaver = false)
    (hgt : sub32 inp.currentMillis g.lastActivity > g.screenSaverTimeout)
    (hq : qualifyingTouch inp = false)
    (hl : loop inp g = some r) (hr : r.restart = false) :
    r.globals.screenSaver = true ∧
    r.globals.previousLocalTime = (handleClient inp.request g).globals.previousLocalTime ∧
    r.globals.previousUTCtime = (handleClient inp.request g).globals.previousUTCtime ∧
    r.globals.refreshDigits = (handleClient inp.request g).globals.refreshDigits ∧
    r.globals.refreshDigitsCounter
      = (handleClient inp.request g).globals.refreshDigitsCounter ∧
    (inp.request = none →
      r.globals.previousLocalTime = g.previousLocalTime ∧
      r.globals.previousUTCtime = g.previousUTCtime ∧
      r.globals.refreshDigits = g.refreshDigits ∧
      r.globals.refreshDigitsCounter = g.refreshDigitsCounter) := by
  have hrs : (handleClient inp.request g).restart = false := by
    rw [← loop_restart_eq inp g r hl]
    exact hr
  have hmode := handleClient_mode inp.request g
  have hi : (loopInactivity inp (handleClient inp.request g).globals).1.screenSaver
      = true := by
    apply (loopInactivity_fires_iff inp _ (by rw [hmode.1]; exact hA)).mpr
    rw [hmode.2.1, hmode.2.2 hrs]
    exact hgt
  have hq' : ¬ (inp.tirqTouched = true ∧ inp.touched = true ∧ inp.z > 200) := by
    rw [← qualifyingTouch_iff, hq]
    simp
  have hloop := loop_idle_eq inp g hrs hi
  rw [hl] at hloop
  have hg : r.globals = (loopScreenSaver inp
      (loopInactivity inp (handleClient inp.request g).globals).1).1 := by
    cases hloop
    rfl
  have hk := loopScreenSaver_no_touch inp
    (loopInactivity inp (handleClient inp.request g).globals).1 hq'
  have hin : ∀ x : Globals,
      (loopInactivity inp x).1.previousLocalTime = x.previousLocalTime ∧
      (loopInactivity inp x).1.previousUTCtime = x.previousUTCtime ∧
      (loopInactivity inp x).1.refreshDigits = x.refreshDigits ∧
      (loopInactivity inp x).1.refreshDigitsCounter = x.refreshDigitsCounter := by
    intro x
    unfold loopInactivity
    split <;> simp
  have h1 : r.globals.previousLocalTime
      = (handleClient inp.request g).globals.previousLocalTime := by
    rw [hg, hk.2.2.1, (hin _).1]
  have h2 : r.globals.previousUTCtime
      = (handleClient inp.request g).globals.previousUTCtime := by
    rw [hg, hk.2.2.2.1, (hin _).2.1]
  have h3 : r.globals.refreshDigits = (handleClient inp.request g).globals.refreshDigits := by
    rw [hg, hk.2.2.2.2.1, (hin _).2.2.1]
  have h4 : r.globals.refreshDigitsCounter
      = (handleClient inp.request g).globals.refreshDigitsCounter := by
    rw [hg, hk.2.2.2.2.2, (hin _).2.2.2]
  refine ⟨?_, h1, h2, h3, h4, ?_⟩
  · rw [hg, hk.1, hi]
  · intro hnone
    rw [h1, h2, h3, h4, hnone]
    exact ⟨rfl, rfl, rfl, rfl⟩

theorem timedOutExample_loop :
    loop (exampleInput 3600001 false 0) bootExample = some timedOutExampleResult := by rfl

/-- An instance of the amended C9: the boot state at 3600001 ms, one
millisecond past the default threshold, with no touch. -/
theorem active_to_idle_keeps_fields_witness :
    timedOutExampleResult.globals.screenSaver = true ∧
    timedOutExampleResult.globals.previousLocalTime
      = (handleClient (exampleInput 3600001 false 0).request bootExample).globals.previousLocalTime ∧
    timedOutExampleResult.globals.previousUTCtime
      = (handleClient (exampleInput 3600001 false 0).request bootExample).globals.previousUTCtime ∧
    timedOutExampleResult.globals.refreshDigits
      = (handleClient (exampleInput 3600001 false 0).request bootExample).globals.refreshDigits ∧
    timedOutExampleResult.globals.refreshDigitsCounter
      = (handleClient (exampleInput 3600001 false 0).request
          bootExample).globals.refreshDigitsCounter ∧
    ((exampleInput 3600001 false 0).request = none →
      timedOutExampleResult.globals.previousLocalTime = bootExample.previousLocalTime ∧
      timedOutExampleResult.globals.previousUTCtime = bootExample.previousUTCtime ∧
      timedOutExampleResult.globals.refreshDigits = bootExample.refreshDigits ∧
      timedOutExampleResult.globals.refreshDigitsCounter = bootExample.refreshDigitsCounter) :=
  active_to_idle_keeps_fields bootExample (exampleInput 3600001 false 0) timedOutExampleResult
    (by rfl) (by decide) (by rfl) timedOutExample_loop (by rfl)

/-- C10 as stated fails. With "12:30:00" on screen the 4-character value
"12:3" makes no draw call at all: slot 4, which held the glyph `0`, is not
erased, and the recorded previous string then has 4 characters, not 8. The
9-character value "12:30:001" is not cut to 8 slots: its ninth character is
compared and `positions[8]` is read, past the end of the array. -/
theorem displayTime_neither_pads_nor_truncates :
    charAt "12:30:00".toList 4 ≠ NUL ∧
    (displayTime 8 5 "12:3".toList "12:30:00".toList 0 TFT_GREEN false 0).map
      (fun d => (d.ops, drawsAtSlot 8 4 d.ops, d.previousTime.length)) = some ([], false, 4) ∧
    displayTime 8 5 "12:30:001".toList "12:30:00".toList 0 TFT_GREEN false 0 = none := by
  decide

/-- C10 amended: `displayTime` of a value of at most 8 characters returns; it
compares and draws only the slots below the length of the value, so a slot at
or beyond that length is never drawn at, whatever glyph it held; and the
recorded previous string is the value itself, of the value's own length. -/
theorem displayTime_processes_own_length (x y yOffset : Int) (col : Nat) (rd : Bool) (rc : Int)
    (time prev : List Char) (h8 : time.length ≤ 8) :
    ∃ d, displayTime x y time prev yOffset col rd rc = some d ∧
      d.previousTime = time ∧
      (∀ i, time.length ≤ i → drawsAtSlot x i d.ops = false) ∧
      (∀ i, i < time.length →
        (drawsAtSlot x i d.ops = true ↔
          charAt time i ≠ charAt (displayTimeLatch rd rc prev).2.2 i)) := by
  obtain ⟨ops, hops, hdraw, -⟩ := displayTimeLoop_spec x y time
    (displayTimeLatch rd rc prev).2.2 yOffset col time.length 0 (by omega)
  refine ⟨⟨(displayTimeLatch rd rc prev).1, (displayTimeLatch rd rc prev).2.1, time, ops⟩,
    ?_, rfl, ?_, ?_⟩
  · simp only [displayTime, hops]
  · intro i hi
    cases hd : drawsAtSlot x i ops with
    | false => rfl
    | true =>
      have := ((hdraw i).mp hd).2.1
      omega
  · intro i hi
    rw [hdraw i]
    constructor
    · rintro ⟨-, -, h⟩
      exact h
    · intro h
      exact ⟨Nat.zero_le i, by omega, h⟩

/-- An instance of the amended C10: the 4-character value "12:3" rendered
over "12:30:00". -/
theorem displayTime_processes_own_length_witness :
    ∃ d, displayTime 8 5 "12:3".toList "12:30:00".toList 0 TFT_GREEN false 0 = some d ∧
      d.previousTime = "12:3".toList ∧
      (∀ i, ("12:3".toList).length ≤ i → drawsAtSlot 8 i d.ops = false) ∧
      (∀ i, i < ("12:3".toList).length →
        (drawsAtSlot 8 i d.ops = true ↔
          charAt "12:3".toList i ≠ charAt (displayTimeLatch false 0 "12:30:00".toList).2.2 i)) :=
  displayTime_processes_own_length 8 5 0 TFT_GREEN false 0 "12:3".toList "12:30:00".toList
    (by decide)

/-- C11: the previous-time strings are empty after initialisation and after
a static redraw that is not a counted `/setlabel` call; reading the empty
string at any index gives NUL, which differs from every character of a string
without NUL; so `displayTime` of a string of at most 8 non-NUL characters over
the empty previous string, in whatever state of the digit latch, returns and
paints every slot of the string. -/
theorem displayTime_from_sentinel_paints_every_slot (x y yOffset : Int) (col : Nat)
    (rd : Bool) (rc : Int) (time : List Char)
    (h8 : time.length ≤ 8) (hnul : ∀ c ∈ time, c ≠ NUL) :
    initialGlobals.previousLocalTime = [] ∧ initialGlobals.previousUTCtime = [] ∧
    (∀ g, FramesOk g →
      (drawOrredrawStaticElements g).1.previousLocalTime = [] ∧
      (drawOrredrawStaticElements g).1.previousUTCtime = []) ∧
    (∀ i, charAt [] i = NUL) ∧
    (∀ i, i < time.length → charAt time i ≠ charAt [] i) ∧
    ∃ d, displayTime x y time [] yOffset col rd rc = some d ∧
      ∀ i, i < time.length →
        paintsGlyph x (y + yOffset) col i (charAt time i) d.ops = true := by
  refine ⟨rfl, rfl, fun g hg => (drawOrredraw_framesOk g hg).2, charAt_nil, ?_,
    displayTime_from_empty x y yOffset col rd rc time h8 hnul⟩
  intro i hi
  rw [charAt_nil]
  exact hnul _ (charAt_mem time i hi)

/-- An instance of C11: "12:30:00" rendered over the empty previous string. -/
theorem displayTime_from_sentinel_paints_every_slot_witness :
    initialGlobals.previousLocalTime = [] ∧ initialGlobals.previousUTCtime = [] ∧
    (∀ g, FramesOk g →
      (drawOrredrawStaticElements g).1.previousLocalTime = [] ∧
      (drawOrredrawStaticElements g).1.previousUTCtime = []) ∧
    (∀ i, charAt [] i = NUL) ∧
    (∀ i, i < ("12:30:00".toList).length → charAt "12:30:00".toList i ≠ charAt [] i) ∧
    ∃ d, displayTime 8 5 "12:30:00".toList [] 0 TFT_GREEN false 0 = some d ∧
      ∀ i, i < ("12:30:00".toList).length →
        paintsGlyph 8 (5 + 0) TFT_GREEN i (charAt "12:30:00".toList i) d.ops = true :=
  displayTime_from_sentinel_paints_every_slot 8 5 0 TFT_GREEN false 0 "12:30:00".toList
    (by decide) (by decide)

theorem positions_getElem?_getD (x : Int) (i : Nat) (hi : i < 8) :
    (positions x)[i]? = some ((positions x).getD i 0) := by
  have hlt : i < (positions x).length := by simpa [positions] using hi
  rw [List.getD_eq_getElem?_getD, List.getElem?_eq_getElem hlt]
  rfl

/-- Within the eight slots one loop iteration makes exactly the calls of `repaintOps`. -/
theorem displayTimeSlot_exact (x y : Int) (time prev : List Char) (yOffset : Int)
    (fontColor : Nat) (i : Nat) (hi : i < 8) :
    displayTimeSlot x y time prev yOffset fontColor i
      = some (repaintOps x y yOffset fontColor time prev i) := by
  unfold displayTimeSlot repaintOps slotRepaint
  by_cases hne : charAt time i ≠ charAt prev i
  · rw [if_pos hne, if_pos hne]
    simp only [positions_getElem?_getD x i hi]
  · rw [if_neg hne, if_neg hne]

/-- While the indices stay within the eight slots the loop makes exactly the
calls of `repaintOps` for its indices, in index order. -/
theorem displayTimeLoop_exact (x y : Int) (time prev : List Char) (yOffset : Int)
    (fontColor : Nat) (n i : Nat) (h : i + n ≤ 8) :
    displayTimeLoop x y time prev yOffset fontColor n i
      = some ((List.range' i n).flatMap (repaintOps x y yOffset fontColor time prev)) := by
  induction n generalizing i with
  | zero => simp [displayTimeLoop]
  | succ n ih =>
    simp only [displayTimeLoop, displayTimeSlot_exact x y time prev yOffset fontColor i (by omega),
      ih (i + 1) (by omega), List.range'_succ, List.flatMap_cons]

/-- The draw calls at the x coordinate of slot `j` among the calls made for slot `k`. -/
theorem repaintOps_filter (x y yOffset : Int) (fontColor : Nat) (time prev : List Char)
    (j k : Nat) (hj : j < 8) (hk : k < 8) :
    (repaintOps x y yOffset fontColor time prev k).filter
        (Effect.drawsAt ((positions x).getD j 0))
      = if k = j ∧ charAt time j ≠ charAt prev j then
          [Effect.drawString (stringOfChar (charAt prev j)) ((positions x).getD j 0)
             (y + yOffset) 1,
           Effect.drawString (stringOfChar (charAt time j)) ((positions x).getD j 0)
             (y + yOffset) 1]
        else [] := by
  unfold repaintOps slotRepaint
  by_cases hkj : k = j
  · subst hkj
    by_cases hne : charAt time k ≠ charAt prev k
    · simp [hne, Effect.drawsAt, List.filter]
    · simp [hne]
  · have hpos : (positions x).getD k 0 ≠ (positions x).getD j 0 := by
      intro heq
      apply hkj
      exact positions_injective x k j _ (positions_getElem?_getD x k hk)
        (heq ▸ positions_getElem?_getD x j hj)
    generalize (positions x).getD k 0 = pk at hpos ⊢
    generalize (positions x).getD j 0 = pj at hpos ⊢
    have hb : (pk == pj) = false := by simpa using hpos
    by_cases hne : charAt time k ≠ charAt prev k
    · simp [hne, hkj, Effect.drawsAt, List.filter, hb]
    · simp [hne, hkj]

theorem flatMap_filter_single (f : Nat → List Effect) (p : Effect → Bool) (j : Nat)
    (l : List Nat) (hnd : l.Nodup) (hj : j ∈ l)
    (hother : ∀ k ∈ l, k ≠ j → (f k).filter p = []) :
    (l.flatMap f).filter p = (f j).filter p := by
  induction l with
  | nil => simp at hj
  | cons a l ih =>
    rw [List.flatMap_cons, List.filter_append]
    rw [List.nodup_cons] at hnd
    by_cases haj : a = j
    · subst haj
      have hrest : (l.flatMap f).filter p = [] := by
        rw [List.filter_flatMap]
        simp only [List.flatMap_eq_nil_iff]
        intro k hk
        exact hother k (List.mem_cons_of_mem _ hk) (fun h => hnd.1 (h ▸ hk))
      rw [hrest, List.append_nil]
    · have hjl : j ∈ l := by
        rcases List.mem_cons.mp hj with h | h
        · exact absurd h.symm haj
        · exact h
      rw [hother a (List.mem_cons_self _ _) haj, List.nil_append]
      exact ih hnd.2 hjl (fun k hk => hother k (List.mem_cons_of_mem _ hk))

/-- C12: `displayTime` of a value of at most 8 characters returns, and its
calls are, slot by slot in index order, nothing for an unchanged slot and for
a changed slot `i` the four calls of `slotRepaint`: black is selected and the
old glyph drawn at `(positions[i], y + yOffset)`, then `fontColor` is selected
and the new glyph drawn at the same coordinates. These four calls are
consecutive, and the only draw calls at the x coordinate of slot `i` are the
two of them, old glyph first. "Old" is the previous string as the digit latch
leaves it. -/
theorem displayTime_erases_then_paints (x y yOffset : Int) (col : Nat) (rd : Bool) (rc : Int)
    (time prev : List Char) (h8 : time.length ≤ 8) :
    ∃ d, displayTime x y time prev yOffset col rd rc = some d ∧
      d.ops = (List.range time.length).flatMap
        (repaintOps x y yOffset col time (displayTimeLatch rd rc prev).2.2) ∧
      ∀ i, i < time.length →
        charAt time i ≠ charAt (displayTimeLatch rd rc prev).2.2 i →
        ∃ px, (positions x)[i]? = some px ∧
          slotRepaint px (y + yOffset) col
            (charAt (displayTimeLatch rd rc prev).2.2 i) (charAt time i) <:+: d.ops ∧
          d.ops.filter (Effect.drawsAt px) =
            [Effect.drawString (stringOfChar (charAt (displayTimeLatch rd rc prev).2.2 i))
               px (y + yOffset) 1,
             Effect.drawString (stringOfChar (charAt time i)) px (y + yOffset) 1] := by
  have hloop := displayTimeLoop_exact x y time (displayTimeLatch rd rc prev).2.2 yOffset col
    time.length 0 (by omega)
  rw [← List.range_eq_range'] at hloop
  refine ⟨⟨(displayTimeLatch rd rc prev).1, (displayTimeLatch rd rc prev).2.1, time,
    (List.range time.length).flatMap
      (repaintOps x y yOffset col time (displayTimeLatch rd rc prev).2.2)⟩, ?_, rfl, ?_⟩
  · simp only [displayTime, hloop]
  · intro i hi hne
    have hmem : i ∈ List.range time.length := List.mem_range.mpr hi
    refine ⟨(positions x).getD i 0, positions_getElem?_getD x i (by omega), ?_, ?_⟩
    · have hinf := List.infix_of_mem_flatten
        (List.mem_map_of_mem
          (repaintOps x y yOffset col time (displayTimeLatch rd rc prev).2.2) hmem)
      rw [← List.flatMap_def] at hinf
      simpa [repaintOps, hne] using hinf
    · dsimp only
      rw [flatMap_filter_single _ _ i _ (List.nodup_range _) hmem, repaintOps_filter x y yOffset
        col time _ i i (by omega) (by omega)]
      · simp [hne]
      · intro k hk hki
        rw [repaintOps_filter x y yOffset col time _ i k (by omega)
          (by have := List.mem_range.mp hk; omega)]
        simp [hki]

/-- An instance of C12: "12:30" rendered over "12:29". -/
theorem displayTime_erases_then_paints_witness :
    ∃ d, displayTime 8 5 "12:30".toList "12:29".toList 0 TFT_GREEN false 0 = some d ∧
      d.ops = (List.range ("12:30".toList).length).flatMap
        (repaintOps 8 5 0 TFT_GREEN "12:30".toList
          (displayTimeLatch false 0 "12:29".toList).2.2) ∧
      ∀ i, i < ("12:30".toList).length →
        charAt "12:30".toList i ≠ charAt (displayTimeLatch false 0 "12:29".toList).2.2 i →
        ∃ px, (positions 8)[i]? = some px ∧
          slotRepaint px (5 + 0) TFT_GREEN
            (charAt (displayTimeLatch false 0 "12:29".toList).2.2 i)
            (charAt "12:30".toList i) <:+: d.ops ∧
          d.ops.filter (Effect.drawsAt px) =
            [Effect.drawString
               (stringOfChar (charAt (displayTimeLatch false 0 "12:29".toList).2.2 i))
               px (5 + 0) 1,
             Effect.drawString (stringOfChar (charAt "12:30".toList i)) px (5 + 0) 1] :=
  displayTime_erases_then_paints 8 5 0 TFT_GREEN false 0 "12:30".toList "12:29".toList
    (by decide)

/-- C13 as stated fails: for the local clock field (anchor 8) the step from
slot 0 to slot 1 is 48 pixels and the step from slot 1 to slot 2 is 30
pixels, so no single cell width fits all seven steps. -/
theorem positions_pitch_not_constant :
    (positions 8).getD 1 0 - (positions 8).getD 0 0 = 48 ∧
    (positions 8).getD 2 0 - (positions 8).getD 1 0 = 30 ∧
    ¬ ∃ w : Int, ∀ i, i < 7 → (positions 8).getD (i + 1) 0 - (positions 8).getD i 0 = w := by
  refine ⟨by decide, by decide, ?_⟩
  rintro ⟨w, hw⟩
  have h0 := hw 0 (by omega)
  have h1 := hw 1 (by omega)
  simp [positions] at h0 h1
  omega

/-- C13 amended: the eight slot offsets are the anchor `x` plus the fixed
distances 0, 48, 78, 108, 156, 186, 216, 264, so they depend on the anchor and
the index only; the seven steps between neighbouring slots are 48, 30, 30, 48,
30, 30, 48 pixels; and whatever strings `displayTime` is given (at most 8
characters), every glyph it draws is at one of these eight offsets. -/
theorem positions_fixed_grid (x : Int) :
    (∀ i, i < 8 →
      (positions x).getD i 0 = x + ([0, 48, 78, 108, 156, 186, 216, 264] : List Int).getD i 0) ∧
    (∀ i, i < 7 →
      (positions x).getD (i + 1) 0 - (positions x).getD i 0
        = ([48, 30, 30, 48, 30, 30, 48] : List Int).getD i 0) ∧
    (∀ (y yOffset : Int) (col : Nat) (rd : Bool) (rc : Int) (time prev : List Char)
      (d : DisplayTimeResult), time.length ≤ 8 →
      displayTime x y time prev yOffset col rd rc = some d →
      ∀ (s : List Char) (px py : Int) (f : Nat),
        Effect.drawString s px py f ∈ d.ops → px ∈ positions x) := by
  refine ⟨?_, ?_, ?_⟩
  · intro i hi
    interval_cases i <;> simp [positions]
  · intro i hi
    interval_cases i <;> simp [positions]
  · intro y yOffset col rd rc time prev d h8 hd s px py f hmem
    have hloop := displayTimeLoop_exact x y time (displayTimeLatch rd rc prev).2.2 yOffset col
      time.length 0 (by omega)
    simp only [displayTime, hloop, Option.some.injEq] at hd
    subst hd
    simp only [List.mem_flatMap, List.mem_range'_1] at hmem
    obtain ⟨j, ⟨-, hj⟩, hop⟩ := hmem
    have hj8 : j < 8 := by omega
    have hin : (positions x).getD j 0 ∈ positions x := by
      have := positions_getElem?_getD x j hj8
      obtain ⟨hlt, heq⟩ := List.getElem?_eq_some_iff.mp this
      rw [← heq]
      exact List.getElem_mem hlt
    unfold repaintOps slotRepaint at hop
    split at hop
    · simp only [List.mem_cons, Effect.drawString.injEq, List.mem_singleton,
        List.not_mem_nil, or_false, reduceCtorEq, false_or] at hop
      rcases hop with ⟨-, h, -, -⟩ | ⟨-, h, -, -⟩
      · rw [h]; exact hin
      · rw [h]; exact hin
    · simp at hop

/-- An instance of the amended C13: the local clock field, anchored at 8,
rendering "12:30" over "12:29". -/
theorem positions_fixed_grid_witness :
    (∀ i, i < 8 →
      (positions 8).getD i 0 = 8 + ([0, 48, 78, 108, 156, 186, 216, 264] : List Int).getD i 0) ∧
    (∀ i, i < 7 →
      (positions 8).getD (i + 1) 0 - (positions 8).getD i 0
        = ([48, 30, 30, 48, 30, 30, 48] : List Int).getD i 0) ∧
    (∀ (y yOffset : Int) (col : Nat) (rd : Bool) (rc : Int) (time prev : List Char)
      (d : DisplayTimeResult), time.length ≤ 8 →
      displayTime 8 y time prev yOffset col rd rc = some d →
      ∀ (s : List Char) (px py : Int) (f : Nat),
        Effect.drawString s px py f ∈ d.ops → px ∈ positions 8) :=
  positions_fixed_grid 8

/-- C14: in every state of `refreshDigits` and `refreshDigitsCounter` and for
every prior `previousTime`, every call of `displayTime` that returns leaves
`previousTime` equal to the rendered string; and the call does return for
every string of at most 8 characters. -/
theorem displayTime_records_time (x y yOffset : Int) (col : Nat) (rd : Bool) (rc : Int)
    (time prev : List Char) :
    (∀ d, displayTime x y time prev yOffset col rd rc = some d → d.previousTime = time) ∧
    (time.length ≤ 8 →
      ∃ d, displayTime x y time prev yOffset col rd rc = some d ∧ d.previousTime = time) := by
  constructor
  · intro d hd
    unfold displayTime at hd
    dsimp only at hd
    generalize displayTimeLoop x y time _ yOffset col time.length 0 = o at hd
    cases o with
    | none => simp at hd
    | some ops =>
      simp only [Option.some.injEq] at hd
      rw [← hd]
  · intro h8
    have hloop := displayTimeLoop_exact x y time (displayTimeLatch rd rc prev).2.2 yOffset col
      time.length 0 (by omega)
    refine ⟨⟨(displayTimeLatch rd rc prev).1, (displayTimeLatch rd rc prev).2.1, time,
      (List.range' 0 time.length).flatMap
        (repaintOps x y yOffset col time (displayTimeLatch rd rc prev).2.2)⟩, ?_, rfl⟩
    simp only [displayTime, hloop]

/-- An instance of C14: "12:30:00" rendered over "12:29:59" with the digit
latch set and its counter at 1. -/
theorem displayTime_records_time_witness :
    (∀ d, displayTime 8 5 "12:30:00".toList "12:29:59".toList 0 TFT_GREEN true 1 = some d →
      d.previousTime = "12:30:00".toList) ∧
    (∃ d, displayTime 8 5 "12:30:00".toList "12:29:59".toList 0 TFT_GREEN true 1 = some d ∧
      d.previousTime = "12:30:00".toList) :=
  ⟨(displayTime_records_time 8 5 0 TFT_GREEN true 1 "12:30:00".toList "12:29:59".toList).1,
   (displayTime_records_time 8 5 0 TFT_GREEN true 1 "12:30:00".toList "12:29:59".toList).2
     (by decide)⟩

theorem nextTextX_bounds (W w t : Int) (hW : 0 ≤ W) (hw : 0 ≤ w) (ht : t ≤ W + 1) :
    -w ≤ nextTextX W w t ∧ nextTextX W w t ≤ W := by
  unfold nextTextX
  split <;> constructor <;> omega

/-- C15: a banner tick maps the offset `t` to `W` when `t - 1 < -w` and to
`t - 1` otherwise, and the tick of `loop` is this map at the band width 310
and the measured width of the current message. Hence, for a band width
`W ≥ 0` and message widths `ws k ≥ 0` that may change from tick to tick, from
any offset `t0 ≤ W + 1` the offset after every tick lies between minus the
width measured at that tick and `W`. -/
theorem scroll_offset_stays_in_band (W : Int) (ws : Nat → Int) (t0 : Int)
    (hW : 0 ≤ W) (hws : ∀ k, 0 ≤ ws k) (ht : t0 ≤ W + 1) :
    (∀ w t : Int, nextTextX W w t = if t - 1 < -w then W else t - 1) ∧
    (∀ (inp : LoopInput) (g : Globals),
      (loopScroll inp g).1.textX
        = nextTextX stext2Width (inp.textWidth g.scrollText) g.textX) ∧
    (∀ n, -(ws n) ≤ textXAfter W ws t0 (n + 1) ∧ textXAfter W ws t0 (n + 1) ≤ W) := by
  refine ⟨fun _ _ => rfl, fun _ _ => rfl, ?_⟩
  have hle : ∀ n, textXAfter W ws t0 n ≤ W + 1 := by
    intro n
    induction n with
    | zero => exact ht
    | succ n ih =>
      have := (nextTextX_bounds W (ws n) _ hW (hws n) ih).2
      show nextTextX W (ws n) (textXAfter W ws t0 n) ≤ W + 1
      omega
  intro n
  exact nextTextX_bounds W (ws n) _ hW (hws n) (hle n)

/-- An instance of C15: the 310-pixel band, a message 10 pixels wide that is
replaced after three ticks by one 90 pixels wide, from offset 311. -/
theorem scroll_offset_stays_in_band_witness :
    (∀ w t : Int, nextTextX 310 w t = if t - 1 < -w then 310 else t - 1) ∧
    (∀ (inp : LoopInput) (g : Globals),
      (loopScroll inp g).1.textX
        = nextTextX stext2Width (inp.textWidth g.scrollText) g.textX) ∧
    (∀ n, -((fun k : Nat => if k < 3 then (10 : Int) else 90) n)
        ≤ textXAfter 310 (fun k : Nat => if k < 3 then (10 : Int) else 90) 311 (n + 1) ∧
      textXAfter 310 (fun k : Nat => if k < 3 then (10 : Int) else 90) 311 (n + 1) ≤ 310) :=
  scroll_offset_stays_in_band 310 (fun k : Nat => if k < 3 then (10 : Int) else 90) 311
    (by decide) (fun k => by dsimp only; split <;> decide) (by decide)

theorem loopInactivity_of_idle (inp : LoopInput) (g : Globals) (h : g.screenSaver = true) :
    loopInactivity inp g = (g, []) := by
  simp [loopInactivity, h]

theorem dotOps_isAnimation (rnd : Nat → Nat) (n i : Nat) :
    ∀ op ∈ dotOps rnd n i, op.isAnimation = true := by
  induction n generalizing i with
  | zero => simp [dotOps]
  | succ n ih =>
    intro op hop
    simp only [dotOps, List.mem_cons] at hop
    rcases hop with h | h
    · rw [h]; rfl
    · exact ih (i + 1) op h

/-- Without a qualifying touch the screensaver branch changes at most the
animation timestamp, and makes animation calls only. -/
theorem loopScreenSaver_no_touch_frame (inp : LoopInput) (g : Globals)
    (hq : qualifyingTouch inp = false) :
    (loopScreenSaver inp g).1.previousLocalTime = g.previousLocalTime ∧
    (loopScreenSaver inp g).1.previousUTCtime = g.previousUTCtime ∧
    (loopScreenSaver inp g).1.textX = g.textX ∧
    (loopScreenSaver inp g).1.scrollText = g.scrollText ∧
    (loopScreenSaver inp g).1.previousMillisForScroller = g.previousMillisForScroller ∧
    (loopScreenSaver inp g).1.screenSaver = g.screenSaver ∧
    ∀ op ∈ (loopScreenSaver inp g).2, op.isAnimation = true := by
  unfold qualifyingTouch at hq
  unfold loopScreenSaver
  dsimp only
  rw [if_neg (by rw [hq]; simp)]
  split
  · refine ⟨rfl, rfl, rfl, rfl, rfl, rfl, ?_⟩
    intro op hop
    simp only [List.mem_cons] at hop
    rcases hop with h | h
    · rw [h]; rfl
    · exact dotOps_isAnimation _ _ _ op h
  · refine ⟨rfl, rfl, rfl, rfl, rfl, rfl, ?_⟩
    intro op hop
    simp at hop

theorem rowBlocks_length (w : Nat) (rows : List (List Nat)) (y : Nat) :
    (rowBlocks w rows y).length = rows.length := by
  induction rows generalizing y with
  | nil => rfl
  | cons line rest ih => simp [rowBlocks, ih]

theorem rowBlocks_getElem? (w : Nat) (rows : List (List Nat)) (y k : Nat) (line : List Nat)
    (h : rows[k]? = some line) :
    (rowBlocks w rows y)[k]? = some (Effect.pushImage 0 ((y + k : Nat) : Int) w 1 line) := by
  induction rows generalizing y k with
  | nil => simp at h
  | cons l rest ih =>
    cases k with
    | zero =>
      simp only [List.getElem?_cons_zero, Option.some.injEq] at h
      simp [rowBlocks, h]
    | succ k =>
      simp only [List.getElem?_cons_succ] at h
      have := ih (y + 1) k h
      simp only [rowBlocks, List.getElem?_cons_succ, this]
      congr 2
      omega

theorem rowBlocks_isPushImage (w : Nat) (rows : List (List Nat)) (y : Nat) :
    ∀ op ∈ rowBlocks w rows y, op.isPushImage = true := by
  induction rows generalizing y with
  | nil => simp [rowBlocks]
  | cons line rest ih =>
    intro op hop
    simp only [rowBlocks, List.mem_cons] at hop
    rcases hop with h | h
    · rw [h]; rfl
    · exact ih (y + 1) op h

/-- For an image no wider than the line buffer the row loop returns; it has
pushed one block for each row that was both expected and present, top to
bottom, and it fails with `Truncated` exactly when an expected row is absent. -/
theorem pngDecodeRows_spec (img : PngImage) (hw : img.width ≤ 480) (n y : Nat)
    (hy : y ≤ img.handle.rows.length) :
    pngDecodeRows pngDraw img n y
      = some (if y + n ≤ img.handle.rows.length then none else some DecodeError.Truncated,
              rowBlocks img.width ((img.handle.rows.drop y).take n) y) := by
  induction n generalizing y with
  | zero => simp [pngDecodeRows, rowBlocks, hy]
  | succ n ih =>
    unfold pngDecodeRows
    cases hrow : img.handle.rows[y]? with
    | none =>
      have hlen : img.handle.rows.length ≤ y := List.getElem?_eq_none_iff.mp hrow
      have hd : img.handle.rows.drop y = [] := List.drop_of_length_le hlen
      simp only [hd, List.take_nil, rowBlocks]
      rw [if_neg (by omega)]
    | some line =>
      obtain ⟨hlt, hget⟩ := List.getElem?_eq_some_iff.mp hrow
      have hd : img.handle.rows.drop y = line :: img.handle.rows.drop (y + 1) := by
        rw [← hget]
        exact List.drop_eq_getElem_cons hlt
      simp only [pngDraw, hw, if_true, ih (y + 1) (by omega), hd, List.take_succ_cons,
        rowBlocks, List.singleton_append]
      congr 2
      by_cases hc : y + (n + 1) ≤ img.handle.rows.length
      · rw [if_pos hc, if_pos (by omega)]
      · rw [if_neg hc, if_neg (by omega)]

/-- Every call the row loop makes through the row callback is a set-pixel-block. -/
theorem pngDecodeRows_isPushImage (img : PngImage) (n y : Nat)
    (r : Option DecodeError × List Effect) (h : pngDecodeRows pngDraw img n y = some r) :
    ∀ op ∈ r.2, op.isPushImage = true := by
  induction n generalizing y r with
  | zero =>
    simp only [pngDecodeRows, Option.some.injEq] at h
    subst h
    simp
  | succ n ih =>
    unfold pngDecodeRows at h
    cases hrow : img.handle.rows[y]? with
    | none =>
      simp only [hrow, Option.some.injEq] at h
      subst h
      simp
    | some line =>
      simp only [hrow] at h
      cases hd : pngDraw y img.width line with
      | none => simp [hd] at h
      | some ops =>
        simp only [hd] at h
        cases hrest : pngDecodeRows pngDraw img n (y + 1) with
        | none => simp [hrest] at h
        | some r' =>
          simp only [hrest, Option.some.injEq] at h
          subst h
          intro op hop
          simp only [List.mem_append] at hop
          rcases hop with hop | hop
          · unfold pngDraw at hd
            split at hd
            · simp only [Option.some.injEq] at hd
              subst hd
              simp only [List.mem_singleton] at hop
              rw [hop]; rfl
            · simp at hd
          · exact ih (y + 1) r' hrest op hop

theorem pngOpen_ops (fs : List Char → Option PngFile) (filename : List Char) :
    (pngOpen fs filename).2 = [Effect.spiffsOpen ('/' :: filename)] := by
  unfold pngOpen fileOpen
  dsimp only
  cases hf : fs ('/' :: filename) with
  | none => rfl
  | some f =>
    dsimp only
    cases hh : f.header with
    | none => rfl
    | some wh => rfl

theorem pngOpen_found (fs : List Char → Option PngFile) (filename : List Char) (f : PngFile)
    (w h : Nat) (hf : fs ('/' :: filename) = some f) (hh : f.header = some (w, h)) :
    pngOpen fs filename
      = (OpenResult.ok { handle := f, width := w, height := h },
         [Effect.spiffsOpen ('/' :: filename)]) := by
  simp [pngOpen, fileOpen, hf, hh]

/-- The calls of `displayPNGfromSPIFFS` on a stored image with a well-formed
header, no wider than the line buffer: the open, the log line, and between
`startWrite` and `endWrite` one block for every row that is both announced by
the header and present in the data. -/
theorem displayPNG_found (fs : List Char → Option PngFile) (filename : List Char)
    (d : Int) (f : PngFile) (w h : Nat) (hf : fs ('/' :: filename) = some f)
    (hh : f.header = some (w, h)) (hw : w ≤ 480) :
    displayPNGfromSPIFFS true fs filename d
      = some ([Effect.spiffsOpen ('/' :: filename),
               Effect.serialPrintln ("Displaying PNG: " ++ String.mk filename),
               Effect.startWrite] ++ rowBlocks w (f.rows.take h) 0 ++
              [Effect.endWrite, Effect.delay d]) := by
  have hdec := pngDecodeRows_spec { handle := f, width := w, height := h } hw h 0
    (Nat.zero_le _)
  simp only [List.drop_zero] at hdec
  simp only [displayPNGfromSPIFFS, pngOpen_found fs filename f w h hf hh, pngDecode, hdec,
    Bool.not_true, Bool.false_eq_true, if_false, List.cons_append, List.nil_append,
    List.append_assoc]

/-- C17 fails on the code. For the stored 2-by-2 image `/logo1.png` the stream
is opened and both rows are decoded and pushed, yet the calls of
`displayPNGfromSPIFFS` end with `endWrite` and the delay: the close callback,
which would make the call `Effect.fileClose`, is never invoked. The same holds
for every execution: no call list of `displayPNGfromSPIFFS` holds a close. -/
theorem displayPNG_never_closes_stream :
    displayPNGfromSPIFFS true logoStore "logo1.png".toList 0
      = some [Effect.spiffsOpen "/logo1.png".toList,
              Effect.serialPrintln "Displaying PNG: logo1.png",
              Effect.startWrite,
              Effect.pushImage 0 0 2 1 [0xF800, 0x07E0],
              Effect.pushImage 0 1 2 1 [0x001F, 0xFFFF],
              Effect.endWrite,
              Effect.delay 0] ∧
    (∀ handle, fileClose handle = [Effect.fileClose]) ∧
    (∀ (mounted : Bool) (fs : List Char → Option PngFile) (filename : List Char) (d : Int)
      (ops : List Effect),
      displayPNGfromSPIFFS mounted fs filename d = some ops → Effect.fileClose ∉ ops) := by
  refine ⟨by decide, fun _ => rfl, ?_⟩
  intro mounted fs filename d ops hops
  unfold displayPNGfromSPIFFS at hops
  cases mounted with
  | false =>
    simp only [Bool.not_false, if_true, Option.some.injEq] at hops
    subst hops
    simp
  | true =>
    simp only [Bool.not_true, Bool.false_eq_true, if_false, pngOpen_ops] at hops
    cases ho : (pngOpen fs filename).1 with
    | failed e =>
      simp only [ho, Option.some.injEq] at hops
      subst hops
      simp
    | ok img =>
      simp only [ho] at hops
      cases hd : pngDecode pngDraw img with
      | none => simp [hd] at hops
      | some r =>
        simp only [hd, Option.some.injEq] at hops
        subst hops
        have hpush := pngDecodeRows_isPushImage img img.height 0 r hd
        intro hmem
        simp only [List.mem_append, List.mem_cons, List.mem_singleton, List.not_mem_nil,
          or_false, reduceCtorEq, false_or] at hmem
        have := hpush _ hmem
        simp [Effect.isPushImage] at this

/-- C18 as stated fails in its last part. The stored image announces 40 rows
and holds 30: the decoder ends with `Truncated`, but the calls of
`displayPNGfromSPIFFS`, which is all the function leaves to its caller, are
exactly those made for the complete 30-row image, with no failure message
among them. -/
theorem displayPNG_truncation_not_reported :
    pngOpen truncatedStore "logo4.png".toList
      = (OpenResult.ok { handle := truncatedFile, width := 2, height := 40 },
         [Effect.spiffsOpen "/logo4.png".toList]) ∧
    (pngDecode pngDraw { handle := truncatedFile, width := 2, height := 40 }).map
      (fun r => r.1) = some (some DecodeError.Truncated) ∧
    displayPNGfromSPIFFS true truncatedStore "logo4.png".toList 0
      = displayPNGfromSPIFFS true completeStore "logo4.png".toList 0 ∧
    (displayPNGfromSPIFFS true truncatedStore "logo4.png".toList 0).map
      (fun ops => ops.filter (fun op => !op.isPushImage))
      = some [Effect.spiffsOpen "/logo4.png".toList,
              Effect.serialPrintln "Displaying PNG: logo4.png",
              Effect.startWrite, Effect.endWrite, Effect.delay 0] := by
  refine ⟨by decide, by decide, by decide, by decide⟩

/-- C19: when the store has no file of the name, `fileOpen` returns the null
handle and leaves `*size` as it was, and `displayPNGfromSPIFFS` makes three
calls only: the failed open, the log line and the delay; it starts no decode
(no `startWrite`) and pushes no pixel row. -/
theorem displayPNG_open_failure (fs : List Char → Option PngFile) (filename : List Char)
    (size d : Int) (hf : fs ('/' :: filename) = none) :
    fileOpen fs filename size = (none, size, [Effect.spiffsOpen ('/' :: filename)]) ∧
    displayPNGfromSPIFFS true fs filename d
      = some [Effect.spiffsOpen ('/' :: filename),
              Effect.serialPrintln "PNG decode failed.", Effect.delay d] ∧
    (∀ ops, displayPNGfromSPIFFS true fs filename d = some ops →
      Effect.startWrite ∉ ops ∧ ∀ op ∈ ops, op.isPushImage = false) := by
  have hfo : ∀ s : Int,
      fileOpen fs filename s = (none, s, [Effect.spiffsOpen ('/' :: filename)]) := by
    intro s
    simp [fileOpen, hf]
  have hdisp : displayPNGfromSPIFFS true fs filename d
      = some [Effect.spiffsOpen ('/' :: filename),
              Effect.serialPrintln "PNG decode failed.", Effect.delay d] := by
    simp [displayPNGfromSPIFFS, pngOpen, hfo]
  refine ⟨hfo size, hdisp, ?_⟩
  intro ops hops
  rw [hdisp] at hops
  simp only [Option.some.injEq] at hops
  subst hops
  constructor
  · simp
  · intro op hop
    simp only [List.mem_cons, List.mem_singleton, List.not_mem_nil, or_false] at hop
    rcases hop with h | h | h <;> rw [h] <;> rfl

/-- An instance of C19: the store holds `/logo1.png` only and `nope.png` is asked for. -/
theorem displayPNG_open_failure_witness :
    fileOpen logoStore "nope.png".toList 77
      = (none, 77, [Effect.spiffsOpen ('/' :: "nope.png".toList)]) ∧
    displayPNGfromSPIFFS true logoStore "nope.png".toList 3000
      = some [Effect.spiffsOpen ('/' :: "nope.png".toList),
              Effect.serialPrintln "PNG decode failed.", Effect.delay 3000] ∧
    (∀ ops, displayPNGfromSPIFFS true logoStore "nope.png".toList 3000 = some ops →
      Effect.startWrite ∉ ops ∧ ∀ op ∈ ops, op.isPushImage = false) :=
  displayPNG_open_failure logoStore "nope.png".toList 77 3000 (by decide)

theorem dotOps_length (rnd : Nat → Nat) (n i : Nat) : (dotOps rnd n i).length = n := by
  induction n generalizing i with
  | zero => rfl
  | succ n ih => simp [dotOps, ih]

theorem random_lt (raw howbig : Nat) (h : 0 < howbig) : random raw 0 howbig < howbig := by
  unfold random
  rw [if_neg (by omega)]
  simp only [Nat.zero_add, Nat.sub_zero]
  exact Nat.mod_lt _ h

theorem dotOps_onScreen (rnd : Nat → Nat) (n i : Nat) :
    ∀ op ∈ dotOps rnd n i, op.isPixelOnScreen = true := by
  induction n generalizing i with
  | zero => simp [dotOps]
  | succ n ih =>
    intro op hop
    simp only [dotOps, List.mem_cons] at hop
    rcases hop with h | h
    · rw [h]
      have hx := random_lt (rnd (5 * i)) 320 (by omega)
      have hy := random_lt (rnd (5 * i + 1)) 240 (by omega)
      simp only [Effect.isPixelOnScreen, Bool.and_eq_true, decide_eq_true_eq]
      omega
    · exact ih (i + 1) op h

/-- C22: the animation tick of the screensaver branch runs exactly when at
least 1000 ms (modulo `2 ^ 32`) have passed since `lastDotUpdate`, which it
then sets to the current time. When it runs, the calls of the branch start
with one `fillScreen` followed by exactly 200 `drawPixel` calls, each at
`0 ≤ x < 320` and `0 ≤ y < 240`, whatever values the random source yields;
without a qualifying touch these are all the calls of the branch. When it
does not run and there is no qualifying touch, the branch makes no call. -/
theorem animation_tick_bounded (inp : LoopInput) (g : Globals) :
    (sub32 inp.currentMillis g.lastDotUpdate ≥ 1000 →
      ∃ dots rest,
        (loopScreenSaver inp g).2 = Effect.fillScreen TFT_BLACK :: (dots ++ rest) ∧
        dots.length = 200 ∧
        (∀ op ∈ dots, op.isPixelOnScreen = true) ∧
        (qualifyingTouch inp = false → rest = []) ∧
        (loopScreenSaver inp g).1.lastDotUpdate = inp.currentMillis) ∧
    (¬ sub32 inp.currentMillis g.lastDotUpdate ≥ 1000 →
      (loopScreenSaver inp g).1.lastDotUpdate = g.lastDotUpdate ∧
      (qualifyingTouch inp = false → (loopScreenSaver inp g).2 = [])) := by
  have hdm : ∀ x : Globals, (drawOrredrawStaticElements x).1.lastDotUpdate = x.lastDotUpdate := by
    intro x
    cases hf : x.refreshFrames <;> by_cases hc : x.refreshFramesCounter + 1 < 2 <;>
      simp [drawOrredrawStaticElements, hf, hc]
  constructor
  · intro hdue
    cases hq : qualifyingTouch inp with
    | false =>
      refine ⟨dotOps inp.rnd 200 0, [], ?_, dotOps_length _ _ _, dotOps_onScreen _ _ _,
        fun _ => rfl, ?_⟩
      · unfold qualifyingTouch at hq
        simp only [loopScreenSaver, hdue, if_true, hq, Bool.false_eq_true, if_false,
          List.append_nil]
      · unfold qualifyingTouch at hq
        simp only [loopScreenSaver, hdue, if_true, hq, Bool.false_eq_true, if_false]
    | true =>
      refine ⟨dotOps inp.rnd 200 0,
        [Effect.serialPrintln "Touch detected - exiting screensaver.",
         Effect.fillScreen TFT_BLACK] ++
        (drawOrredrawStaticElements
          { ({ g with lastDotUpdate := inp.currentMillis } : Globals) with
            screenSaver := false }).2,
        ?_, dotOps_length _ _ _, dotOps_onScreen _ _ _, fun h => by simp at h, ?_⟩
      · unfold qualifyingTouch at hq
        simp only [loopScreenSaver, hdue, if_true, hq, List.cons_append, List.append_assoc]
      · unfold qualifyingTouch at hq
        simp only [loopScreenSaver, hdue, if_true, hq, hdm]
  · intro hnot
    constructor
    · cases hq : qualifyingTouch inp with
      | false =>
        unfold qualifyingTouch at hq
        simp only [loopScreenSaver, hnot, if_false, hq, Bool.false_eq_true]
      | true =>
        unfold qualifyingTouch at hq
        simp only [loopScreenSaver, hnot, if_false, hq, if_true, hdm]
    · intro hq
      unfold qualifyingTouch at hq
      simp only [loopScreenSaver, hnot, if_false, hq, Bool.false_eq_true]

/-- An instance of C22: the screensaver state `idleExample` at 2000 ms without a touch. -/
theorem animation_tick_bounded_witness :
    ∃ dots rest,
      (loopScreenSaver (exampleInput 2000 false 0) idleExample).2
        = Effect.fillScreen TFT_BLACK :: (dots ++ rest) ∧
      dots.length = 200 ∧
      (∀ op ∈ dots, op.isPixelOnScreen = true) ∧
      (qualifyingTouch (exampleInput 2000 false 0) = false → rest = []) ∧
      (loopScreenSaver (exampleInput 2000 false 0) idleExample).1.lastDotUpdate
        = (exampleInput 2000 false 0).currentMillis :=
  (animation_tick_bounded (exampleInput 2000 false 0) idleExample).1 (by decide)

/-- C23 fails on the code. In the state `setup` leaves (frame latch idle), the
`/setlabel` request `target = localTimeLabel`, `value = Home` is answered with
200 and stores the new label, but makes no draw call: it sets `refreshFrames`
and its `drawOrredrawStaticElements` call counts to 1 and returns early. Only
a second such request draws the label. The same holds from every state whose
counter is 0, for both known targets. -/
theorem setlabel_first_request_draws_nothing :
    Reachable bootExample ∧
    (handleSetLabel (Body.doc { target := "localTimeLabel".toList, value := "Home".toList })
      bootExample).ops = [] ∧
    (handleSetLabel (Body.doc { target := "localTimeLabel".toList, value := "Home".toList })
      bootExample).status = 200 ∧
    (handleSetLabel (Body.doc { target := "localTimeLabel".toList, value := "Home".toList })
      bootExample).globals.localTimeLabel = "  Home  ".toList ∧
    (handleSetLabel (Body.doc { target := "localTimeLabel".toList, value := "Home".toList })
      bootExample).globals.refreshFrames = true ∧
    (handleSetLabel (Body.doc { target := "localTimeLabel".toList, value := "Home".toList })
      bootExample).globals.refreshFramesCounter = 1 ∧
    Effect.drawCentreString "  Home  ".toList 160 76 1 ∈
      (handleSetLabel (Body.doc { target := "localTimeLabel".toList, value := "Home".toList })
        (handleSetLabel
          (Body.doc { target := "localTimeLabel".toList, value := "Home".toList })
          bootExample).globals).ops ∧
    (∀ (g : Globals) (d : SetLabelDoc), g.refreshFramesCounter = 0 →
      (d.target = "localTimeLabel".toList ∨ d.target = "utcTimeLabel".toList) →
      (handleSetLabel (Body.doc d) g).ops = [] ∧
      (handleSetLabel (Body.doc d) g).status = 200) := by
  refine ⟨Reachable.boot _ _, by rfl, by rfl, by rfl, by rfl, by rfl, by decide, ?_⟩
  intro g d hc ht
  have hne : "utcTimeLabel".toList ≠ "localTimeLabel".toList := by decide
  rcases ht with ht | ht
  · simp [handleSetLabel, ht, drawOrredrawStaticElements, hc]
  · simp [handleSetLabel, ht, hne, drawOrredrawStaticElements, hc]

/-- With the frame latch in one of its two states the static redraw does not
return early: it draws both labels and empties both previous-time strings. -/
theorem drawOrredraw_redraws (g : Globals) (h : FramesOk g) :
    Effect.drawCentreString g.localTimeLabel 160 76 1 ∈ (drawOrredrawStaticElements g).2 ∧
    Effect.drawCentreString g.utcTimeLabel 160 (76 + 105) 1
      ∈ (drawOrredrawStaticElements g).2 := by
  rcases h with ⟨h1, h2⟩ | ⟨h1, h2⟩ <;>
    simp [drawOrredrawStaticElements, h1, h2]

/-- C24: in every reachable state the pair (`refreshFrames`,
`refreshFramesCounter`) is (false, 0) or (true, 1); every request handler and
every `loop` call keeps it so; hence a `drawOrredrawStaticElements` call on
such a state, also after other variables were assigned, does not return
early: it draws both labels, empties both previous-time strings and leaves the
pair in one of the two states. -/
theorem frame_latch_invariant (g : Globals) (hreach : Reachable g) :
    ((g.refreshFrames = false ∧ g.refreshFramesCounter = 0) ∨
      (g.refreshFrames = true ∧ g.refreshFramesCounter = 1)) ∧
    (∀ req, FramesOk (handleClient req g).globals) ∧
    (∀ inp r, loop inp g = some r → FramesOk r.globals) ∧
    (∀ g' : Globals, g'.refreshFrames = g.refreshFrames →
      g'.refreshFramesCounter = g.refreshFramesCounter →
      (drawOrredrawStaticElements g').1.previousLocalTime = [] ∧
      (drawOrredrawStaticElements g').1.previousUTCtime = [] ∧
      Effect.drawCentreString g'.localTimeLabel 160 76 1
        ∈ (drawOrredrawStaticElements g').2 ∧
      Effect.drawCentreString g'.utcTimeLabel 160 (76 + 105) 1
        ∈ (drawOrredrawStaticElements g').2 ∧
      FramesOk (drawOrredrawStaticElements g').1) := by
  have hok := reachable_framesOk g hreach
  refine ⟨hok, fun req => handleClient_framesOk req g hok,
    fun inp r hl => loop_framesOk inp g r hl hok, ?_⟩
  intro g' h1 h2
  have hok' : FramesOk g' := hok.congr h1 h2
  have hd := drawOrredraw_framesOk g' hok'
  have hr := drawOrredraw_redraws g' hok'
  exact ⟨hd.2.1, hd.2.2, hr.1, hr.2, hd.1⟩

/-- An instance of C24: the state `setup` leaves. -/
theorem frame_latch_invariant_witness :
    ((bootExample.refreshFrames = false ∧ bootExample.refreshFramesCounter = 0) ∨
      (bootExample.refreshFrames = true ∧ bootExample.refreshFramesCounter = 1)) ∧
    (∀ req, FramesOk (handleClient req bootExample).globals) ∧
    (∀ inp r, loop inp bootExample = some r → FramesOk r.globals) ∧
    (∀ g' : Globals, g'.refreshFrames = bootExample.refreshFrames →
      g'.refreshFramesCounter = bootExample.refreshFramesCounter →
      (drawOrredrawStaticElements g').1.previousLocalTime = [] ∧
      (drawOrredrawStaticElements g').1.previousUTCtime = [] ∧
      Effect.drawCentreString g'.localTimeLabel 160 76 1
        ∈ (drawOrredrawStaticElements g').2 ∧
      Effect.drawCentreString g'.utcTimeLabel 160 (76 + 105) 1
        ∈ (drawOrredrawStaticElements g').2 ∧
      FramesOk (drawOrredrawStaticElements g').1) :=
  frame_latch_invariant bootExample (Reachable.boot emptySettings none)

/-- C25: a `/setcolor` request whose target is none of the six known names is
answered with status 400 and changes nothing: the globals are exactly as
before (so the five colour settings, `doubleFrame`, `refreshDigits` and both
previous-time strings are unchanged), no call is made, settings are not
saved, and the device is not restarted. -/
theorem setcolor_unknown_target_rejected (d : SetColorDoc) (g : Globals)
    (h0 : d.target ≠ "doubleFrame".toList)
    (h1 : d.target ≠ "localTimeDigits".toList)
    (h2 : d.target ≠ "localTimeFrame".toList)
    (h3 : d.target ≠ "utcTimeDigits".toList)
    (h4 : d.target ≠ "utcTimeFrame".toList)
    (h5 : d.target ≠ "weatherBannerText".toList) :
    (handleSetColor (Body.doc d) g).status = 400 ∧
    (handleSetColor (Body.doc d) g).globals = g ∧
    (handleSetColor (Body.doc d) g).ops = [] ∧
    Effect.saveSettings ∉ (handleSetColor (Body.doc d) g).ops ∧
    (handleSetColor (Body.doc d) g).restart = false ∧
    (handleClient (some (Request.setcolor (Body.doc d))) g).globals.colourSettings
      = g.colourSettings ∧
    (handleClient (some (Request.setcolor (Body.doc d))) g).globals.refreshDigits
      = g.refreshDigits ∧
    (handleClient (some (Request.setcolor (Body.doc d))) g).globals.previousLocalTime
      = g.previousLocalTime ∧
    (handleClient (some (Request.setcolor (Body.doc d))) g).globals.previousUTCtime
      = g.previousUTCtime := by
  have hr : handleSetColor (Body.doc d) g
      = { globals := g, ops := [], status := 400, restart := false } := by
    unfold handleSetColor
    simp only [if_neg h0, if_neg h1, if_neg h2, if_neg h3, if_neg h4, if_neg h5]
  simp only [handleClient, hr]
  simp

/-- An instance of C25: the target `clockFace` with colour 0xF800 in the boot state. -/
theorem setcolor_unknown_target_rejected_witness :
    (handleSetColor (Body.doc { target := "clockFace".toList, value := true, color := 0xF800 })
      bootExample).status = 400 ∧
    (handleSetColor (Body.doc { target := "clockFace".toList, value := true, color := 0xF800 })
      bootExample).globals = bootExample ∧
    (handleSetColor (Body.doc { target := "clockFace".toList, value := true, color := 0xF800 })
      bootExample).ops = [] ∧
    Effect.saveSettings ∉
      (handleSetColor
        (Body.doc { target := "clockFace".toList, value := true, color := 0xF800 })
        bootExample).ops ∧
    (handleSetColor (Body.doc { target := "clockFace".toList, value := true, color := 0xF800 })
      bootExample).restart = false ∧
    (handleClient (some (Request.setcolor
      (Body.doc { target := "clockFace".toList, value := true, color := 0xF800 })))
      bootExample).globals.colourSettings = bootExample.colourSettings ∧
    (handleClient (some (Request.setcolor
      (Body.doc { target := "clockFace".toList, value := true, color := 0xF800 })))
      bootExample).globals.refreshDigits = bootExample.refreshDigits ∧
    (handleClient (some (Request.setcolor
      (Body.doc { target := "clockFace".toList, value := true, color := 0xF800 })))
      bootExample).globals.previousLocalTime = bootExample.previousLocalTime ∧
    (handleClient (some (Request.setcolor
      (Body.doc { target := "clockFace".toList, value := true, color := 0xF800 })))
      bootExample).globals.previousUTCtime = bootExample.previousUTCtime :=
  setcolor_unknown_target_rejected
    { target := "clockFace".toList, value := true, color := 0xF800 } bootExample
    (by decide) (by decide) (by decide) (by decide) (by decide) (by decide)

/-- The static redraw leaves the five colour settings and `doubleFrame` alone. -/
theorem drawOrredraw_colourSettings (g : Globals) :
    (drawOrredrawStaticElements g).1.colourSettings = g.colourSettings := by
  cases hf : g.refreshFrames <;> by_cases hc : g.refreshFramesCounter + 1 < 2 <;>
    simp [drawOrredrawStaticElements, Globals.colourSettings, hf, hc]

/-- C26: a `/setcolor` request whose target is one of the five colour names
sets the colour variable of that name to the colour of the request, leaves the
other four colour settings and `doubleFrame` as they were, sets
`refreshDigits`, saves the settings and is answered with 200. -/
theorem setcolor_sets_one_colour (d : SetColorDoc) (g : Globals) :
    (d.target = "localTimeDigits".toList →
      (handleSetColor (Body.doc d) g).globals.colourSettings
        = (d.color, g.localFrameColour, g.utcTimeColour, g.utcFrameColour,
           g.bannerColour, g.doubleFrame)) ∧
    (d.target = "localTimeFrame".toList →
      (handleSetColor (Body.doc d) g).globals.colourSettings
        = (g.localTimeColour, d.color, g.utcTimeColour, g.utcFrameColour,
           g.bannerColour, g.doubleFrame)) ∧
    (d.target = "utcTimeDigits".toList →
      (handleSetColor (Body.doc d) g).globals.colourSettings
        = (g.localTimeColour, g.localFrameColour, d.color, g.utcFrameColour,
           g.bannerColour, g.doubleFrame)) ∧
    (d.target = "utcTimeFrame".toList →
      (handleSetColor (Body.doc d) g).globals.colourSettings
        = (g.localTimeColour, g.localFrameColour, g.utcTimeColour, d.color,
           g.bannerColour, g.doubleFrame)) ∧
    (d.target = "weatherBannerText".toList →
      (handleSetColor (Body.doc d) g).globals.colourSettings
        = (g.localTimeColour, g.localFrameColour, g.utcTimeColour, g.utcFrameColour,
           d.color, g.doubleFrame)) ∧
    (d.target ∈ ["localTimeDigits".toList, "localTimeFrame".toList, "utcTimeDigits".toList,
        "utcTimeFrame".toList, "weatherBannerText".toList] →
      (handleSetColor (Body.doc d) g).globals.refreshDigits = true ∧
      (handleSetColor (Body.doc d) g).status = 200 ∧
      Effect.saveSettings ∈ (handleSetColor (Body.doc d) g).ops) := by
  have key : ∀ g1 : Globals,
      ({ (drawOrredrawStaticElements g1).1 with refreshDigits := true } : Globals).colourSettings
        = g1.colourSettings := by
    intro g1
    have := drawOrredraw_colourSettings g1
    simpa [Globals.colourSettings] using this
  refine ⟨?_, ?_, ?_, ?_, ?_, ?_⟩
  · intro ht
    simp only [handleSetColor, ht]
    simp only [show ¬ ("localTimeDigits".toList = "doubleFrame".toList) by decide, if_false,
      if_true, key]
    rfl
  · intro ht
    simp only [handleSetColor, ht]
    simp only [show ¬ ("localTimeFrame".toList = "doubleFrame".toList) by decide,
      show ¬ ("localTimeFrame".toList = "localTimeDigits".toList) by decide, if_false,
      if_true, key]
    rfl
  · intro ht
    simp only [handleSetColor, ht]
    simp only [show ¬ ("utcTimeDigits".toList = "doubleFrame".toList) by decide,
      show ¬ ("utcTimeDigits".toList = "localTimeDigits".toList) by decide,
      show ¬ ("utcTimeDigits".toList = "localTimeFrame".toList) by decide, if_false,
      if_true, key]
    rfl
  · intro ht
    simp only [handleSetColor, ht]
    simp only [show ¬ ("utcTimeFrame".toList = "doubleFrame".toList) by decide,
      show ¬ ("utcTimeFrame".toList = "localTimeDigits".toList) by decide,
      show ¬ ("utcTimeFrame".toList = "localTimeFrame".toList) by decide,
      show ¬ ("utcTimeFrame".toList = "utcTimeDigits".toList) by decide, if_false,
      if_true, key]
    rfl
  · intro ht
    simp only [handleSetColor, ht]
    simp only [show ¬ ("weatherBannerText".toList = "doubleFrame".toList) by decide,
      show ¬ ("weatherBannerText".toList = "localTimeDigits".toList) by decide,
      show ¬ ("weatherBannerText".toList = "localTimeFrame".toList) by decide,
      show ¬ ("weatherBannerText".toList = "utcTimeDigits".toList) by decide,
      show ¬ ("weatherBannerText".toList = "utcTimeFrame".toList) by decide, if_false,
      if_true, key]
    rfl
  · intro ht
    simp only [List.mem_cons, List.mem_singleton, List.not_mem_nil, or_false] at ht
    rcases ht with ht | ht | ht | ht | ht <;>
      · simp only [handleSetColor, ht]
        refine ⟨?_, ?_, ?_⟩ <;> simp +decide

/-- An instance of C26: the UTC frame is set to 0xF800 in the boot state. -/
theorem setcolor_sets_one_colour_witness :
    (handleSetColor
        (Body.doc { target := "utcTimeFrame".toList, value := false, color := 0xF800 })
        bootExample).globals.colourSettings
      = (bootExample.localTimeColour, bootExample.localFrameColour, bootExample.utcTimeColour,
         0xF800, bootExample.bannerColour, bootExample.doubleFrame) ∧
    (handleSetColor
        (Body.doc { target := "utcTimeFrame".toList, value := false, color := 0xF800 })
        bootExample).globals.refreshDigits = true ∧
    (handleSetColor
        (Body.doc { target := "utcTimeFrame".toList, value := false, color := 0xF800 })
        bootExample).status = 200 ∧
    Effect.saveSettings ∈
      (handleSetColor
        (Body.doc { target := "utcTimeFrame".toList, value := false, color := 0xF800 })
        bootExample).ops :=
  ⟨(setcolor_sets_one_colour
      { target := "utcTimeFrame".toList, value := false, color := 0xF800 }
      bootExample).2.2.2.1 rfl,
   (setcolor_sets_one_colour
      { target := "utcTimeFrame".toList, value := false, color := 0xF800 }
      bootExample).2.2.2.2.2 (by decide)⟩

theorem constrain_range (s : Int) :
    constrain s 0 45 = (if s < 0 then 0 else if s > 45 then 45 else s) ∧
    0 ≤ constrain s 0 45 ∧ constrain s 0 45 ≤ 45 := by
  unfold constrain
  refine ⟨rfl, ?_, ?_⟩ <;> split <;> (try split) <;> omega

theorem toUnsigned_of_small (i : Int) (h0 : 0 ≤ i) (h1 : i ≤ 45) :
    toUnsigned i = i.toNat := by
  unfold toUnsigned
  have : i % 2 ^ 32 = i := by
    norm_num
    omega
  rw [this]

/-- The scroller timestamp after the normal-mode branch: the current time when
the cadence test passes, the old timestamp when it does not. -/
theorem loopActive_scroller (inp : LoopInput) (g : Globals) (r : Globals × List Effect)
    (h : loopActive inp g = some r) :
    r.1.previousMillisForScroller
      = if sub32 inp.currentMillis g.previousMillisForScroller ≥ toUnsigned g.bannerSpeed then
          inp.currentMillis
        else g.previousMillisForScroller := by
  unfold loopActive at h
  dsimp only at h
  generalize displayTime 8 5 _ _ _ _ _ _ = o1 at h
  cases o1 with
  | none => simp at h
  | some d1 =>
    dsimp only at h
    generalize displayTime 10 107 _ _ _ _ _ _ = o2 at h
    cases o2 with
    | none => simp at h
    | some d2 =>
      simp only [Option.some.injEq] at h
      subst h
      dsimp only
      by_cases hw : sub32 inp.currentMillis g.previousMillis ≥ 1000 * 60 * 5
      · rw [if_pos hw]
        cases hwe : inp.weather <;>
          by_cases hs : sub32 inp.currentMillis g.previousMillisForScroller
              ≥ toUnsigned g.bannerSpeed <;>
          simp [fetchWeatherData, loopScroll, hs]
      · rw [if_neg hw]
        by_cases hs : sub32 inp.currentMillis g.previousMillisForScroller
            ≥ toUnsigned g.bannerSpeed <;>
          simp [loopScroll, hs]

/-- C27: after a `/setspeed` request carrying the integer `s`, `bannerSpeed`
is `s` clamped to 0..45 (0 below 0, 45 above 45, `s` otherwise); its
conversion to `unsigned long` for the cadence test is that same number, at
most 45; and in a `loop` call that handles the request and stays in normal
mode, the banner ticks exactly when the elapsed time since the last tick is at
least that number. -/
theorem setspeed_clamps (s : Int) (g : Globals) :
    (handleSetSpeed (Body.doc s) g).globals.bannerSpeed
      = (if s < 0 then 0 else if s > 45 then 45 else s) ∧
    0 ≤ (handleSetSpeed (Body.doc s) g).globals.bannerSpeed ∧
    (handleSetSpeed (Body.doc s) g).globals.bannerSpeed ≤ 45 ∧
    ((toUnsigned (handleSetSpeed (Body.doc s) g).globals.bannerSpeed : Nat) : Int)
      = (handleSetSpeed (Body.doc s) g).globals.bannerSpeed ∧
    (∀ (inp : LoopInput) (r : LoopResult),
      inp.request = some (Request.setspeed (Body.doc s)) →
      g.screenSaver = false →
      sub32 inp.currentMillis g.lastActivity ≤ g.screenSaverTimeout →
      loop inp g = some r →
      r.globals.bannerSpeed = (if s < 0 then 0 else if s > 45 then 45 else s) ∧
      r.globals.previousMillisForScroller
        = if ((sub32 inp.currentMillis g.previousMillisForScroller : Nat) : Int)
              ≥ (if s < 0 then 0 else if s > 45 then 45 else s) then
            inp.currentMillis
          else g.previousMillisForScroller) := by
  have hc := constrain_range s
  have hb : (handleSetSpeed (Body.doc s) g).globals.bannerSpeed = constrain s 0 45 := rfl
  have hu : ((toUnsigned (constrain s 0 45) : Nat) : Int) = constrain s 0 45 := by
    rw [toUnsigned_of_small _ hc.2.1 hc.2.2]
    exact Int.toNat_of_nonneg hc.2.1
  refine ⟨by rw [hb]; exact hc.1, by rw [hb]; exact hc.2.1, by rw [hb]; exact hc.2.2,
    by rw [hb]; exact hu, ?_⟩
  intro inp r hreq hA hle hl
  have hh : handleClient inp.request g = handleSetSpeed (Body.doc s) g := by
    rw [hreq]
    rfl
  have hrs : (handleClient inp.request g).restart = false := by
    rw [hh]
    rfl
  have hmode := handleClient_mode inp.request g
  have hi : (loopInactivity inp (handleClient inp.request g).globals).1.screenSaver
      = false := by
    cases hcs : (loopInactivity inp (handleClient inp.request g).globals).1.screenSaver with
    | false => rfl
    | true =>
      have h1 := (loopInactivity_fires_iff inp (handleClient inp.request g).globals
        (by rw [hmode.1]; exact hA)).mp hcs
      rw [hmode.2.1, hmode.2.2 hrs] at h1
      omega
  obtain ⟨a, ha, hra⟩ := loop_active_eq inp g r hrs hi hl
  have hin : loopInactivity inp (handleClient inp.request g).globals
      = ((handleClient inp.request g).globals, []) := by
    unfold loopInactivity
    split
    · rename_i hcond
      have : (loopInactivity inp (handleClient inp.request g).globals).1.screenSaver
          = true := by
        unfold loopInactivity
        rw [if_pos hcond]
      rw [hi] at this
      exact absurd this (by simp)
    · rfl
  rw [hin] at ha
  dsimp only at ha
  have hsc := loopActive_scroller inp _ a ha
  have hbs : a.1.bannerSpeed = (handleClient inp.request g).globals.bannerSpeed := by
    unfold loopActive at ha
    dsimp only at ha
    generalize displayTime 8 5 _ _ _ _ _ _ = o1 at ha
    cases o1 with
    | none => simp at ha
    | some d1 =>
      dsimp only at ha
      generalize displayTime 10 107 _ _ _ _ _ _ = o2 at ha
      cases o2 with
      | none => simp at ha
      | some d2 =>
        simp only [Option.some.injEq] at ha
        subst ha
        dsimp only
        split <;> split <;> (try cases inp.weather) <;> simp [fetchWeatherData, loopScroll]
  rw [hra]
  constructor
  · rw [hbs, hh, hb]
    exact hc.1
  · rw [hsc, hh]
    have hg : (handleSetSpeed (Body.doc s) g).globals.previousMillisForScroller
        = g.previousMillisForScroller := rfl
    rw [hg, hb, ← hc.1]
    have hiff : sub32 inp.currentMillis g.previousMillisForScroller
          ≥ toUnsigned (constrain s 0 45) ↔
        ((sub32 inp.currentMillis g.previousMillisForScroller : Nat) : Int)
          ≥ constrain s 0 45 := by
      constructor <;> intro h <;> omega
    by_cases hs : sub32 inp.currentMillis g.previousMillisForScroller
        ≥ toUnsigned (constrain s 0 45)
    · rw [if_pos hs, if_pos (hiff.mp hs)]
    · rw [if_neg hs, if_neg (fun h => hs (hiff.mpr h))]

/-- An instance of C27: the speed -7 is stored as 0, and 100 as 45. -/
theorem setspeed_clamps_witness :
    (handleSetSpeed (Body.doc (-7)) bootExample).globals.bannerSpeed = 0 ∧
    (handleSetSpeed (Body.doc 100) bootExample).globals.bannerSpeed = 45 ∧
    ((toUnsigned (handleSetSpeed (Body.doc (-7)) bootExample).globals.bannerSpeed : Nat) : Int)
      = (handleSetSpeed (Body.doc (-7)) bootExample).globals.bannerSpeed :=
  ⟨(setspeed_clamps (-7) bootExample).1, (setspeed_clamps 100 bootExample).1,
   (setspeed_clamps (-7) bootExample).2.2.2.1⟩

/-- A decimal digit character: `'0'` plus a number below ten. -/
theorem digit_isDigit (d : Nat) (h : d < 10) : (Char.ofNat (48 + d)).isDigit = true := by
  interval_cases d <;> decide

theorem formatLocalTime_length (e : Int) : (formatLocalTime e).length = 8 := by
  simp [formatLocalTime, twoDigits]

theorem formatLocalTime_nat (n : Nat) :
    formatLocalTime (n : Int)
      = twoDigits (n / 3600 % 24) ++ [':'] ++ twoDigits (n / 60 % 60) ++ [':'] ++
          twoDigits (n % 60) := by
  have hs : (((n : Int) % 86400).toNat) = n % 86400 := by omega
  have h1 : n % 86400 / 3600 = n / 3600 % 24 := by omega
  have h2 : n % 86400 % 3600 / 60 = n / 60 % 60 := by omega
  have h3 : n % 86400 % 60 = n % 60 := by omega
  simp only [formatLocalTime, hs, h1, h2, h3]

/-- C28: `positions` has 8 entries, so for every value of at most 8 characters
each index the loop of `displayTime` uses is in bounds and the call returns;
and for every non-negative epoch the string of `formatLocalTime` has exactly 8
characters, two decimal digits of the hour (below 24), a colon, two of the
minute (below 60), a colon and two of the second (below 60), so rendering it
returns without an out-of-bounds read of `positions`. -/
theorem clock_string_in_bounds (x y yOffset : Int) (col : Nat) (rd : Bool) (rc : Int)
    (prev : List Char) :
    (positions x).length = 8 ∧
    (∀ time : List Char, time.length ≤ 8 →
      (∀ i, i < time.length → ∃ px, (positions x)[i]? = some px) ∧
      ∃ d, displayTime x y time prev yOffset col rd rc = some d) ∧
    (∀ n : Nat,
      (formatLocalTime (n : Int)).length = 8 ∧
      formatLocalTime (n : Int)
        = twoDigits (n / 3600 % 24) ++ [':'] ++ twoDigits (n / 60 % 60) ++ [':'] ++
            twoDigits (n % 60) ∧
      n / 3600 % 24 < 24 ∧ n / 60 % 60 < 60 ∧ n % 60 < 60 ∧
      (∀ i, i ∈ [0, 1, 3, 4, 6, 7] → (charAt (formatLocalTime (n : Int)) i).isDigit = true) ∧
      charAt (formatLocalTime (n : Int)) 2 = ':' ∧
      charAt (formatLocalTime (n : Int)) 5 = ':' ∧
      ∃ d, displayTime x y (formatLocalTime (n : Int)) prev yOffset col rd rc = some d) := by
  have hret : ∀ time : List Char, time.length ≤ 8 →
      ∃ d, displayTime x y time prev yOffset col rd rc = some d := by
    intro time h8
    have hl := displayTimeLoop_exact x y time (displayTimeLatch rd rc prev).2.2 yOffset col
      time.length 0 (by omega)
    exact ⟨⟨(displayTimeLatch rd rc prev).1, (displayTimeLatch rd rc prev).2.1, time,
      (List.range' 0 time.length).flatMap
        (repaintOps x y yOffset col time (displayTimeLatch rd rc prev).2.2)⟩,
      by simp only [displayTime, hl]⟩
  refine ⟨rfl, ?_, ?_⟩
  · intro time h8
    refine ⟨?_, hret time h8⟩
    intro i hi
    have hi8 : i < (positions x).length := by
      have : (positions x).length = 8 := rfl
      omega
    exact ⟨(positions x)[i], List.getElem?_eq_getElem hi8⟩
  · intro n
    refine ⟨formatLocalTime_length _, formatLocalTime_nat n, Nat.mod_lt _ (by decide),
      Nat.mod_lt _ (by decide), Nat.mod_lt _ (by decide), ?_, ?_, ?_,
      hret _ (by rw [formatLocalTime_length])⟩
    · intro i hi
      rw [formatLocalTime_nat]
      have hd : ∀ k, (Char.ofNat (48 + k / 10 % 10)).isDigit = true :=
        fun k => digit_isDigit _ (Nat.mod_lt _ (by decide))
      have hu : ∀ k, (Char.ofNat (48 + k % 10)).isDigit = true :=
        fun k => digit_isDigit _ (Nat.mod_lt _ (by decide))
      simp only [List.mem_cons, List.mem_singleton, List.not_mem_nil, or_false] at hi
      rcases hi with rfl | rfl | rfl | rfl | rfl | rfl <;>
        simp [twoDigits, charAt, hd, hu]
    · rw [formatLocalTime_nat]
      simp [twoDigits, charAt]
    · rw [formatLocalTime_nat]
      simp [twoDigits, charAt]

/-- An instance of C28: the epoch 1700000000 renders as "22:13:20", eight
characters, and drawing it on a blank field returns. -/
theorem clock_string_in_bounds_witness :
    formatLocalTime 1700000000 = "22:13:20".toList ∧
    (formatLocalTime 1700000000).length = 8 ∧
    (∃ d, displayTime 8 5 "22:13:20".toList [] 0 TFT_GREEN false 0 = some d) :=
  ⟨by decide,
   ((clock_string_in_bounds 8 5 0 TFT_GREEN false 0 []).2.2 1700000000).1,
   ((clock_string_in_bounds 8 5 0 TFT_GREEN false 0 []).2.1 "22:13:20".toList (by decide)).2⟩

/-- C29 refuted: with the default threshold of 3600000 ms, `/config` reports
60, and a `/saveall` body carrying that 60 stores 60 ms, not 3600000 ms. -/
theorem config_saveall_units_differ :
    bootExample.screenSaverTimeout = 3600000 ∧
    (handleConfig bootExample).screenSaverTimeout = 60 ∧
    (handleSaveAll
        (Body.doc { localTimeLabel := none, utcTimeLabel := none, italicClockFonts := none,
                    doubleFrame := none, bannerSpeed := none,
                    screenSaverTimeout := some (handleConfig bootExample).screenSaverTimeout })
        bootExample).globals.screenSaverTimeout = 60 ∧
    (handleSaveAll
        (Body.doc { localTimeLabel := none, utcTimeLabel := none, italicClockFonts := none,
                    doubleFrame := none, bannerSpeed := none,
                    screenSaverTimeout := some (handleConfig bootExample).screenSaverTimeout })
        bootExample).globals.screenSaverTimeout ≠ bootExample.screenSaverTimeout := by
  decide

/-- C29 amended: `/config` reports the threshold in whole minutes, the stored
milliseconds divided by 60000, and `/saveall` stores the posted number
unchanged as milliseconds; so a `/saveall` body carrying the value `/config`
reports leaves the stored threshold at a 60000th of what it was, rounded down,
which equals the old threshold only when that was 0. -/
theorem config_reports_minutes_saveall_stores_ms (g : Globals) (d : SaveAllDoc)
    (hd : d.screenSaverTimeout = some (handleConfig g).screenSaverTimeout) :
    (handleConfig g).screenSaverTimeout = g.screenSaverTimeout / 60000 ∧
    (handleSaveAll (Body.doc d) g).globals.screenSaverTimeout
      = g.screenSaverTimeout / 60000 ∧
    ((handleSaveAll (Body.doc d) g).globals.screenSaverTimeout = g.screenSaverTimeout
      ↔ g.screenSaverTimeout = 0) ∧
    (∀ v : Nat, ∀ e : SaveAllDoc, e.screenSaverTimeout = some v →
      (handleSaveAll (Body.doc e) g).globals.screenSaverTimeout = v) := by
  have h2 : (handleSaveAll (Body.doc d) g).globals.screenSaverTimeout
      = g.screenSaverTimeout / 60000 := by
    simp only [handleSaveAll, hd, Option.getD_some, handleConfig]
  refine ⟨rfl, h2, ?_, ?_⟩
  · rw [h2]
    omega
  · intro v e he
    simp only [handleSaveAll, he, Option.getD_some]

/-- An instance of the amended C29: from the default 3600000 ms the posted-back
value stores 60. -/
theorem config_reports_minutes_saveall_stores_ms_witness :
    (handleSaveAll
        (Body.doc { localTimeLabel := none, utcTimeLabel := none, italicClockFonts := none,
                    doubleFrame := none, bannerSpeed := none, screenSaverTimeout := some 60 })
        bootExample).globals.screenSaverTimeout = bootExample.screenSaverTimeout / 60000 :=
  (config_reports_minutes_saveall_stores_ms bootExample
    { localTimeLabel := none, utcTimeLabel := none, italicClockFonts := none,
      doubleFrame := none, bannerSpeed := none, screenSaverTimeout := some 60 } (by decide)).2.1

/-! ## Steps of `loop` that return -/

/-- A value of at most 8 characters is rendered without reading `positions`
out of bounds: the call returns. -/
theorem displayTime_returns (x y yOffset : Int) (col : Nat) (rd : Bool) (rc : Int)
    (time prev : List Char) (h8 : time.length ≤ 8) :
    ∃ d, displayTime x y time prev yOffset col rd rc = some d := by
  have hl := displayTimeLoop_exact x y time (displayTimeLatch rd rc prev).2.2 yOffset col
    time.length 0 (by omega)
  exact ⟨⟨(displayTimeLatch rd rc prev).1, (displayTimeLatch rd rc prev).2.1, time,
    (List.range' 0 time.length).flatMap
      (repaintOps x y yOffset col time (displayTimeLatch rd rc prev).2.2)⟩,
    by simp only [displayTime, hl]⟩

/-- The normal-mode branch returns when the UTC string has at most 8
characters; the local string always has 8. -/
theorem loopActive_returns (inp : LoopInput) (g : Globals) (hutc : inp.utcTime.length ≤ 8) :
    ∃ a, loopActive inp g = some a := by
  obtain ⟨d1, hd1⟩ := displayTime_returns 8 5 0 g.localTimeColour g.refreshDigits
    g.refreshDigitsCounter
    (formatLocalTime (toLong (inp.epochTime + toUnsigned (tOffset * 3600))))
    g.previousLocalTime (by rw [formatLocalTime_length])
  obtain ⟨d2, hd2⟩ := displayTime_returns 10 107 0 g.utcTimeColour d1.refreshDigits
    d1.refreshDigitsCounter inp.utcTime g.previousUTCtime hutc
  unfold loopActive
  simp only [hd1, hd2]
  exact ⟨_, rfl⟩

/-- A call of `loop` whose handler does not restart the device and whose
inactivity check leaves normal mode returns, in normal mode, when the UTC
string has at most 8 characters. -/
theorem loop_active_returns (inp : LoopInput) (g : Globals)
    (hr : (handleClient inp.request g).restart = false)
    (hi : (loopInactivity inp (handleClient inp.request g).globals).1.screenSaver = false)
    (hutc : inp.utcTime.length ≤ 8) :
    ∃ r, loop inp g = some r ∧ r.restart = false ∧ r.globals.screenSaver = false := by
  obtain ⟨a, ha⟩ := loopActive_returns inp
    (loopInactivity inp (handleClient inp.request g).globals).1 hutc
  refine ⟨{ globals := a.1,
            ops := (handleClient inp.request g).ops ++
              (loopInactivity inp (handleClient inp.request g).globals).2 ++ a.2,
            restart := false }, ?_, rfl, ?_⟩
  · simp only [loop, hr, hi, ha, Bool.false_eq_true, if_false]
  · dsimp only
    rw [(loopActive_mode inp _ a ha).1]
    exact hi

theorem renderedExample_loop :
    loop (exampleInput 5 false 0) bootExample
      = some { globals := renderedExample,
               ops := ((loop (exampleInput 5 false 0) bootExample).getD
                 { globals := initialGlobals, ops := [], restart := true }).ops,
               restart := false } := by rfl

theorem renderedExample_reachable : Reachable renderedExample :=
  Reachable.step bootExample (exampleInput 5 false 0) _ (Reachable.boot emptySettings none)
    renderedExample_loop rfl

theorem renderedIdleExample_loop :
    loop (exampleInput 3600006 false 0) renderedExample
      = some { globals := renderedIdleExample,
               ops := ((loop (exampleInput 3600006 false 0) renderedExample).getD
                 { globals := initialGlobals, ops := [], restart := true }).ops,
               restart := false } := by rfl

theorem renderedIdleExample_reachable : Reachable renderedIdleExample :=
  Reachable.step renderedExample (exampleInput 3600006 false 0) _ renderedExample_reachable
    renderedIdleExample_loop rfl

/-- C3: from every reachable state, a `loop` call that is in screensaver mode
after its inactivity check, reads a touch with pressure above 200 and handles
no request that restarts the device returns without a restart; the mode is
normal again and both previous-time strings are empty, whatever they held
before; no request handled before the next render puts a string back, so that
the next `displayTime` call on either clock field, in whatever state of the
digit latch, paints every slot of its string of at most 8 non-NUL characters,
also when that string is the one shown before the screensaver. -/
theorem idle_to_active_invalidates (g : Globals) (inp : LoopInput) (hreach : Reachable g)
    (hidle : g.screenSaver = true ∨
      sub32 inp.currentMillis g.lastActivity > g.screenSaverTimeout)
    (h1 : inp.tirqTouched = true) (h2 : inp.touched = true) (hz : inp.z > 200)
    (hres : (handleClient inp.request g).restart = false) :
    ∃ r, loop inp g = some r ∧ r.restart = false ∧
      r.globals.screenSaver = false ∧
      r.globals.previousLocalTime = [] ∧ r.globals.previousUTCtime = [] ∧
      (∀ req : Option Request,
        (handleClient req r.globals).globals.previousLocalTime = [] ∧
        (handleClient req r.globals).globals.previousUTCtime = []) ∧
      ∀ (x y yOffset : Int) (col : Nat) (rd : Bool) (rc : Int) (time : List Char),
        time.length ≤ 8 → (∀ c ∈ time, c ≠ NUL) →
        (∃ d, displayTime x y time r.globals.previousLocalTime yOffset col rd rc = some d ∧
          ∀ i, i < time.length →
            paintsGlyph x (y + yOffset) col i (charAt time i) d.ops = true) ∧
        (∃ d, displayTime x y time r.globals.previousUTCtime yOffset col rd rc = some d ∧
          ∀ i, i < time.length →
            paintsGlyph x (y + yOffset) col i (charAt time i) d.ops = true) := by
  have hok := handleClient_framesOk inp.request g (reachable_framesOk g hreach)
  have hmode := handleClient_mode inp.request g
  have hidle' : (loopInactivity inp (handleClient inp.request g).globals).1.screenSaver
      = true := by
    apply loopInactivity_idle
    rw [hmode.1, hmode.2.1, hmode.2.2 hres]
    exact hidle
  have hokc : FramesOk (loopInactivity inp (handleClient inp.request g).globals).1 :=
    hok.congr (loopInactivity_frames _ _).1 (loopInactivity_frames _ _).2
  obtain ⟨t1, t2, t3, -⟩ := loopScreenSaver_touch inp _ hokc h1 h2 hz
  refine ⟨{ globals :=
              (loopScreenSaver inp (loopInactivity inp (handleClient inp.request g).globals).1).1,
            ops := (handleClient inp.request g).ops ++
              (loopInactivity inp (handleClient inp.request g).globals).2 ++
              (loopScreenSaver inp (loopInactivity inp (handleClient inp.request g).globals).1).2,
            restart := false }, ?_, rfl, t1, t2, t3,
    fun req => handleClient_keeps_empty req _ t2 t3, ?_⟩
  · simp only [loop, hres, hidle', if_true, Bool.false_eq_true, if_false]
  · intro x y yOffset col rd rc time h8 hnul
    dsimp only
    rw [t2, t3]
    exact ⟨displayTime_from_empty x y yOffset col rd rc time h8 hnul,
           displayTime_from_empty x y yOffset col rd rc time h8 hnul⟩

/-- An instance of C3: the reachable screensaver state `renderedIdleExample`,
whose clock fields hold the rendered strings 14:30:00 and 12:30:00, touched
with pressure 300 at 3600009 ms: the call returns without a restart in normal
mode with both strings empty, and rendering 14:30:00 again paints all 8 slots. -/
theorem idle_to_active_invalidates_witness :
    renderedIdleExample.screenSaver = true ∧
    renderedIdleExample.previousLocalTime = "14:30:00".toList ∧
    renderedIdleExample.previousUTCtime = "12:30:00".toList ∧
    ∃ r, loop (exampleInput 3600009 true 300) renderedIdleExample = some r ∧
      r.restart = false ∧ r.globals.screenSaver = false ∧
      r.globals.previousLocalTime = [] ∧ r.globals.previousUTCtime = [] ∧
      ∃ d, displayTime 8 5 "14:30:00".toList r.globals.previousLocalTime 0 TFT_GREEN
          false 0 = some d ∧
        ∀ i, i < 8 → paintsGlyph 8 (5 + 0) TFT_GREEN i (charAt "14:30:00".toList i) d.ops
          = true :=
  ⟨by rfl, by rfl, by rfl,
   (idle_to_active_invalidates renderedIdleExample (exampleInput 3600009 true 300)
      renderedIdleExample_reachable (Or.inl (by rfl)) rfl rfl (by decide) rfl).imp
    fun _ h => ⟨h.1, h.2.1, h.2.2.1, h.2.2.2.1, h.2.2.2.2.1,
      (h.2.2.2.2.2.2 8 5 0 TFT_GREEN false 0 "14:30:00".toList (by decide) (by decide)).1⟩⟩

/-- C7: a `loop` call that starts in normal mode and handles no request that
restarts the device. Its inactivity check switches the mode to screensaver
exactly when `currentMillis - lastActivity`, taken modulo `2 ^ 32`, is
strictly greater than `screenSaverTimeout`. When it is greater the call
returns, in screensaver mode unless a qualifying touch read in that same call
switches straight back. When it is at most the threshold, equal to it
included, the call returns (the UTC string having at most 8 characters) and
the mode stays normal. Every result of the call obeys the same rule. -/
theorem active_to_idle_iff (g : Globals) (inp : LoopInput)
    (hA : g.screenSaver = false)
    (hres : (handleClient inp.request g).restart = false) :
    ((loopInactivity inp (handleClient inp.request g).globals).1.screenSaver = true ↔
      ((inp.currentMillis : Int) - g.lastActivity) % 2 ^ 32 > g.screenSaverTimeout) ∧
    (((inp.currentMillis : Int) - g.lastActivity) % 2 ^ 32 > g.screenSaverTimeout →
      ∃ r, loop inp g = some r ∧ r.restart = false ∧
        (qualifyingTouch inp = false → r.globals.screenSaver = true) ∧
        (qualifyingTouch inp = true → r.globals.screenSaver = false)) ∧
    (((inp.currentMillis : Int) - g.lastActivity) % 2 ^ 32 ≤ g.screenSaverTimeout →
      inp.utcTime.length ≤ 8 →
      ∃ r, loop inp g = some r ∧ r.restart = false ∧ r.globals.screenSaver = false) ∧
    (∀ r, loop inp g = some r →
      r.restart = false ∧
      (qualifyingTouch inp = false →
        (r.globals.screenSaver = true ↔
          ((inp.currentMillis : Int) - g.lastActivity) % 2 ^ 32 > g.screenSaverTimeout)) ∧
      (((inp.currentMillis : Int) - g.lastActivity) % 2 ^ 32 ≤ g.screenSaverTimeout →
        r.globals.screenSaver = false)) := by
  have hmode := handleClient_mode inp.request g
  have hfire := loopInactivity_fires_iff inp (handleClient inp.request g).globals
    (by rw [hmode.1]; exact hA)
  rw [hmode.2.1, hmode.2.2 hres] at hfire
  have hcast : sub32 inp.currentMillis g.lastActivity > g.screenSaverTimeout ↔
      ((inp.currentMillis : Int) - g.lastActivity) % 2 ^ 32 > g.screenSaverTimeout := by
    rw [← sub32_eq]
    exact Nat.cast_lt.symm
  have hfire' := hfire.trans hcast
  have hidleRes : (loopInactivity inp (handleClient inp.request g).globals).1.screenSaver
      = true →
      ∃ r, loop inp g = some r ∧ r.restart = false ∧
        (qualifyingTouch inp = false → r.globals.screenSaver = true) ∧
        (qualifyingTouch inp = true → r.globals.screenSaver = false) := by
    intro hi
    refine ⟨_, loop_idle_eq inp g hres hi, rfl, ?_, ?_⟩
    · intro hq
      have hq' : ¬ (inp.tirqTouched = true ∧ inp.touched = true ∧ inp.z > 200) := by
        rw [← qualifyingTouch_iff, hq]
        simp
      dsimp only
      rw [(loopScreenSaver_no_touch inp _ hq').1]
      exact hi
    · intro hq
      exact (loopScreenSaver_touch_mode inp _ hq).1
  have hnofire : ((inp.currentMillis : Int) - g.lastActivity) % 2 ^ 32 ≤ g.screenSaverTimeout →
      (loopInactivity inp (handleClient inp.request g).globals).1.screenSaver = false := by
    intro hle
    cases hi : (loopInactivity inp (handleClient inp.request g).globals).1.screenSaver with
    | false => rfl
    | true =>
      have := hfire'.mp hi
      omega
  refine ⟨hfire', fun hgt => hidleRes (hfire'.mpr hgt),
    fun hle hutc => loop_active_returns inp g hres (hnofire hle) hutc, ?_⟩
  intro r hl
  have hactive : (loopInactivity inp (handleClient inp.request g).globals).1.screenSaver
      = false → r.globals.screenSaver = false := by
    intro hi
    obtain ⟨a, ha, hra⟩ := loop_active_eq inp g r hres hi hl
    rw [hra, (loopActive_mode inp _ a ha).1]
    exact hi
  refine ⟨by rw [loop_restart_eq inp g r hl]; exact hres, ?_, fun hle => hactive (hnofire hle)⟩
  intro hq
  cases hi : (loopInactivity inp (handleClient inp.request g).globals).1.screenSaver with
  | true =>
    obtain ⟨r', hl', -, hno, -⟩ := hidleRes hi
    rw [hl] at hl'
    cases hl'
    simp only [hno hq, true_iff]
    exact hfire'.mp hi
  | false =>
    rw [hactive hi]
    constructor
    · intro h
      simp at h
    · intro h
      have := hfire'.mpr h
      rw [hi] at this
      exact this

/-- Instances of C7 from the boot state, with the default threshold of
3600000 ms and no touch: a call at 3600001 ms returns in screensaver mode, a
call at exactly 3600000 ms returns in normal mode. -/
theorem active_to_idle_iff_witness :
    bootExample.lastActivity = 0 ∧ bootExample.screenSaverTimeout = 3600000 ∧
    (∃ r, loop (exampleInput 3600001 false 0) bootExample = some r ∧ r.restart = false ∧
      r.globals.screenSaver = true) ∧
    (∃ r, loop (exampleInput 3600000 false 0) bootExample = some r ∧ r.restart = false ∧
      r.globals.screenSaver = false) :=
  ⟨by rfl, by rfl,
   ((active_to_idle_iff bootExample (exampleInput 3600001 false 0) (by rfl) (by rfl)).2.1
      (by decide)).imp fun _ h => ⟨h.1, h.2.1, h.2.2.1 (by rfl)⟩,
   (active_to_idle_iff bootExample (exampleInput 3600000 false 0) (by rfl) (by rfl)).2.2.1
      (by decide) (by decide)⟩

/-- C8: a `loop` call that starts in screensaver mode and handles no request
that restarts the device returns without a restart; the mode is normal
afterwards exactly when a touch is reported with pressure `z` above 200, in
which case `lastActivity` is the current time; with no touch, or a touch with
`z` at most 200, the mode stays screensaver and `lastActivity` is unchanged. -/
theorem idle_to_active_iff (g : Globals) (inp : LoopInput) (hI : g.screenSaver = true)
    (hres : (handleClient inp.request g).restart = false) :
    ∃ r, loop inp g = some r ∧ r.restart = false ∧
      (r.globals.screenSaver = false ↔
        (inp.tirqTouched = true ∧ inp.touched = true ∧ inp.z > 200)) ∧
      ((inp.tirqTouched = true ∧ inp.touched = true ∧ inp.z > 200) →
        r.globals.lastActivity = inp.currentMillis) ∧
      (¬ (inp.tirqTouched = true ∧ inp.touched = true ∧ inp.z > 200) →
        r.globals.screenSaver = true ∧ r.globals.lastActivity = g.lastActivity) := by
  have hmode := handleClient_mode inp.request g
  have hi : (loopInactivity inp (handleClient inp.request g).globals).1.screenSaver
      = true := by
    apply loopInactivity_idle
    left
    rw [hmode.1]
    exact hI
  refine ⟨_, loop_idle_eq inp g hres hi, rfl, ?_⟩
  dsimp only
  have hyes : (inp.tirqTouched = true ∧ inp.touched = true ∧ inp.z > 200) →
      (loopScreenSaver inp
        (loopInactivity inp (handleClient inp.request g).globals).1).1.screenSaver = false ∧
      (loopScreenSaver inp
        (loopInactivity inp (handleClient inp.request g).globals).1).1.lastActivity
        = inp.currentMillis :=
    fun hq => loopScreenSaver_touch_mode inp _ ((qualifyingTouch_iff inp).mpr hq)
  have hno : ¬ (inp.tirqTouched = true ∧ inp.touched = true ∧ inp.z > 200) →
      (loopScreenSaver inp
        (loopInactivity inp (handleClient inp.request g).globals).1).1.screenSaver = true ∧
      (loopScreenSaver inp
        (loopInactivity inp (handleClient inp.request g).globals).1).1.lastActivity
        = g.lastActivity := by
    intro hq
    have h := loopScreenSaver_no_touch inp
      (loopInactivity inp (handleClient inp.request g).globals).1 hq
    rw [h.1, h.2.1, hi, loopInactivity_lastActivity, hmode.2.1]
    exact ⟨rfl, rfl⟩
  refine ⟨?_, fun hq => (hyes hq).2, hno⟩
  constructor
  · intro hf
    by_contra hq
    rw [(hno hq).1] at hf
    simp at hf
  · intro hq
    exact (hyes hq).1

/-- Instances of C8 on the reachable screensaver state `renderedIdleExample`
(`lastActivity` 0): touched with pressure 300 at 3600009 ms the call returns
in normal mode with `lastActivity` 3600009; touched with pressure 200 it
returns in screensaver mode with `lastActivity` still 0. -/
theorem idle_to_active_iff_witness :
    renderedIdleExample.screenSaver = true ∧ renderedIdleExample.lastActivity = 0 ∧
    (∃ r, loop (exampleInput 3600009 true 300) renderedIdleExample = some r ∧
      r.restart = false ∧ r.globals.screenSaver = false ∧
      r.globals.lastActivity = 3600009) ∧
    (∃ r, loop (exampleInput 3600009 true 200) renderedIdleExample = some r ∧
      r.restart = false ∧ r.globals.screenSaver = true ∧ r.globals.lastActivity = 0) :=
  ⟨by rfl, by rfl,
   (idle_to_active_iff renderedIdleExample (exampleInput 3600009 true 300) (by rfl)
      (by rfl)).imp fun _ h =>
    ⟨h.1, h.2.1, h.2.2.1.mpr ⟨rfl, rfl, by decide⟩, h.2.2.2.1 ⟨rfl, rfl, by decide⟩⟩,
   (idle_to_active_iff renderedIdleExample (exampleInput 3600009 true 200) (by rfl)
      (by rfl)).imp fun _ h =>
    ⟨h.1, h.2.1, (h.2.2.2.2 (fun hq => absurd hq.2.2 (by decide))).1,
      (h.2.2.2.2 (fun hq => absurd hq.2.2 (by decide))).2⟩⟩

/-- C16 as stated fails: `server.handleClient()` runs at the head of every
`loop` call, in screensaver mode too. From the reachable screensaver state
`renderedIdleExample` (offset 309, fallback message, clock strings 14:30:00
and 12:30:00), a call without touch that handles a `/setposition` request
stays in screensaver mode and leaves the offset at 310 and the message
replaced; a call without touch that handles a `/setcolor` request leaves both
previous-time strings empty. -/
theorem idle_step_handler_changes_fields :
    Reachable renderedIdleExample ∧
    renderedIdleExample.screenSaver = true ∧
    qualifyingTouch (exampleInput 3600010 false 0) = false ∧
    (renderedIdleExample.textX, renderedIdleExample.scrollText,
      renderedIdleExample.previousLocalTime, renderedIdleExample.previousUTCtime)
      = (309, noWeatherText, "14:30:00".toList, "12:30:00".toList) ∧
    (loop { exampleInput 3600010 false 0 with
            request := some (Request.setposition (Body.doc true) (some weatherExampleText)) }
        renderedIdleExample).map
      (fun r => (r.restart, r.globals.screenSaver, r.globals.textX, r.globals.scrollText))
      = some (false, true, 310, weatherExampleText) ∧
    (loop { exampleInput 3600010 false 0 with
            request := some (Request.setcolor
              (Body.doc { target := "localTimeDigits".toList, value := false,
                          color := 0xF800 })) }
        renderedIdleExample).map
      (fun r => (r.restart, r.globals.screenSaver, r.globals.previousLocalTime,
        r.globals.previousUTCtime))
      = some (false, true, [], []) := by
  refine ⟨renderedIdleExample_reachable, by rfl, by rfl, by rfl, by rfl, by rfl⟩

/-- C16 amended: a `loop` call that starts in screensaver mode, reads no
qualifying touch and handles no request that restarts the device returns in
screensaver mode; after request handling it makes only animation calls (a
screen fill and pixels: no glyph is drawn and the banner sprite is not
touched), and `previousLocalTime`, `previousUTCtime`, `textX`, `scrollText`
and the scroller timestamp are as the request handler left them. With no
request pending all calls of the step are animation calls and the five
variables are unchanged by the step. -/
theorem idle_branch_renders_nothing (g : Globals) (inp : LoopInput)
    (hI : g.screenSaver = true) (hq : qualifyingTouch inp = false)
    (hres : (handleClient inp.request g).restart = false) :
    ∃ r, loop inp g = some r ∧ r.restart = false ∧
      r.globals.screenSaver = true ∧
      (∃ anim, r.ops = (handleClient inp.request g).ops ++ anim ∧
        ∀ op ∈ anim, op.isAnimation = true) ∧
      r.globals.previousLocalTime = (handleClient inp.request g).globals.previousLocalTime ∧
      r.globals.previousUTCtime = (handleClient inp.request g).globals.previousUTCtime ∧
      r.globals.textX = (handleClient inp.request g).globals.textX ∧
      r.globals.scrollText = (handleClient inp.request g).globals.scrollText ∧
      r.globals.previousMillisForScroller
        = (handleClient inp.request g).globals.previousMillisForScroller ∧
      (inp.request = none →
        (∀ op ∈ r.ops, op.isAnimation = true) ∧
        r.globals.previousLocalTime = g.previousLocalTime ∧
        r.globals.previousUTCtime = g.previousUTCtime ∧
        r.globals.textX = g.textX ∧
        r.globals.scrollText = g.scrollText ∧
        r.globals.previousMillisForScroller = g.previousMillisForScroller) := by
  have hmode := handleClient_mode inp.request g
  have hIh : (handleClient inp.request g).globals.screenSaver = true := by
    rw [hmode.1]; exact hI
  have hc := loopInactivity_of_idle inp _ hIh
  have hi : (loopInactivity inp (handleClient inp.request g).globals).1.screenSaver
      = true := by
    rw [hc]; exact hIh
  refine ⟨_, loop_idle_eq inp g hres hi, rfl, ?_⟩
  dsimp only
  rw [hc]
  dsimp only
  obtain ⟨f1, f2, f3, f4, f5, f6, fops⟩ :=
    loopScreenSaver_no_touch_frame inp (handleClient inp.request g).globals hq
  refine ⟨by rw [f6]; exact hIh, ⟨_, by rw [List.append_nil], fops⟩, f1, f2, f3, f4, f5, ?_⟩
  intro hnone
  rw [f1, f2, f3, f4, f5]
  rw [hnone]
  refine ⟨?_, rfl, rfl, rfl, rfl, rfl⟩
  intro op hop
  simp only [handleClient, List.nil_append, List.append_nil] at hop
  exact fops op (by rw [hnone]; exact hop)

/-- An instance of the amended C16: the screensaver state `renderedIdleExample`
at 3601010 ms with no touch and no request, an animation tick being due: the
call returns in screensaver mode, every call it makes is an animation call,
and the clock strings, the offset, the message and the scroller timestamp are
what they were. -/
theorem idle_branch_renders_nothing_witness :
    ∃ r, loop (exampleInput 3601010 false 0) renderedIdleExample = some r ∧
      r.restart = false ∧ r.globals.screenSaver = true ∧
      r.ops ≠ [] ∧ (∀ op ∈ r.ops, op.isAnimation = true) ∧
      r.globals.previousLocalTime = "14:30:00".toList ∧
      r.globals.previousUTCtime = "12:30:00".toList ∧
      r.globals.textX = 309 ∧
      r.globals.scrollText = noWeatherText ∧
      r.globals.previousMillisForScroller = 5 :=
  (idle_branch_renders_nothing renderedIdleExample (exampleInput 3601010 false 0) (by rfl)
    (by rfl) (by rfl)).imp fun r h =>
    ⟨h.1, h.2.1, h.2.2.1,
     fun he => by
       have hl := h.1
       rw [show loop (exampleInput 3601010 false 0) renderedIdleExample
         = some ((loop (exampleInput 3601010 false 0) renderedIdleExample).getD
             { globals := initialGlobals, ops := [], restart := true }) from by rfl] at hl
       cases hl
       exact absurd he (by decide),
     (h.2.2.2.2.2.2.2.2.2 rfl).1, (h.2.2.2.2.2.2.2.2.2 rfl).2.1,
     (h.2.2.2.2.2.2.2.2.2 rfl).2.2.1, (h.2.2.2.2.2.2.2.2.2 rfl).2.2.2.1,
     (h.2.2.2.2.2.2.2.2.2 rfl).2.2.2.2.1, (h.2.2.2.2.2.2.2.2.2 rfl).2.2.2.2.2⟩

/-- C5 as stated fails. In the reachable state `renderedExample` the banner
cycle is under way (offset 309) with the fallback message, 10 pixels wide
under `exampleMeasure`; `fetchWeatherData` replaces it by an assembled weather
message, 90 pixels wide. The offset becomes 310, the width of the band, and
not 90, both in the call itself and through the `/setposition` handler; the
same holds from offset 150. -/
theorem fetchWeatherData_offset_not_message_width :
    Reachable renderedExample ∧
    renderedExample.scrollText = noWeatherText ∧ renderedExample.textX = 309 ∧
    exampleMeasure renderedExample.scrollText = 10 ∧ exampleMeasure weatherExampleText = 90 ∧
    (fetchWeatherData stext2Width (some weatherExampleText) renderedExample).1.scrollText
      = weatherExampleText ∧
    (fetchWeatherData stext2Width (some weatherExampleText) renderedExample).1.textX = 310 ∧
    (fetchWeatherData stext2Width (some weatherExampleText) renderedExample).1.textX ≠ 90 ∧
    (handleClient (some (Request.setposition (Body.doc true) (some weatherExampleText)))
      renderedExample).globals.textX = 310 ∧
    (fetchWeatherData stext2Width (some weatherExampleText)
      { renderedExample with textX := 150 }).1.textX = 310 := by
  refine ⟨renderedExample_reachable, by rfl, by rfl, by decide, by decide, by rfl, by rfl,
    by decide, by rfl, by rfl⟩

/-- C5 amended: `fetchWeatherData` replaces the message (by the text of the
weather reply, or by the fallback text) and sets the offset `textX` to the
width the banner sprite reports, whatever the old and the new message are. In
the `/setposition` handler that is 310. In the five-minute refresh of `loop`
it is 310 as well, from which the banner tick that may follow in the same
call moves on for the new message. In `setup` the call comes before the
sprite is created: it sets the offset to 0, and `setup` ends with the offset
at 310. -/
theorem fetchWeatherData_resets_offset_to_band_width (weather : Option (List Char))
    (g : Globals) :
    (∀ width : Int,
      (fetchWeatherData width weather g).1.textX = width ∧
      (fetchWeatherData width weather g).1.scrollText = weather.getD noWeatherText) ∧
    (handleSetPosition (Body.doc true) weather g).globals.textX = 310 ∧
    (handleSetPosition (Body.doc true) weather g).globals.scrollText
      = weather.getD noWeatherText ∧
    (∀ inp : LoopInput, inp.weather = weather →
      sub32 inp.currentMillis g.previousMillis ≥ 1000 * 60 * 5 →
      inp.utcTime.length ≤ 8 →
      ∃ a, loopActive inp g = some a ∧
        a.1.scrollText = weather.getD noWeatherText ∧
        a.1.textX
          = if sub32 inp.currentMillis g.previousMillisForScroller
                ≥ toUnsigned g.bannerSpeed then
              nextTextX 310 (inp.textWidth (weather.getD noWeatherText)) 310
            else 310) ∧
    (∀ d : SettingsDoc,
      (fetchWeatherData 0 weather (loadSettings d initialGlobals)).1.textX = 0 ∧
      (setup d weather).textX = 310 ∧
      (setup d weather).scrollText = weather.getD noWeatherText) := by
  have hf : ∀ (width : Int) (g1 : Globals),
      (fetchWeatherData width weather g1).1.textX = width ∧
      (fetchWeatherData width weather g1).1.scrollText = weather.getD noWeatherText := by
    intro width g1
    cases weather <;> simp [fetchWeatherData]
  refine ⟨fun width => hf width g, (hf stext2Width g).1, (hf stext2Width g).2, ?_, ?_⟩
  · intro inp hwe hdue hutc
    obtain ⟨a, h⟩ := loopActive_returns inp g hutc
    refine ⟨a, h, ?_⟩
    unfold loopActive at h
    dsimp only at h
    generalize displayTime 8 5 _ _ _ _ _ _ = o1 at h
    cases o1 with
    | none => simp at h
    | some d1 =>
      dsimp only at h
      generalize displayTime 10 107 _ _ _ _ _ _ = o2 at h
      cases o2 with
      | none => simp at h
      | some d2 =>
        simp only [Option.some.injEq] at h
        subst h
        dsimp only
        rw [if_pos hdue, hwe]
        cases weather <;>
          by_cases hs : sub32 inp.currentMillis g.previousMillisForScroller
              ≥ toUnsigned g.bannerSpeed <;>
          simp [fetchWeatherData, loopScroll, hs, stext2Width]
  · intro d
    refine ⟨(hf 0 _).1, rfl, ?_⟩
    have hd : ∀ x : Globals, (drawOrredrawStaticElements x).1.scrollText = x.scrollText := by
      intro x
      cases hfr : x.refreshFrames <;> by_cases hc : x.refreshFramesCounter + 1 < 2 <;>
        simp [drawOrredrawStaticElements, hfr, hc]
    simp only [setup]
    rw [hd]
    exact (hf 0 _).2

/-- An instance of the amended C5, with the numbers of the claim: from
`renderedExample` (fallback message, 10 pixels wide, offset 309) a loop pass
in which the five-minute refresh and a banner tick are due replaces the
message by one 90 pixels wide and leaves the offset at 309, one tick after the
reset to 310; the `/setposition` handler leaves it at 310. -/
theorem fetchWeatherData_resets_offset_to_band_width_witness :
    (handleSetPosition (Body.doc true) (some weatherExampleText) renderedExample).globals.textX
      = 310 ∧
    ∃ a, loopActive { exampleInput 300000 false 0 with
                      weather := some weatherExampleText, textWidth := exampleMeasure }
        renderedExample = some a ∧
      a.1.scrollText = weatherExampleText ∧ a.1.textX = 309 :=
  ⟨(fetchWeatherData_resets_offset_to_band_width (some weatherExampleText)
      renderedExample).2.1,
   ((fetchWeatherData_resets_offset_to_band_width (some weatherExampleText)
      renderedExample).2.2.2.1 _ rfl (by decide) (by decide)).imp fun _ h =>
     ⟨h.1, h.2.1, h.2.2.trans (by decide)⟩⟩

/-! ## Rows wider than the line buffer -/

/-- The row callback on a row wider than its 480-entry buffer. -/
theorem pngDraw_wide (y w : Nat) (line : List Nat) (hw : 480 < w) : pngDraw y w line = none := by
  unfold pngDraw
  rw [if_neg (by omega)]

/-- An image wider than the line buffer that has a first row: the decode
overruns the buffer at that row, and so does `displayPNGfromSPIFFS`. -/
theorem displayPNG_wide (fs : List Char → Option PngFile) (filename : List Char) (d : Int)
    (f : PngFile) (w h : Nat) (hf : fs ('/' :: filename) = some f)
    (hh : f.header = some (w, h)) (hw : 480 < w) (hpos : 0 < h) (hrows : f.rows ≠ []) :
    pngDecode pngDraw { handle := f, width := w, height := h } = none ∧
    displayPNGfromSPIFFS true fs filename d = none := by
  have hdec : pngDecode pngDraw { handle := f, width := w, height := h } = none := by
    obtain ⟨n, rfl⟩ : ∃ n, h = n + 1 := ⟨h - 1, by omega⟩
    cases hr : f.rows with
    | nil => exact absurd hr hrows
    | cons line rest =>
      simp only [pngDecode, pngDecodeRows, hr, List.getElem?_cons_zero, pngDraw_wide _ _ _ hw]
  refine ⟨hdec, ?_⟩
  simp only [displayPNGfromSPIFFS, pngOpen_found fs filename f w h hf hh, hdec,
    Bool.not_true, Bool.false_eq_true, if_false]

/-- C18 amended: a stored image whose header announces `h` rows of `w` pixels
and whose data holds fewer rows. When `w` is at most 480, the size of the line
buffer, the decoder pushes one block for each row present, top to bottom,
pushes nothing for a later row and ends with `Truncated`;
`displayPNGfromSPIFFS` discards that result, and its calls are the open, the
log line, `startWrite`, those blocks, `endWrite` and the delay. When `w` is
above 480 and a first row is present, the row callback overruns the line
buffer at that row and nothing is defined. With no row present at all the
callback is never called and the calls are the same without blocks. -/
theorem displayPNG_truncated_paints_present_rows (fs : List Char → Option PngFile)
    (filename : List Char) (d : Int) (f : PngFile) (w h : Nat)
    (hf : fs ('/' :: filename) = some f) (hh : f.header = some (w, h))
    (hk : f.rows.length < h) :
    (w ≤ 480 →
      pngDecode pngDraw { handle := f, width := w, height := h }
        = some (some DecodeError.Truncated, rowBlocks w f.rows 0) ∧
      displayPNGfromSPIFFS true fs filename d
        = some ([Effect.spiffsOpen ('/' :: filename),
                 Effect.serialPrintln ("Displaying PNG: " ++ String.mk filename),
                 Effect.startWrite] ++ rowBlocks w f.rows 0 ++
                [Effect.endWrite, Effect.delay d]) ∧
      (rowBlocks w f.rows 0).length = f.rows.length ∧
      (∀ (k : Nat) (line : List Nat), f.rows[k]? = some line →
        (rowBlocks w f.rows 0)[k]? = some (Effect.pushImage 0 (k : Int) w 1 line))) ∧
    (480 < w → f.rows ≠ [] →
      pngDecode pngDraw { handle := f, width := w, height := h } = none ∧
      displayPNGfromSPIFFS true fs filename d = none) ∧
    (f.rows = [] →
      pngDecode pngDraw { handle := f, width := w, height := h }
        = some (some DecodeError.Truncated, []) ∧
      displayPNGfromSPIFFS true fs filename d
        = some [Effect.spiffsOpen ('/' :: filename),
                Effect.serialPrintln ("Displaying PNG: " ++ String.mk filename),
                Effect.startWrite, Effect.endWrite, Effect.delay d]) := by
  have htake : f.rows.take h = f.rows := List.take_of_length_le (by omega)
  refine ⟨?_, ?_, ?_⟩
  · intro hw
    refine ⟨?_, ?_, rowBlocks_length w f.rows 0, ?_⟩
    · have hdec := pngDecodeRows_spec { handle := f, width := w, height := h } hw h 0
        (Nat.zero_le _)
      simp only [List.drop_zero, htake] at hdec
      rw [pngDecode, hdec, if_neg (by simp only [Nat.zero_add]; omega)]
    · rw [displayPNG_found fs filename d f w h hf hh hw, htake]
    · intro k line hrow
      have := rowBlocks_getElem? w f.rows 0 k line hrow
      simpa using this
  · intro hw hrows
    exact displayPNG_wide fs filename d f w h hf hh hw (by omega) hrows
  · intro hrows
    have hdec : pngDecode pngDraw { handle := f, width := w, height := h }
        = some (some DecodeError.Truncated, []) := by
      obtain ⟨n, rfl⟩ : ∃ n, h = n + 1 := ⟨h - 1, by omega⟩
      simp only [pngDecode, pngDecodeRows, hrows, List.getElem?_nil]
    refine ⟨hdec, ?_⟩
    simp only [displayPNGfromSPIFFS, pngOpen_found fs filename f w h hf hh, hdec,
      Bool.not_true, Bool.false_eq_true, if_false, List.append_nil, List.cons_append,
      List.nil_append]

/-- The instance of the amended C18: 40 rows of 2 pixels announced, 30 present. -/
theorem displayPNG_truncated_paints_present_rows_witness :
    pngDecode pngDraw { handle := truncatedFile, width := 2, height := 40 }
      = some (some DecodeError.Truncated, rowBlocks 2 truncatedFile.rows 0) ∧
    displayPNGfromSPIFFS true truncatedStore "logo4.png".toList 0
      = some ([Effect.spiffsOpen ('/' :: "logo4.png".toList),
               Effect.serialPrintln ("Displaying PNG: " ++ String.mk "logo4.png".toList),
               Effect.startWrite] ++ rowBlocks 2 truncatedFile.rows 0 ++
              [Effect.endWrite, Effect.delay 0]) ∧
    (rowBlocks 2 truncatedFile.rows 0).length = truncatedFile.rows.length ∧
    (∀ (k : Nat) (line : List Nat), truncatedFile.rows[k]? = some line →
      (rowBlocks 2 truncatedFile.rows 0)[k]? = some (Effect.pushImage 0 (k : Int) 2 1 line)) :=
  (displayPNG_truncated_paints_present_rows truncatedStore "logo4.png".toList 0 truncatedFile
    2 40 (by decide) (by decide) (by decide)).1 (by decide)

/-- C20 fails on the code for images wider than 480 pixels. For an image of
width `w` at most 480 the row callback called for row `y` makes exactly one
call, a set-pixel-block of width `w` and height 1 at `(0, y)`; the decoder
calls it for row `y` before it goes on to row `y + 1`; the blocks of a decode
are one per decoded row, in row order, and they are the blocks between
`startWrite` and `endWrite` in the calls of `displayPNGfromSPIFFS`. For `w`
above 480 the callback fills and reads `w` entries of its 480-entry
`lineBuffer`: it overruns the buffer and emits no defined block, so a decode
that reaches a first row, and `displayPNGfromSPIFFS` with it, has no defined
outcome. The stored image `wideFile`, one row of 481 pixels under the upload
name `/logo4.png`, is opened successfully and is such a case. -/
theorem pngDraw_wide_row_overruns_buffer (img : PngImage) :
    (img.width ≤ 480 →
      (∀ (y : Nat) (line : List Nat),
        pngDraw y img.width line = some [Effect.pushImage 0 (y : Int) img.width 1 line]) ∧
      (∀ (n y : Nat) (line : List Nat), img.handle.rows[y]? = some line →
        pngDecodeRows pngDraw img (n + 1) y
          = (pngDecodeRows pngDraw img n (y + 1)).map
              (fun r => (r.1, Effect.pushImage 0 (y : Int) img.width 1 line :: r.2))) ∧
      (∃ res, pngDecode pngDraw img
        = some (res, rowBlocks img.width (img.handle.rows.take img.height) 0)) ∧
      (rowBlocks img.width (img.handle.rows.take img.height) 0).length
        = min img.height img.handle.rows.length ∧
      (∀ (k : Nat) (line : List Nat), k < img.height → img.handle.rows[k]? = some line →
        (rowBlocks img.width (img.handle.rows.take img.height) 0)[k]?
          = some (Effect.pushImage 0 (k : Int) img.width 1 line)) ∧
      (∀ (fs : List Char → Option PngFile) (filename : List Char) (d : Int),
        fs ('/' :: filename) = some img.handle →
        img.handle.header = some (img.width, img.height) →
        displayPNGfromSPIFFS true fs filename d
          = some ([Effect.spiffsOpen ('/' :: filename),
                   Effect.serialPrintln ("Displaying PNG: " ++ String.mk filename),
                   Effect.startWrite] ++
                  rowBlocks img.width (img.handle.rows.take img.height) 0 ++
                  [Effect.endWrite, Effect.delay d]))) ∧
    (480 < img.width →
      (∀ (y : Nat) (line : List Nat), pngDraw y img.width line = none) ∧
      (∀ (fs : List Char → Option PngFile) (filename : List Char) (d : Int),
        fs ('/' :: filename) = some img.handle →
        img.handle.header = some (img.width, img.height) →
        0 < img.height → img.handle.rows ≠ [] →
        pngDecode pngDraw img = none ∧ displayPNGfromSPIFFS true fs filename d = none)) ∧
    pngOpen wideStore "logo4.png".toList
      = (OpenResult.ok { handle := wideFile, width := 481, height := 1 },
         [Effect.spiffsOpen "/logo4.png".toList]) ∧
    pngDraw 0 481 (List.replicate 481 0xFFFF) = none ∧
    displayPNGfromSPIFFS true wideStore "logo4.png".toList 3000 = none := by
  refine ⟨?_, ?_, by rfl, by rfl, by rfl⟩
  · intro hw
    have hdraw : ∀ (y : Nat) (line : List Nat),
        pngDraw y img.width line = some [Effect.pushImage 0 (y : Int) img.width 1 line] := by
      intro y line
      simp [pngDraw, hw]
    refine ⟨hdraw, ?_, ?_, ?_, ?_, ?_⟩
    · intro n y line hrow
      conv_lhs => unfold pngDecodeRows
      simp only [hrow, hdraw]
      cases pngDecodeRows pngDraw img n (y + 1) with
      | none => rfl
      | some r => rfl
    · have hdec := pngDecodeRows_spec img hw img.height 0 (Nat.zero_le _)
      simp only [List.drop_zero] at hdec
      exact ⟨_, hdec⟩
    · rw [rowBlocks_length, List.length_take]
    · intro k line hk hrow
      have hrow' : (img.handle.rows.take img.height)[k]? = some line := by
        rw [List.getElem?_take_of_lt hk]
        exact hrow
      have := rowBlocks_getElem? img.width _ 0 k line hrow'
      simpa using this
    · intro fs filename d hf hh
      exact displayPNG_found fs filename d img.handle img.width img.height hf hh hw
  · intro hw
    refine ⟨fun y line => pngDraw_wide y img.width line hw, ?_⟩
    intro fs filename d hf hh hpos hrows
    exact displayPNG_wide fs filename d img.handle img.width img.height hf hh hw hpos hrows

/-- Instances of C20: the complete 2-by-2 image `logoImage`, whose rows give
one block each, and the image of `wideFile`, whose display is undefined. -/
theorem pngDraw_wide_row_overruns_buffer_witness :
    (∀ (y : Nat) (line : List Nat),
      pngDraw y logoImage.width line
        = some [Effect.pushImage 0 (y : Int) logoImage.width 1 line]) ∧
    (∃ res, pngDecode pngDraw logoImage
      = some (res, rowBlocks logoImage.width
          (logoImage.handle.rows.take logoImage.height) 0)) ∧
    displayPNGfromSPIFFS true wideStore "logo4.png".toList 3000 = none :=
  ⟨((pngDraw_wide_row_overruns_buffer logoImage).1 (by decide)).1,
   ((pngDraw_wide_row_overruns_buffer logoImage).1 (by decide)).2.2.1,
   (((pngDraw_wide_row_overruns_buffer
      { handle := wideFile, width := 481, height := 1 }).2.1 (by decide)).2
      wideStore "logo4.png".toList 3000 (by rfl) (by rfl) (by decide)
      (List.cons_ne_nil _ _)).2⟩

end HamClock
